import Mathlib

/-!
# MQTT connection bridge (`src/native/mqtt_connection.c`)

A shallow embedding of the JNI bridge between the managed `MqttClientConnection`
peer and the native protocol engine.  The world of one connection handle is a
`State`; every C function of the file is a function on `State`.  Everything the
bridge does to its collaborators (the protocol engine, the managed runtime, the
allocator) is appended to `State.trace`, in program order.

Results that the C code obtains from collaborators and branches on are explicit
arguments of the embedded function:

* `Jvm.thread_env`        : `aws_jni_acquire_thread_env` returned non-NULL;
* `Jvm.peer_alive`        : `NewLocalRef` of the weak peer reference is non-NULL;
* `Jvm.exception_pending` : `aws_jni_check_and_clear_exception` after the
  managed call made by the callback;
* `..._ok`, `msg_id`      : what the engine call returned.
-/

set_option linter.unusedVariables false

namespace MqttConnection

/-! ## Data model -/

/-- A non-null reference to a managed object (`jobject`). -/
abbrev JObject := Nat

/-- Address of a `struct mqtt_jni_async_callback` (the callback token). -/
abbrev TokenId := Nat

/-- Address of a `struct mqtt_jni_ws_handshake` (the handshake bridge object). -/
abbrev WsId := Nat

/-- Largest `size_t` value: the atomic reference count wraps around it. -/
def SIZE_MAX : Nat := 18446744073709551615

/-- The aws error codes used by the file.  Their definitions live in the
aws-c-common and aws-c-mqtt headers, which are not part of the sources, so the
values are taken as a parameter.  `AWS_ERROR_SUCCESS` is `0` (the C code tests
`error_code` against zero). -/
structure ErrorCodes where
  AWS_ERROR_OOM : Int
  AWS_ERROR_UNKNOWN : Int
  AWS_ERROR_INVALID_STATE : Int
  AWS_ERROR_MQTT_CONNECTION_SUBSCRIBE_FAILURE : Int
deriving DecidableEq, Repr

/-- `AWS_ERROR_SUCCESS`. -/
def AWS_ERROR_SUCCESS : Int := 0

/-- A `void *user_data` handed to the engine. -/
inductive UserData
  | null
  | connection
  | callback (id : TokenId)
deriving DecidableEq, Repr

/-- The two disconnect-completion functions of the file. -/
inductive DisconnectFn
  | s_on_shutdown_disconnect_complete
  | s_on_connection_disconnected
deriving DecidableEq, Repr

/-- The fields of `struct aws_socket_options` the file writes. -/
structure SocketOptions where
  stream : Bool
  connect_timeout_ms : Nat
deriving DecidableEq, Repr

/-- The `struct aws_mqtt_connection_options` built by the connect dispatcher. -/
structure ConnectOptions where
  host_name : Option String
  port : Nat
  socket_options : SocketOptions
  tls_options : Bool
  client_id : Option String
  keep_alive_time_secs : Nat
  ping_timeout_ms : Int
  protocol_operation_timeout_ms : Int
  clean_session : Bool
  user_data : TokenId
deriving DecidableEq, Repr

/-- Calls into the protocol engine (`aws_mqtt_client_connection_*`). -/
inductive EngineCall
  | connect (options : ConnectOptions)
  | disconnect (on_disconnect : DisconnectFn) (user_data : UserData)
  | subscribe (topic : Option String) (qos : Int) (handler : TokenId) (sub_ack : Option TokenId)
  | unsubscribe (topic : Option String) (unsub_ack : TokenId)
  | publish (topic : Option String) (qos : Int) (retain : Bool) (payload : List Nat)
      (pub_ack : TokenId)
  | set_on_any_publish_handler (handler : TokenId)
  | set_will (topic : Option String) (qos : Int) (retain : Bool) (payload : List Nat)
  | set_login (username : Option String) (password : Option String)
  | set_reconnect_timeout (min_timeout : Int) (max_timeout : Int)
  | set_http_proxy_options (host : String) (port : Nat) (tls : Bool)
  | use_websockets
  | get_stats
  | release
  | connection_new
  | set_connection_termination_handler
  | set_connection_result_handlers
  | set_connection_interruption_handlers
  | set_connection_closed_handler
deriving DecidableEq, Repr

/-- Methods invoked on the managed `MqttClientConnection` peer. -/
inductive PeerCall
  | on_connection_complete (error_code : Int) (session_present : Bool)
  | on_connection_interrupted (error_code : Int) (ack_callback : Option JObject)
  | on_connection_success (session_present : Bool)
  | on_connection_failure (error_code : Int)
  | on_connection_resumed (session_present : Bool)
  | on_connection_closed
  | release_references
  | on_websocket_handshake (java_http_request : JObject) (ws_handshake : WsId)
deriving DecidableEq, Repr

/-- Everything the bridge does to the outside, in program order. -/
inductive Event
  /-- a call into the protocol engine -/
  | engine (c : EngineCall)
  /-- `aws_jni_throw_runtime_exception(env, msg)` -/
  | throw_runtime_exception (msg : String)
  /-- `CallVoidMethod` on the managed peer -/
  | peer (c : PeerCall)
  /-- `async_callback.onSuccess()` -/
  | on_success (cb : JObject)
  /-- `async_callback.onFailure(new MqttException(error_code))` -/
  | on_failure (cb : JObject) (error_code : Int)
  /-- `MessageHandler.deliver(topic, payload, dup, qos, retain)` -/
  | deliver (cb : JObject) (topic : String) (payload : List Nat) (dup : Bool) (qos : Int)
      (retain : Bool)
  /-- `aws_mem_calloc` of a callback token -/
  | callback_alloc (id : TokenId)
  /-- `aws_mem_release` of a callback token -/
  | callback_free (id : TokenId)
  | new_global_ref (obj : JObject)
  | delete_global_ref (obj : JObject)
  | byte_buf_clean_up (id : TokenId)
  /-- `aws_jni_acquire_thread_env`, with whether it returned an environment -/
  | acquire_thread_env (ok : Bool)
  | release_thread_env
  /-- `fetch_add` on the reference count, with the old value -/
  | connection_acquire (old_value : Nat)
  /-- `fetch_sub` on the reference count, with the old value -/
  | connection_release (old_value : Nat)
  | delete_weak_global_ref (ref : JObject)
  | tls_connection_options_clean_up
  /-- clean-up of the proxy dispatcher's local TLS options -/
  | proxy_tls_options_clean_up
  /-- `aws_mem_release(allocator, connection)`: the handle memory is freed -/
  | connection_free
  | ws_alloc (id : WsId)
  | ws_free (id : WsId)
  /-- the engine-supplied handshake completion function -/
  | complete_fn (request : Nat) (error_code : Int) (complete_ctx : Nat)
  | raise_error (error_code : Int)
  /-- `aws_apply_java_http_request_changes_to_native_request` on a request -/
  | apply_http_request_changes (request : Nat)
  /-- a failed `AWS_FATAL_ASSERT`: the process terminates -/
  | fatal_assert
  /-- a read through a NULL `struct mqtt_jni_connection *` -/
  | null_dereference
deriving DecidableEq, Repr

/-- The callback token, `struct mqtt_jni_async_callback`.  Its `connection`
back-pointer is the one handle of the `State`; its `buffer` is created empty
and only cleaned up, so it carries no data here. -/
structure mqtt_jni_async_callback where
  async_callback : Option JObject
deriving DecidableEq, Repr

/-- The handshake bridge object, `struct mqtt_jni_ws_handshake` (its
`connection` is the one handle of the `State`). -/
structure mqtt_jni_ws_handshake where
  http_request : Nat
  complete_ctx : Nat
deriving DecidableEq, Repr

/-- The connection handle, `struct mqtt_jni_connection`. -/
structure mqtt_jni_connection where
  ref_count : Nat
  java_mqtt_connection : Option JObject
  on_message : Option TokenId
  socket_options : SocketOptions
  tls_options : Bool
deriving DecidableEq, Repr

/-- A completion the engine has accepted and will invoke later. -/
inductive Pending
  /-- `s_on_connection_complete`, registered by connect -/
  | on_connection_complete (user_data : TokenId)
  /-- `s_on_connection_disconnected`, registered by a disconnect -/
  | on_connection_disconnected (user_data : TokenId)
  /-- `s_on_shutdown_disconnect_complete`, registered by the destroy request -/
  | on_shutdown_disconnect_complete
  /-- `s_on_op_complete`, registered by unsubscribe and publish -/
  | on_op_complete (user_data : TokenId)
  /-- `s_on_ack`, registered by subscribe -/
  | on_ack (user_data : Option TokenId)
  /-- `s_cleanup_handler` of a subscription, registered by subscribe -/
  | on_cleanup (user_data : TokenId)
deriving DecidableEq, Repr

/-- The error indicator handed to the handshake completion call. -/
inductive Throwable
  | crt_runtime_exception (error_code : Int)
  | other
deriving DecidableEq, Repr

/-- The snapshot `struct aws_mqtt_connection_operation_statistics`. -/
structure OperationStatistics where
  incomplete_operation_count : Nat
  incomplete_operation_size : Nat
  unacked_operation_count : Nat
  unacked_operation_size : Nat
deriving DecidableEq, Repr

/-- What the managed runtime answers during one callback. -/
structure Jvm where
  thread_env : Bool
  peer_alive : Bool
  exception_pending : Bool
deriving DecidableEq, Repr

/-- The world of one connection handle. -/
structure State where
  connection : mqtt_jni_connection
  /-- the handle memory has been given back to the allocator -/
  connection_freed : Bool
  /-- every token allocated so far; a token's address is its index -/
  callbacks : List mqtt_jni_async_callback
  /-- every handshake bridge object allocated so far, by index -/
  ws_handshakes : List mqtt_jni_ws_handshake
  /-- completions registered with the engine and not fired yet -/
  pending : List Pending
  /-- the engine still owes the termination notification -/
  termination_pending : Bool
  /-- thread-local `aws_last_error()` -/
  last_error : Int
  /-- a fatal assertion or a null dereference ended the process -/
  crashed : Bool
  trace : List Event
deriving DecidableEq, Repr

/-! ## Primitives -/

/-- Append one event to the trace. -/
def State.emit (s : State) (e : Event) : State :=
  { s with trace := s.trace ++ [e] }

/-- The engine accepted a submission: its completion is now pending. -/
def State.register (s : State) (p : Pending) : State :=
  { s with pending := s.pending ++ [p] }

/-- A failed `AWS_FATAL_ASSERT`. -/
def State.fatal (s : State) : State :=
  { s with trace := s.trace ++ [Event.fatal_assert], crashed := true }

/-- `aws_raise_error`. -/
def State.raise (s : State) (error_code : Int) : State :=
  { s with last_error := error_code, trace := s.trace ++ [Event.raise_error error_code] }

/-- A read through an invalid pointer: the process terminates. -/
def State.segfault (s : State) : State :=
  { s with trace := s.trace ++ [Event.null_dereference], crashed := true }

/-- Store into `connection->socket_options`. -/
def State.set_socket_options (s : State) (socket_options : SocketOptions) : State :=
  { s with connection := { s.connection with socket_options := socket_options } }

/-- Initialise `connection->tls_options` from a TLS context. -/
def State.init_tls_options (s : State) : State :=
  { s with connection := { s.connection with tls_options := true } }

/-- Store into `connection->on_message`. -/
def State.set_on_message (s : State) (handler : TokenId) : State :=
  { s with connection := { s.connection with on_message := some handler } }

/-- A collaborator failed and left `error_code` as the thread's last error. -/
def State.set_last_error (s : State) (error_code : Int) : State :=
  { s with last_error := error_code }

/-- Allocate a handshake bridge object at the next free address and fill in
its request and completion context. -/
def State.alloc_ws_handshake (s : State) (request : Nat) (complete_ctx : Nat) : State :=
  { s with
    ws_handshakes := s.ws_handshakes ++ [{ http_request := request, complete_ctx := complete_ctx }]
    trace := s.trace ++ [Event.ws_alloc s.ws_handshakes.length] }

/-- `aws_mem_release(allocator, connection)`. -/
def State.free_connection (s : State) : State :=
  { s with connection_freed := true, trace := s.trace ++ [Event.connection_free] }

/-- The engine hands out its one termination notification. -/
def State.fire_termination (s : State) : State :=
  { s with termination_pending := false }

/-- The engine takes a pending completion out of its registry to invoke it. -/
def State.take (s : State) (p : Pending) : State :=
  { s with pending := s.pending.erase p }

/-- Number of times the token `id` was released to the allocator. -/
def State.destroy_count (s : State) (id : TokenId) : Nat :=
  s.trace.count (Event.callback_free id)

/-- Number of times the token `id` was allocated. -/
def State.alloc_count (s : State) (id : TokenId) : Nat :=
  s.trace.count (Event.callback_alloc id)

/-- Number of times the engine connection object was released. -/
def State.release_count (s : State) : Nat :=
  s.trace.count (Event.engine EngineCall.release)

/-- Number of `onConnectionInterrupted(error_code, ack)` calls made on the peer. -/
def State.interrupted_count (s : State) (error_code : Int) (ack : Option JObject) : Nat :=
  s.trace.count (Event.peer (PeerCall.on_connection_interrupted error_code ack))

/-- Number of times the handle memory was released to the allocator. -/
def State.free_count (s : State) : Nat :=
  s.trace.count Event.connection_free

/-- The engine calls in a trace. -/
def engine_calls (t : List Event) : List EngineCall :=
  t.filterMap (fun e => match e with | Event.engine c => some c | _ => none)

/-- The exceptions thrown to the managed caller in a trace. -/
def thrown (t : List Event) : List String :=
  t.filterMap (fun e => match e with | Event.throw_runtime_exception m => some m | _ => none)

/-- The notifications delivered to ack callbacks in a trace. -/
def ack_deliveries (t : List Event) : List Event :=
  t.filter (fun e => match e with
    | Event.on_success _ => true
    | Event.on_failure _ _ => true
    | _ => false)

/-- `callback->async_callback`. -/
def State.async_callback (s : State) (callback : TokenId) : Option JObject :=
  match s.callbacks[callback]? with
  | some c => c.async_callback
  | none => none

/-- `(*env)->NewLocalRef(env, connection->java_mqtt_connection)`: the peer, if
it has not been collected. -/
def new_local_ref (s : State) (jvm : Jvm) : Option JObject :=
  if jvm.peer_alive then s.connection.java_mqtt_connection else none

/-- A `uint16_t` packet id returned through the signed 16-bit `jshort`. -/
def to_jshort (msg_id : Nat) : Int :=
  if msg_id % 65536 < 32768 then (msg_id % 65536 : Nat) else ((msg_id % 65536 : Nat) : Int) - 65536

/-! ## Reference count and tokens -/

/-- `s_mqtt_jni_connection_acquire`. -/
def s_mqtt_jni_connection_acquire (s : State) : State :=
  let old_value := s.connection.ref_count
  { s with
    connection := { s.connection with
      ref_count := if old_value = SIZE_MAX then 0 else old_value + 1 }
    trace := s.trace ++ [Event.connection_acquire old_value] }

/-- `s_mqtt_jni_connection_release`: decrements, and does nothing else. -/
def s_mqtt_jni_connection_release (s : State) : State :=
  let old_value := s.connection.ref_count
  { s with
    connection := { s.connection with
      ref_count := if old_value = 0 then SIZE_MAX else old_value - 1 }
    trace := s.trace ++ [Event.connection_release old_value] }

/-- `s_on_shutdown_disconnect_complete`: releases the engine connection. -/
def s_on_shutdown_disconnect_complete (s : State) : State :=
  s.emit (Event.engine EngineCall.release)

/-- `s_mqtt_jni_connection_destroy`; `disconnect_ok` is whether
`aws_mqtt_client_connection_disconnect` returned `AWS_OP_SUCCESS`. -/
def s_mqtt_jni_connection_destroy (s : State) (disconnect_ok : Bool) : State :=
  let s := s.emit (Event.engine (EngineCall.disconnect
    DisconnectFn.s_on_shutdown_disconnect_complete UserData.connection))
  if disconnect_ok then
    s.register Pending.on_shutdown_disconnect_complete
  else
    s_on_shutdown_disconnect_complete s

/-- The body of `s_mqtt_jni_async_callback_new` past its NULL test: allocate
the token at the next free address and pin the managed callback, if any. -/
def State.alloc_callback (s : State) (async_callback : Option JObject) : State :=
  let id := s.callbacks.length
  let s := s.emit (Event.callback_alloc id)
  let s := match async_callback with
    | some obj => s.emit (Event.new_global_ref obj)
    | none => s
  { s with callbacks := s.callbacks ++ [{ async_callback := async_callback }] }

/-- `s_mqtt_jni_async_callback_new`; `env` is whether the `JNIEnv *` is
non-NULL.  The allocation cannot fail (source comment). -/
def s_mqtt_jni_async_callback_new (s : State) (async_callback : Option JObject) (env : Bool) :
    State × Option TokenId :=
  if !env then (s, none)
  else (s.alloc_callback async_callback, some s.callbacks.length)

/-- The body of `s_mqtt_jni_async_callback_destroy` past its NULL test: unpin
the managed callback, clean the buffer up and release the token. -/
def State.free_callback (s : State) (callback : TokenId) : State :=
  let s := match s.async_callback callback with
    | some obj => s.emit (Event.delete_global_ref obj)
    | none => s
  let s := s.emit (Event.byte_buf_clean_up callback)
  s.emit (Event.callback_free callback)

/-- `s_mqtt_jni_async_callback_destroy`; without an environment it returns
before releasing anything. -/
def s_mqtt_jni_async_callback_destroy (s : State) (callback : TokenId) (env : Bool) : State :=
  if !env then s
  else s.free_callback callback

/-! ## Connection callbacks invoked by the engine -/

/-- `s_on_connection_complete`; `disconnect_ok` is the (ignored) result of the
disconnect issued when the managed callback threw. -/
def s_on_connection_complete (s : State) (error_code : Int) (session_present : Bool)
    (user_data : TokenId) (jvm : Jvm) (disconnect_ok : Bool) : State :=
  let connect_callback := user_data
  let s := s.emit (Event.acquire_thread_env jvm.thread_env)
  if !jvm.thread_env then s
  else
    let finish (s : State) : State :=
      let s := s_mqtt_jni_async_callback_destroy s connect_callback true
      let s := s.emit Event.release_thread_env
      s_mqtt_jni_connection_release s
    match new_local_ref s jvm with
    | some _ =>
      let s := s.emit (Event.peer (PeerCall.on_connection_complete error_code session_present))
      if jvm.exception_pending then
        let s := s.emit Event.release_thread_env
        let s := s.emit (Event.engine (EngineCall.disconnect
          DisconnectFn.s_on_connection_disconnected (UserData.callback connect_callback)))
        if disconnect_ok then
          s.register (Pending.on_connection_disconnected connect_callback)
        else s
      else finish s
    | none => finish s

/-- `s_on_connection_interrupted_internal` (the environment is asserted
non-NULL by its callers). -/
def s_on_connection_interrupted_internal (s : State) (error_code : Int)
    (ack_callback : Option JObject) (jvm : Jvm) : State :=
  match new_local_ref s jvm with
  | some _ =>
    let s := s.emit (Event.peer (PeerCall.on_connection_interrupted error_code ack_callback))
    if jvm.exception_pending then s.fatal else s
  | none => s

/-- `s_on_connection_interrupted`. -/
def s_on_connection_interrupted (s : State) (error_code : Int) (jvm : Jvm) : State :=
  let s := s.emit (Event.acquire_thread_env jvm.thread_env)
  if !jvm.thread_env then s
  else
    let s := s_on_connection_interrupted_internal s error_code none jvm
    if s.crashed then s else s.emit Event.release_thread_env

/-- `s_on_connection_success`. -/
def s_on_connection_success (s : State) (session_present : Bool) (jvm : Jvm) : State :=
  let s := s.emit (Event.acquire_thread_env jvm.thread_env)
  if !jvm.thread_env then s
  else
    match new_local_ref s jvm with
    | some _ =>
      let s := s.emit (Event.peer (PeerCall.on_connection_success session_present))
      if jvm.exception_pending then s.fatal else s.emit Event.release_thread_env
    | none => s.emit Event.release_thread_env

/-- `s_on_connection_failure`. -/
def s_on_connection_failure (s : State) (error_code : Int) (jvm : Jvm) : State :=
  let s := s.emit (Event.acquire_thread_env jvm.thread_env)
  if !jvm.thread_env then s
  else
    match new_local_ref s jvm with
    | some _ =>
      let s := s.emit (Event.peer (PeerCall.on_connection_failure error_code))
      if jvm.exception_pending then s.fatal else s.emit Event.release_thread_env
    | none => s.emit Event.release_thread_env

/-- `s_on_connection_resumed`. -/
def s_on_connection_resumed (s : State) (session_present : Bool) (jvm : Jvm) : State :=
  let s := s.emit (Event.acquire_thread_env jvm.thread_env)
  if !jvm.thread_env then s
  else
    match new_local_ref s jvm with
    | some _ =>
      let s := s.emit (Event.peer (PeerCall.on_connection_resumed session_present))
      if jvm.exception_pending then s.fatal else s.emit Event.release_thread_env
    | none => s.emit Event.release_thread_env

/-- `s_on_connection_disconnected`: notifies the peer and destroys the token;
it does not release the handle reference.  Its closing exception assertion
follows the one already made by `s_on_connection_interrupted_internal`, with
no managed call in between. -/
def s_on_connection_disconnected (s : State) (user_data : TokenId) (jvm : Jvm) : State :=
  let connect_callback := user_data
  let s := s.emit (Event.acquire_thread_env jvm.thread_env)
  if !jvm.thread_env then s
  else
    let s := s_on_connection_interrupted_internal s 0 (s.async_callback connect_callback) jvm
    if s.crashed then s
    else
      let s := s_mqtt_jni_async_callback_destroy s connect_callback true
      s.emit Event.release_thread_env

/-- `s_on_connection_closed`; the `IsSameObject` test against NULL and the
`NewLocalRef` both succeed exactly when the peer has not been collected. -/
def s_on_connection_closed (s : State) (jvm : Jvm) : State :=
  let s := s.emit (Event.acquire_thread_env jvm.thread_env)
  if !jvm.thread_env then s
  else
    match new_local_ref s jvm with
    | some _ =>
      let s := s.emit (Event.peer PeerCall.on_connection_closed)
      if jvm.exception_pending then s.fatal else s.emit Event.release_thread_env
    | none => s.emit Event.release_thread_env

/-- `s_mqtt_connection_destroy` (called with a non-NULL connection and
environment by the termination callback). -/
def s_mqtt_connection_destroy (s : State) : State :=
  let s := match s.connection.on_message with
    | some on_message => s_mqtt_jni_async_callback_destroy s on_message true
    | none => s
  let s := match s.connection.java_mqtt_connection with
    | some ref => s.emit (Event.delete_weak_global_ref ref)
    | none => s
  let s := s.emit Event.tls_connection_options_clean_up
  s.free_connection

/-- `s_on_connection_terminated`. -/
def s_on_connection_terminated (s : State) (jvm : Jvm) : State :=
  let s := s.emit (Event.acquire_thread_env jvm.thread_env)
  if !jvm.thread_env then s
  else
    let s := match new_local_ref s jvm with
      | some _ => s.emit (Event.peer PeerCall.release_references)
      | none => s
    let s := s_mqtt_connection_destroy s
    s.emit Event.release_thread_env

/-! ## Disconnect and connect dispatchers

A `jni_connection` of `0` is the NULL handle; any other value is the address of
the handle carried by the `State`.  The `JNIEnv *` a dispatcher receives from
the managed caller is non-NULL. -/

/-- `Java_..._mqttClientConnectionDestroy`: the handle is passed on unchecked
to `s_mqtt_jni_connection_destroy`, which reads `connection->client_connection`. -/
def mqttClientConnectionDestroy (s : State) (jni_connection : Int) (disconnect_ok : Bool) :
    State :=
  if jni_connection == 0 then s.segfault
  else s_mqtt_jni_connection_destroy s disconnect_ok

/-- `Java_..._mqttClientConnectionConnect`; `connect_ok` is whether
`aws_mqtt_client_connection_connect` returned `AWS_OP_SUCCESS`. -/
def mqttClientConnectionConnect (s : State) (jni_connection : Int)
    (jni_endpoint : Option String) (jni_port : Int) (jni_socket_options : Option SocketOptions)
    (jni_tls_ctx : Bool) (jni_client_id : Option String) (jni_clean_session : Bool)
    (keep_alive_secs : Int) (ping_timeout_ms : Int) (protocol_operation_timeout_ms : Int)
    (connect_ok : Bool) : State :=
  if jni_connection == 0 then
    s.emit (Event.throw_runtime_exception
      "MqttClientConnection.mqtt_connect: Connection is invalid/null")
  else
    let port : Nat := (jni_port % 2 ^ 32).toNat
    if port == 0 then
      s.emit (Event.throw_runtime_exception
        "MqttClientConnection.mqtt_new: Endpoint should be in the format hostname:port and port must not be 0")
    else
      match s_mqtt_jni_async_callback_new s none true with
      | (s, none) =>
        s.emit (Event.throw_runtime_exception
          "MqttClientConnection.mqtt_connect: Failed to create async callback")
      | (s, some connect_callback) =>
        let s := s_mqtt_jni_connection_acquire s
        let default_socket_options : SocketOptions := { stream := true, connect_timeout_ms := 3000 }
        let socket_options := match jni_socket_options with
          | some o => o
          | none => default_socket_options
        let s := s.set_socket_options socket_options
        let s := if jni_tls_ctx then s.init_tls_options else s
        let connect_options : ConnectOptions :=
          { host_name := jni_endpoint
            port := port
            socket_options := s.connection.socket_options
            tls_options := jni_tls_ctx
            client_id := jni_client_id
            keep_alive_time_secs := (keep_alive_secs % 2 ^ 16).toNat
            ping_timeout_ms := ping_timeout_ms
            protocol_operation_timeout_ms := protocol_operation_timeout_ms
            clean_session := jni_clean_session
            user_data := connect_callback }
        let s := s.emit (Event.engine (EngineCall.connect connect_options))
        if connect_ok then
          s.register (Pending.on_connection_complete connect_callback)
        else
          let s := s_mqtt_jni_connection_release s
          let s := s_mqtt_jni_async_callback_destroy s connect_callback true
          s.emit (Event.throw_runtime_exception
            "MqttClientConnection.mqtt_connect: aws_mqtt_client_connection_connect failed")

/-- `Java_..._mqttClientConnectionDisconnect`; `jvm` is what the runtime
answers to the synchronous `s_on_connection_disconnected` call made when
the engine refuses the disconnect. -/
def mqttClientConnectionDisconnect (s : State) (jni_connection : Int) (jni_ack : Option JObject)
    (disconnect_ok : Bool) (jvm : Jvm) : State :=
  if jni_connection == 0 then
    s.emit (Event.throw_runtime_exception "MqttClientConnection.mqtt_disconnect: Invalid connection")
  else
    match s_mqtt_jni_async_callback_new s jni_ack true with
    | (s, none) =>
      s.emit (Event.throw_runtime_exception
        "MqttClientConnection.mqtt_disconnect: Failed to create async callback")
    | (s, some disconnect_callback) =>
      let s := s.emit (Event.engine (EngineCall.disconnect
        DisconnectFn.s_on_connection_disconnected (UserData.callback disconnect_callback)))
      if disconnect_ok then
        s.register (Pending.on_connection_disconnected disconnect_callback)
      else
        s_on_connection_disconnected s disconnect_callback jvm

/-! ## Acknowledgements -/

/-- `s_deliver_ack_success`. -/
def s_deliver_ack_success (s : State) (callback : TokenId) (jvm : Jvm) : State :=
  match s.async_callback callback with
  | some cb =>
    let s := s.emit (Event.on_success cb)
    if jvm.exception_pending then s.fatal else s
  | none => s

/-- `s_deliver_ack_failure`. -/
def s_deliver_ack_failure (s : State) (callback : TokenId) (error_code : Int) (jvm : Jvm) :
    State :=
  match s.async_callback callback with
  | some cb =>
    let s := s.emit (Event.on_failure cb error_code)
    if jvm.exception_pending then s.fatal else s
  | none => s

/-- `s_on_op_complete`: called from any sub, unsub, or pub ack. -/
def s_on_op_complete (s : State) (packet_id : Nat) (error_code : Int)
    (user_data : Option TokenId) (jvm : Jvm) : State :=
  match user_data with
  | none => s
  | some callback =>
    let s := s.emit (Event.acquire_thread_env jvm.thread_env)
    if !jvm.thread_env then s
    else
      let s := if error_code != 0 then s_deliver_ack_failure s callback error_code jvm
        else s_deliver_ack_success s callback jvm
      if s.crashed then s
      else
        let s := s_mqtt_jni_async_callback_destroy s callback true
        s.emit Event.release_thread_env

/-- `s_is_qos_successful`. -/
def s_is_qos_successful (qos : Int) : Bool :=
  decide (qos < 128)

/-- `s_on_ack`: the subscribe acknowledgement. -/
def s_on_ack (codes : ErrorCodes) (s : State) (packet_id : Nat) (topic : Option String)
    (qos : Int) (error_code : Int) (user_data : Option TokenId) (jvm : Jvm) : State :=
  let error_code :=
    if error_code == 0 && !s_is_qos_successful qos then
      codes.AWS_ERROR_MQTT_CONNECTION_SUBSCRIBE_FAILURE
    else error_code
  s_on_op_complete s packet_id error_code user_data jvm

/-- `s_cleanup_handler`. -/
def s_cleanup_handler (s : State) (user_data : TokenId) (jvm : Jvm) : State :=
  let handler := user_data
  let s := s.emit (Event.acquire_thread_env jvm.thread_env)
  if !jvm.thread_env then s
  else
    let s := s_mqtt_jni_async_callback_destroy s handler true
    s.emit Event.release_thread_env

/-- `s_on_subscription_delivered`. -/
def s_on_subscription_delivered (s : State) (topic : String) (payload : List Nat) (dup : Bool)
    (qos : Int) (retain : Bool) (user_data : TokenId) (jvm : Jvm) : State :=
  match s.async_callback user_data with
  | none => s
  | some cb =>
    let s := s.emit (Event.acquire_thread_env jvm.thread_env)
    if !jvm.thread_env then s
    else
      let s := s.emit (Event.deliver cb topic payload dup qos retain)
      if jvm.exception_pending then s.fatal else s.emit Event.release_thread_env

/-! ## Subscribe, on-message, unsubscribe, publish

`msg_id` is the `uint16_t` packet id the engine returned (`0`: the submission
failed); the dispatcher returns it through a `jshort`. -/

/-- `Java_..._mqttClientConnectionSubscribe`. -/
def mqttClientConnectionSubscribe (s : State) (jni_connection : Int) (jni_topic : Option String)
    (jni_qos : Int) (jni_handler : Option JObject) (jni_ack : Option JObject) (msg_id : Nat) :
    State × Int :=
  if jni_connection == 0 then
    (s.emit (Event.throw_runtime_exception "MqttClientConnection.mqtt_subscribe: Invalid connection"),
      0)
  else
    match s_mqtt_jni_async_callback_new s jni_handler true with
    | (s, none) =>
      (s.emit (Event.throw_runtime_exception
        "MqttClientConnection.mqtt_subscribe: Unable to allocate handler"), 0)
    | (s, some handler) =>
      let error_cleanup (s : State) (sub_ack : Option TokenId) : State × Int :=
        let s := s_mqtt_jni_async_callback_destroy s handler true
        let s := match sub_ack with
          | some sub_ack => s_mqtt_jni_async_callback_destroy s sub_ack true
          | none => s
        (s, 0)
      let submit (s : State) (sub_ack : Option TokenId) : State × Int :=
        let s := s.emit (Event.engine (EngineCall.subscribe jni_topic jni_qos handler sub_ack))
        if msg_id == 0 then
          error_cleanup (s.emit (Event.throw_runtime_exception
            "MqttClientConnection.mqtt_subscribe: aws_mqtt_client_connection_subscribe failed"))
            sub_ack
        else
          (((s.register (Pending.on_cleanup handler)).register (Pending.on_ack sub_ack)),
            to_jshort msg_id)
      match jni_ack with
      | some ack =>
        match s_mqtt_jni_async_callback_new s (some ack) true with
        | (s, none) =>
          error_cleanup (s.emit (Event.throw_runtime_exception
            "MqttClientConnection.mqtt_subscribe: Unable to allocate sub ack")) none
        | (s, some sub_ack) => submit s (some sub_ack)
      | none => submit s none

/-- `Java_..._mqttClientConnectionOnMessage`; `handler_ok` is whether
`aws_mqtt_client_connection_set_on_any_publish_handler` returned success. -/
def mqttClientConnectionOnMessage (s : State) (jni_connection : Int)
    (jni_handler : Option JObject) (handler_ok : Bool) : State :=
  if jni_connection == 0 then
    s.emit (Event.throw_runtime_exception
      "MqttClientConnection.mqttClientConnectionOnMessage: Invalid connection")
  else
    match jni_handler with
    | none =>
      s.emit (Event.throw_runtime_exception
        "MqttClientConnection.mqttClientConnectionOnMessage: Invalid handler")
    | some h =>
      match s_mqtt_jni_async_callback_new s (some h) true with
      | (s, none) =>
        s.emit (Event.throw_runtime_exception
          "MqttClientConnection.mqttClientConnectionOnMessage: Unable to allocate handler")
      | (s, some handler) =>
        let s := s.emit (Event.engine (EngineCall.set_on_any_publish_handler handler))
        if !handler_ok then
          let s := s.emit (Event.throw_runtime_exception
            "MqttClientConnection.mqttClientConnectionOnMessage: Failed to install on_any_publish_handler")
          s_mqtt_jni_async_callback_destroy s handler true
        else
          let s := match s.connection.on_message with
            | some old => s_mqtt_jni_async_callback_destroy s old true
            | none => s
          s.set_on_message handler

/-- `Java_..._mqttClientConnectionUnsubscribe`. -/
def mqttClientConnectionUnsubscribe (s : State) (jni_connection : Int)
    (jni_topic : Option String) (jni_ack : Option JObject) (msg_id : Nat) : State × Int :=
  if jni_connection == 0 then
    (s.emit (Event.throw_runtime_exception
      "MqttClientConnection.mqtt_unsubscribe: Invalid connection"), 0)
  else
    match s_mqtt_jni_async_callback_new s jni_ack true with
    | (s, none) =>
      (s.emit (Event.throw_runtime_exception
        "MqttClientConnection.mqtt_unsubscribe: Unable to allocate unsub ack"), 0)
    | (s, some unsub_ack) =>
      let s := s.emit (Event.engine (EngineCall.unsubscribe jni_topic unsub_ack))
      if msg_id == 0 then
        let s := s.emit (Event.throw_runtime_exception
          "MqttClientConnection.mqtt_unsubscribe: aws_mqtt_client_connection_unsubscribe failed")
        (s_mqtt_jni_async_callback_destroy s unsub_ack true, 0)
      else
        (s.register (Pending.on_op_complete unsub_ack), to_jshort msg_id)

/-- `Java_..._mqttClientConnectionPublish`. -/
def mqttClientConnectionPublish (s : State) (jni_connection : Int) (jni_topic : Option String)
    (jni_qos : Int) (jni_retain : Bool) (jni_payload : Option (List Nat))
    (jni_ack : Option JObject) (msg_id : Nat) : State × Int :=
  if jni_connection == 0 then
    (s.emit (Event.throw_runtime_exception "MqttClientConnection.mqtt_publish: Invalid connection"),
      0)
  else
    match jni_topic with
    | none =>
      (s.emit (Event.throw_runtime_exception
        "MqttClientConnection.mqtt_publish: Invalid/null topic"), 0)
    | some topic =>
      match s_mqtt_jni_async_callback_new s jni_ack true with
      | (s, none) =>
        (s.emit (Event.throw_runtime_exception
          "MqttClientConnection.mqtt_publish: Unable to allocate pub ack"), 0)
      | (s, some pub_ack) =>
        let payload : List Nat := match jni_payload with
          | some bytes => bytes
          | none => []
        let s := s.emit (Event.engine
          (EngineCall.publish (some topic) jni_qos jni_retain payload pub_ack))
        if msg_id == 0 then
          let s := s.emit (Event.throw_runtime_exception
            "MqttClientConnection.mqtt_publish: aws_mqtt_client_connection_publish failed")
          (s_mqtt_jni_async_callback_destroy s pub_ack true, 0)
        else
          (s.register (Pending.on_op_complete pub_ack), to_jshort msg_id)

/-! ## Settings -/

/-- `Java_..._mqttClientConnectionSetWill`; `will_ok` is whether the
engine call returned `AWS_OP_SUCCESS`. -/
def mqttClientConnectionSetWill (s : State) (jni_connection : Int) (jni_topic : Option String)
    (jni_qos : Int) (jni_retain : Bool) (jni_payload : Option (List Nat)) (will_ok : Bool) :
    State × Bool :=
  if jni_connection == 0 then
    (s.emit (Event.throw_runtime_exception "MqttClientConnection.mqtt_set_will: Invalid connection"),
      false)
  else
    match jni_topic with
    | none =>
      (s.emit (Event.throw_runtime_exception
        "MqttClientConnection.mqtt_set_will: Topic must be non-null"), false)
    | some topic =>
      let payload : List Nat := match jni_payload with
        | some bytes => bytes
        | none => []
      (s.emit (Event.engine (EngineCall.set_will (some topic) jni_qos jni_retain payload)), will_ok)

/-- `Java_..._mqttClientConnectionSetLogin`. -/
def mqttClientConnectionSetLogin (s : State) (jni_connection : Int) (jni_user : Option String)
    (jni_pass : Option String) (login_ok : Bool) : State :=
  if jni_connection == 0 then
    s.emit (Event.throw_runtime_exception "MqttClientConnection.mqtt_set_login: Invalid connection")
  else
    let s := s.emit (Event.engine (EngineCall.set_login jni_user jni_pass))
    if !login_ok then
      s.emit (Event.throw_runtime_exception "MqttClientConnection.mqtt_set_login: Failed to set login")
    else s

/-- `Java_..._mqttClientConnectionSetReconnectTimeout`. -/
def mqttClientConnectionSetReconnectTimeout (s : State) (jni_connection : Int)
    (jni_min_timeout : Int) (jni_max_timeout : Int) (timeout_ok : Bool) : State :=
  if jni_connection == 0 then
    s.emit (Event.throw_runtime_exception
      "MqttClientConnection.mqtt_reconnect_timeout: Invalid connection")
  else
    let s := s.emit (Event.engine
      (EngineCall.set_reconnect_timeout jni_min_timeout jni_max_timeout))
    if !timeout_ok then
      s.emit (Event.throw_runtime_exception
        "MqttClientConnection.mqtt_reconnect_timeout: Failed to set reconnect timeout")
    else s

/-! ## Websocket handshake bridge -/

/-- `s_ws_handshake_destroy`. -/
def s_ws_handshake_destroy (s : State) (ws_handshake : Option WsId) : State :=
  match ws_handshake with
  | none => s
  | some id =>
    let s := s_mqtt_jni_connection_release s
    s.emit (Event.ws_free id)

/-- `s_ws_handshake_transform`; `alloc_ok` is whether `aws_mem_calloc`
returned memory (a failed allocation leaves `AWS_ERROR_OOM` as the last error)
and `java_http_request` is the result of `aws_java_http_request_from_native`. -/
def s_ws_handshake_transform (codes : ErrorCodes) (s : State) (request : Nat)
    (complete_ctx : Nat) (jvm : Jvm) (alloc_ok : Bool) (java_http_request : Option JObject) :
    State :=
  let s := s.emit (Event.acquire_thread_env jvm.thread_env)
  if !jvm.thread_env then
    s.emit (Event.complete_fn request codes.AWS_ERROR_INVALID_STATE complete_ctx)
  else
    let error (s : State) (ws_handshake : Option WsId) : State :=
      let error_code := s.last_error
      let s := s_ws_handshake_destroy s ws_handshake
      let s := s.emit (Event.complete_fn request error_code complete_ctx)
      s.emit Event.release_thread_env
    if !alloc_ok then
      error (s.set_last_error codes.AWS_ERROR_OOM) none
    else
      let ws_handshake := s.ws_handshakes.length
      let s := s.alloc_ws_handshake request complete_ctx
      let s := s_mqtt_jni_connection_acquire s
      match java_http_request with
      | none => error (s.raise codes.AWS_ERROR_UNKNOWN) (some ws_handshake)
      | some java_http_request =>
        match new_local_ref s jvm with
        | some _ =>
          let s := s.emit (Event.peer
            (PeerCall.on_websocket_handshake java_http_request ws_handshake))
          if jvm.exception_pending then s.fatal else s.emit Event.release_thread_env
        | none => s.emit Event.release_thread_env

/-- `Java_..._mqttClientConnectionUseWebsockets`. -/
def mqttClientConnectionUseWebsockets (codes : ErrorCodes) (s : State) (jni_connection : Int)
    (websockets_ok : Bool) : State :=
  if jni_connection == 0 then
    let s := s.raise codes.AWS_ERROR_INVALID_STATE
    s.emit (Event.throw_runtime_exception "MqttClientConnection.useWebsockets: Invalid connection")
  else
    let s := s.emit (Event.engine EngineCall.use_websockets)
    if !websockets_ok then
      s.emit (Event.throw_runtime_exception
        "MqttClientConnection.useWebsockets: Failed to use websockets")
    else s

/-- `Java_..._mqttClientConnectionWebsocketHandshakeComplete`;
`jni_user_data` is the bridge object given to the peer, and `apply_error`
is the error raised by applying the managed request changes (`none`: applied). -/
def mqttClientConnectionWebsocketHandshakeComplete (codes : ErrorCodes) (s : State)
    (jni_throwable : Option Throwable) (jni_user_data : WsId) (apply_error : Option Int) :
    State :=
  match s.ws_handshakes[jni_user_data]? with
  | none => s.segfault
  | some ws_handshake =>
    let done (s : State) (error_code : Int) : State :=
      let s := s.emit (Event.complete_fn ws_handshake.http_request error_code
        ws_handshake.complete_ctx)
      s_ws_handshake_destroy s (some jni_user_data)
    match jni_throwable with
    | some throwable =>
      let error_code : Int := match throwable with
        | Throwable.crt_runtime_exception code => code
        | Throwable.other => AWS_ERROR_SUCCESS
      let error_code := if error_code == AWS_ERROR_SUCCESS then codes.AWS_ERROR_UNKNOWN
        else error_code
      done s error_code
    | none =>
      let s := s.emit (Event.apply_http_request_changes ws_handshake.http_request)
      match apply_error with
      | some e => done (s.set_last_error e) e
      | none => done s AWS_ERROR_SUCCESS

/-- `Java_..._mqttClientConnectionSetHttpProxyOptions`.  The source has no
test of `connection` here: with a non-null proxy host it reads
`connection->client_connection` whatever the handle is. -/
def mqttClientConnectionSetHttpProxyOptions (s : State) (jni_connection : Int)
    (jni_proxy_connection_type : Int) (jni_proxy_host : Option String) (jni_proxy_port : Int)
    (jni_proxy_tls_context : Bool) (jni_proxy_authorization_type : Int)
    (jni_proxy_authorization_username : Option String)
    (jni_proxy_authorization_password : Option String) (proxy_ok : Bool) : State :=
  match jni_proxy_host with
  | none =>
    s.emit (Event.throw_runtime_exception
      "MqttClientConnection.setHttpProxyOptions: proxyHost must not be null.")
  | some host =>
    if jni_connection == 0 then s.segfault
    else
      let s := s.emit (Event.engine (EngineCall.set_http_proxy_options host
        (jni_proxy_port % 2 ^ 32).toNat jni_proxy_tls_context))
      let s := if !proxy_ok then
          s.emit (Event.throw_runtime_exception
            "MqttClientConnection.setHttpProxyOptions: Failed to set proxy options")
        else s
      s.emit Event.proxy_tls_options_clean_up

/-- `Java_..._mqttClientConnectionGetOperationStatistics`;
`new_object_ok` is whether the statistics object could be constructed and
`exc1 .. exc4` whether storing the corresponding field raised an exception. -/
def mqttClientConnectionGetOperationStatistics (codes : ErrorCodes) (s : State)
    (jni_connection : Int) (new_object_ok : Bool) (connection_stats : OperationStatistics)
    (exc1 exc2 exc3 exc4 : Bool) : State × Option OperationStatistics :=
  let fail (s : State) (msg : String) : State × Option OperationStatistics :=
    ((s.raise codes.AWS_ERROR_INVALID_STATE).emit (Event.throw_runtime_exception msg), none)
  if jni_connection == 0 then
    fail s "MqttClientConnection.getOperationStatistics: Invalid connection"
  else if !new_object_ok then
    fail s "MqttClientConnection.getOperationStatistics: Could not create operation statistics object"
  else
    let s := s.emit (Event.engine EngineCall.get_stats)
    if exc1 then
      fail s "MqttClientConnection.getOperationStatistics: could not create incomplete operation count"
    else if exc2 then
      fail s "MqttClientConnection.getOperationStatistics: could not create incomplete operation size"
    else if exc3 then
      fail s "MqttClientConnection.getOperationStatistics: could not create unacked operation count"
    else if exc4 then
      fail s "MqttClientConnection.getOperationStatistics: could not create unacked operation size"
    else (s, some connection_stats)

/-! ## Construction -/

/-- The zeroed world before a handle exists. -/
def State.empty : State :=
  { connection :=
      { ref_count := 0
        java_mqtt_connection := none
        on_message := none
        socket_options := { stream := false, connect_timeout_ms := 0 }
        tls_options := false }
    connection_freed := false
    callbacks := []
    ws_handshakes := []
    pending := []
    termination_pending := false
    last_error := 0
    crashed := false
    trace := [] }

/-- `s_mqtt_connection_new`; returns the world and whether a handle was
returned.  `client3`/`client5_jni` tell which client pointer is non-NULL. -/
def s_mqtt_connection_new (client3 client5_jni : Bool) (java_mqtt_connection : Option JObject)
    (alloc_ok client_connection_ok termination_handler_ok : Bool) : State × Bool :=
  let s := State.empty
  if !alloc_ok then
    (s.emit (Event.throw_runtime_exception
      "MqttClientConnection.mqtt_connect: Out of memory allocating JNI connection"), false)
  else
    let s := { s with connection := { s.connection with
      ref_count := 1, java_mqtt_connection := java_mqtt_connection } }
    let created := (client3 || client5_jni) && client_connection_ok
    let s := if client3 || client5_jni then s.emit (Event.engine EngineCall.connection_new) else s
    if !created then
      let s := s.emit (Event.throw_runtime_exception
        "MqttClientConnection.mqtt_connect: aws_mqtt_client_connection_new failed, unable to create new connection")
      (s_mqtt_jni_connection_release s, false)
    else
      let s := s.emit (Event.engine EngineCall.set_connection_termination_handler)
      if !termination_handler_ok then
        let s := s.emit (Event.throw_runtime_exception
          "MqttClientConnection.mqtt_connect: aws_mqtt_client_connection_new failed, unable to set termination callback")
        (s_mqtt_jni_connection_release s, false)
      else
        ({ s with termination_pending := true }, true)

/-- The tail shared by both `Java_..._mqttClientConnectionNewFrom*Client`
functions once `s_mqtt_connection_new` returned a handle. -/
def install_handlers (s : State) : State :=
  let s := s.emit (Event.engine EngineCall.set_connection_result_handlers)
  let s := s.emit (Event.engine EngineCall.set_connection_interruption_handlers)
  s.emit (Event.engine EngineCall.set_connection_closed_handler)

/-- `Java_..._mqttClientConnectionNewFrom311Client`. -/
def mqttClientConnectionNewFrom311Client (jni_client : Int) (jni_mqtt_connection : Option JObject)
    (alloc_ok client_connection_ok termination_handler_ok : Bool) : State × Bool :=
  if jni_client == 0 then
    (State.empty.emit (Event.throw_runtime_exception
      "MqttClientConnection.mqtt_new: Mqtt3 Client is invalid/null"), false)
  else
    match s_mqtt_connection_new true false jni_mqtt_connection alloc_ok client_connection_ok
      termination_handler_ok with
    | (s, false) => (s, false)
    | (s, true) => (install_handlers s, true)

/-- `Java_..._mqttClientConnectionNewFrom5Client`. -/
def mqttClientConnectionNewFrom5Client (jni_client : Int) (jni_mqtt_connection : Option JObject)
    (alloc_ok client_connection_ok termination_handler_ok : Bool) : State × Bool :=
  if jni_client == 0 then
    (State.empty.emit (Event.throw_runtime_exception
      "MqttClientConnection.mqtt_new: Mqtt5 Client is invalid/null"), false)
  else
    match s_mqtt_connection_new false true jni_mqtt_connection alloc_ok client_connection_ok
      termination_handler_ok with
    | (s, false) => (s, false)
    | (s, true) => (install_handlers s, true)

/-! ## The bridge as a transition system

One `Action` per entry point of the file: the JNI functions called by the
managed peer and the callbacks invoked by the engine.  The engine invokes a
completion only if it is pending, and invoking it consumes it; it delivers
messages only to an installed handler; it sends the termination notification
at most once.  Nothing runs once the process has terminated or the handle
memory has been freed. -/

/-- An entry into the bridge, with its arguments and collaborator answers. -/
inductive Action
  | Destroy (jni_connection : Int) (disconnect_ok : Bool)
  | Connect (jni_connection : Int) (jni_endpoint : Option String) (jni_port : Int)
      (jni_socket_options : Option SocketOptions) (jni_tls_ctx : Bool)
      (jni_client_id : Option String) (jni_clean_session : Bool) (keep_alive_secs : Int)
      (ping_timeout_ms : Int) (protocol_operation_timeout_ms : Int) (connect_ok : Bool)
  | Disconnect (jni_connection : Int) (jni_ack : Option JObject) (disconnect_ok : Bool)
      (jvm : Jvm)
  | Subscribe (jni_connection : Int) (jni_topic : Option String) (jni_qos : Int)
      (jni_handler : Option JObject) (jni_ack : Option JObject) (msg_id : Nat)
  | OnMessage (jni_connection : Int) (jni_handler : Option JObject) (handler_ok : Bool)
  | Unsubscribe (jni_connection : Int) (jni_topic : Option String) (jni_ack : Option JObject)
      (msg_id : Nat)
  | Publish (jni_connection : Int) (jni_topic : Option String) (jni_qos : Int)
      (jni_retain : Bool) (jni_payload : Option (List Nat)) (jni_ack : Option JObject)
      (msg_id : Nat)
  | SetWill (jni_connection : Int) (jni_topic : Option String) (jni_qos : Int)
      (jni_retain : Bool) (jni_payload : Option (List Nat)) (will_ok : Bool)
  | SetLogin (jni_connection : Int) (jni_user : Option String) (jni_pass : Option String)
      (login_ok : Bool)
  | SetReconnectTimeout (jni_connection : Int) (jni_min_timeout : Int) (jni_max_timeout : Int)
      (timeout_ok : Bool)
  | UseWebsockets (jni_connection : Int) (websockets_ok : Bool)
  | WebsocketHandshakeComplete (jni_throwable : Option Throwable) (jni_user_data : WsId)
      (apply_error : Option Int)
  | SetHttpProxyOptions (jni_connection : Int) (jni_proxy_connection_type : Int)
      (jni_proxy_host : Option String) (jni_proxy_port : Int) (jni_proxy_tls_context : Bool)
      (jni_proxy_authorization_type : Int) (jni_proxy_authorization_username : Option String)
      (jni_proxy_authorization_password : Option String) (proxy_ok : Bool)
  | GetOperationStatistics (jni_connection : Int) (new_object_ok : Bool)
      (connection_stats : OperationStatistics) (exc1 exc2 exc3 exc4 : Bool)
  | on_connection_complete (user_data : TokenId) (error_code : Int) (session_present : Bool)
      (jvm : Jvm) (disconnect_ok : Bool)
  | on_connection_interrupted (error_code : Int) (jvm : Jvm)
  | on_connection_success (session_present : Bool) (jvm : Jvm)
  | on_connection_failure (error_code : Int) (jvm : Jvm)
  | on_connection_resumed (session_present : Bool) (jvm : Jvm)
  | on_connection_disconnected (user_data : TokenId) (jvm : Jvm)
  | on_connection_closed (jvm : Jvm)
  | on_connection_terminated (jvm : Jvm)
  | on_shutdown_disconnect_complete
  | on_op_complete (user_data : TokenId) (packet_id : Nat) (error_code : Int) (jvm : Jvm)
  | on_ack (user_data : Option TokenId) (packet_id : Nat) (topic : Option String) (qos : Int)
      (error_code : Int) (jvm : Jvm)
  | cleanup_handler (user_data : TokenId) (jvm : Jvm)
  | on_subscription_delivered (user_data : TokenId) (topic : String) (payload : List Nat)
      (dup : Bool) (qos : Int) (retain : Bool) (jvm : Jvm)
  | ws_handshake_transform (request : Nat) (complete_ctx : Nat) (jvm : Jvm) (alloc_ok : Bool)
      (java_http_request : Option JObject)
deriving DecidableEq, Repr

/-- One entry into the bridge. -/
def step (codes : ErrorCodes) (s : State) (a : Action) : State :=
  if s.crashed || s.connection_freed then s
  else
    match a with
    | Action.Destroy c disconnect_ok => mqttClientConnectionDestroy s c disconnect_ok
    | Action.Connect c endpoint port so tls cid clean ka ping pto ok =>
      mqttClientConnectionConnect s c endpoint port so tls cid clean ka ping pto ok
    | Action.Disconnect c ack ok jvm => mqttClientConnectionDisconnect s c ack ok jvm
    | Action.Subscribe c topic qos handler ack msg_id =>
      (mqttClientConnectionSubscribe s c topic qos handler ack msg_id).1
    | Action.OnMessage c handler ok => mqttClientConnectionOnMessage s c handler ok
    | Action.Unsubscribe c topic ack msg_id =>
      (mqttClientConnectionUnsubscribe s c topic ack msg_id).1
    | Action.Publish c topic qos retain payload ack msg_id =>
      (mqttClientConnectionPublish s c topic qos retain payload ack msg_id).1
    | Action.SetWill c topic qos retain payload ok =>
      (mqttClientConnectionSetWill s c topic qos retain payload ok).1
    | Action.SetLogin c user pass ok => mqttClientConnectionSetLogin s c user pass ok
    | Action.SetReconnectTimeout c lo hi ok => mqttClientConnectionSetReconnectTimeout s c lo hi ok
    | Action.UseWebsockets c ok => mqttClientConnectionUseWebsockets codes s c ok
    | Action.WebsocketHandshakeComplete throwable user_data apply_error =>
      mqttClientConnectionWebsocketHandshakeComplete codes s throwable user_data apply_error
    | Action.SetHttpProxyOptions c ty host port tls aty user pass ok =>
      mqttClientConnectionSetHttpProxyOptions s c ty host port tls aty user pass ok
    | Action.GetOperationStatistics c obj stats e1 e2 e3 e4 =>
      (mqttClientConnectionGetOperationStatistics codes s c obj stats e1 e2 e3 e4).1
    | Action.on_connection_complete user_data error_code session_present jvm disconnect_ok =>
      if Pending.on_connection_complete user_data ∈ s.pending then
        s_on_connection_complete (s.take (Pending.on_connection_complete user_data)) error_code
          session_present user_data jvm disconnect_ok
      else s
    | Action.on_connection_interrupted error_code jvm => s_on_connection_interrupted s error_code jvm
    | Action.on_connection_success session_present jvm =>
      s_on_connection_success s session_present jvm
    | Action.on_connection_failure error_code jvm => s_on_connection_failure s error_code jvm
    | Action.on_connection_resumed session_present jvm =>
      s_on_connection_resumed s session_present jvm
    | Action.on_connection_disconnected user_data jvm =>
      if Pending.on_connection_disconnected user_data ∈ s.pending then
        s_on_connection_disconnected (s.take (Pending.on_connection_disconnected user_data))
          user_data jvm
      else s
    | Action.on_connection_closed jvm => s_on_connection_closed s jvm
    | Action.on_connection_terminated jvm =>
      if s.termination_pending then
        s_on_connection_terminated s.fire_termination jvm
      else s
    | Action.on_shutdown_disconnect_complete =>
      if Pending.on_shutdown_disconnect_complete ∈ s.pending then
        s_on_shutdown_disconnect_complete (s.take Pending.on_shutdown_disconnect_complete)
      else s
    | Action.on_op_complete user_data packet_id error_code jvm =>
      if Pending.on_op_complete user_data ∈ s.pending then
        s_on_op_complete (s.take (Pending.on_op_complete user_data)) packet_id error_code
          (some user_data) jvm
      else s
    | Action.on_ack user_data packet_id topic qos error_code jvm =>
      if Pending.on_ack user_data ∈ s.pending then
        s_on_ack codes (s.take (Pending.on_ack user_data)) packet_id topic qos error_code
          user_data jvm
      else s
    | Action.cleanup_handler user_data jvm =>
      if Pending.on_cleanup user_data ∈ s.pending then
        s_cleanup_handler (s.take (Pending.on_cleanup user_data)) user_data jvm
      else s
    | Action.on_subscription_delivered user_data topic payload dup qos retain jvm =>
      if Pending.on_cleanup user_data ∈ s.pending ∨ s.connection.on_message = some user_data then
        s_on_subscription_delivered s topic payload dup qos retain user_data jvm
      else s
    | Action.ws_handshake_transform request complete_ctx jvm alloc_ok java_http_request =>
      s_ws_handshake_transform codes s request complete_ctx jvm alloc_ok java_http_request

/-- A run of the bridge. -/
def run (codes : ErrorCodes) (s : State) (actions : List Action) : State :=
  actions.foldl (step codes) s

/-! ## Token accounting -/

/-- The token a pending completion will hand back, if any. -/
def pending_token : Pending → Option TokenId
  | Pending.on_connection_complete user_data => some user_data
  | Pending.on_connection_disconnected user_data => some user_data
  | Pending.on_shutdown_disconnect_complete => none
  | Pending.on_op_complete user_data => some user_data
  | Pending.on_ack user_data => user_data
  | Pending.on_cleanup user_data => some user_data

/-- Number of places where the token `id` is still registered: completions
pending in the engine, plus the on-message field of a handle not yet freed. -/
def State.registered_count (s : State) (id : TokenId) : Nat :=
  (s.pending.filterMap pending_token).count id +
    (if s.connection_freed = false ∧ s.connection.on_message = some id then 1 else 0)

/-- Every callback of the action attaches to the runtime, and the disconnect
issued after a throwing connection-complete callback is accepted. -/
def Action.attached : Action → Bool
  | Action.Disconnect _ _ _ jvm => jvm.thread_env
  | Action.on_connection_complete _ _ _ jvm disconnect_ok =>
    jvm.thread_env && (!jvm.exception_pending || disconnect_ok)
  | Action.on_connection_interrupted _ jvm => jvm.thread_env
  | Action.on_connection_success _ jvm => jvm.thread_env
  | Action.on_connection_failure _ jvm => jvm.thread_env
  | Action.on_connection_resumed _ jvm => jvm.thread_env
  | Action.on_connection_disconnected _ jvm => jvm.thread_env
  | Action.on_connection_closed jvm => jvm.thread_env
  | Action.on_connection_terminated jvm => jvm.thread_env
  | Action.on_op_complete _ _ _ jvm => jvm.thread_env
  | Action.on_ack _ _ _ _ _ jvm => jvm.thread_env
  | Action.cleanup_handler _ jvm => jvm.thread_env
  | Action.on_subscription_delivered _ _ _ _ _ _ jvm => jvm.thread_env
  | Action.ws_handshake_transform _ _ jvm _ _ => jvm.thread_env
  | _ => true

/-- Token accounting: addresses below `callbacks.length` were allocated once,
the others never; and `owed id` plus the frees and the registrations of a token
add up to its allocations. -/
def TokenInv (s : State) (owed : TokenId → Nat) : Prop :=
  ∀ id, s.alloc_count id = (if id < s.callbacks.length then 1 else 0) ∧
    s.alloc_count id = s.destroy_count id + s.registered_count id + owed id

/-! ## Sample worlds -/

/-- An assignment of distinct non-zero values to the error codes. -/
def sample_codes : ErrorCodes :=
  { AWS_ERROR_OOM := 1
    AWS_ERROR_UNKNOWN := 3
    AWS_ERROR_INVALID_STATE := 34
    AWS_ERROR_MQTT_CONNECTION_SUBSCRIBE_FAILURE := 5153 }

/-- A runtime that attaches, with the peer alive and no exception. -/
def jvm_up : Jvm := { thread_env := true, peer_alive := true, exception_pending := false }

/-- A runtime that is shutting down: no environment can be acquired. -/
def jvm_down : Jvm := { thread_env := false, peer_alive := false, exception_pending := false }

/-- A runtime that attaches, with the peer already collected. -/
def jvm_peer_gone : Jvm := { thread_env := true, peer_alive := false, exception_pending := false }

/-- A freshly constructed handle whose peer is the object `100`. -/
def fresh_handle : State :=
  (mqttClientConnectionNewFrom311Client 1 (some 100) true true true).1

/-- The fresh handle after an accepted subscribe with handler `10` and ack
callback `11`: token `0` is the handler, token `1` the ack. -/
def subscribed_handle : State :=
  (mqttClientConnectionSubscribe fresh_handle 1 (some "a/b") 1 (some 10) (some 11) 5).1

/-- The fresh handle after an accepted publish with ack callback `11`
(token `0`). -/
def published_handle : State :=
  (mqttClientConnectionPublish fresh_handle 1 (some "topic/a") 1 false (some [1, 2]) (some 11) 7).1

/-- The fresh handle after an accepted connect (token `0`). -/
def connecting_handle : State :=
  mqttClientConnectionConnect fresh_handle 1 (some "broker") 8883 none false (some "client") true
    60 3000 0 true

/-- The fresh handle with the on-message handler `20` installed (token `0`). -/
def on_message_handle : State :=
  mqttClientConnectionOnMessage fresh_handle 1 (some 20) true

/-- Connect, publish and shut down, every completion fired once, without the
termination notification. -/
def sample_run : List Action :=
  [Action.Connect 1 (some "broker") 8883 none false (some "client") true 60 3000 0 true,
   Action.on_connection_complete 0 0 true jvm_up false,
   Action.Publish 1 (some "topic/a") 1 false (some [1, 2]) (some 11) 7,
   Action.on_op_complete 1 7 0 jvm_up,
   Action.Destroy 1 true,
   Action.on_shutdown_disconnect_complete]

/-! ## Observations used by the dispatcher and handshake properties -/

/-- The call that led from `s` to `s'` created exactly the tokens `created`,
freed each of them once, and left the handle and the engine registry as they
were. -/
def State.rolled_back (s s' : State) (created : List TokenId) : Prop :=
  s'.connection = s.connection ∧ s'.pending = s.pending ∧
    ∀ id, s'.alloc_count id = s.alloc_count id + created.count id ∧
      s'.destroy_count id = s.destroy_count id + created.count id

/-- The call that led from `s` to `s'` was refused before doing anything: one
exception was thrown to the caller, the engine was not called, no token was
created and the handle is as it was. -/
def State.refused (s s' : State) : Prop :=
  (thrown s'.trace).length = (thrown s.trace).length + 1 ∧
    engine_calls s'.trace = engine_calls s.trace ∧
    s'.callbacks = s.callbacks ∧ (∀ id, s'.alloc_count id = s.alloc_count id) ∧
    s'.connection = s.connection ∧ s'.pending = s.pending ∧ s'.crashed = s.crashed

/-- The invocations of the engine-supplied handshake completion function in a
trace: request, error code and completion context. -/
def complete_calls (t : List Event) : List (Nat × Int × Nat) :=
  t.filterMap (fun e => match e with
    | Event.complete_fn request error_code complete_ctx => some (request, error_code, complete_ctx)
    | _ => none)

/-- The requests to which managed-side modifications were applied in a trace. -/
def applied_requests (t : List Event) : List Nat :=
  t.filterMap (fun e => match e with
    | Event.apply_http_request_changes request => some request
    | _ => none)

/-- The calls made on the managed peer in a trace. -/
def peer_calls (t : List Event) : List PeerCall :=
  t.filterMap (fun e => match e with
    | Event.peer c => some c
    | _ => none)

/-- The fresh handle after a handshake was started for request `7` with
completion context `9` and handed to the peer (bridge object `0`). -/
def handshaking_handle : State :=
  s_ws_handshake_transform sample_codes fresh_handle 7 9 jvm_up true (some 55)

/-- The reference-count releases in a trace, each with the count it found. -/
def released_counts (t : List Event) : List Nat :=
  t.filterMap (fun e => match e with
    | Event.connection_release old_value => some old_value
    | _ => none)

/-! ## Observations used by the notification and reference-count properties -/

/-- The method invocations on managed objects in a trace: calls on the peer,
ack callbacks and message handlers. -/
def managed_calls (t : List Event) : List Event :=
  t.filter (fun e => match e with
    | Event.peer _ => true
    | Event.on_success _ => true
    | Event.on_failure _ _ => true
    | Event.deliver _ _ _ _ _ _ => true
    | _ => false)

/-- Number of runtime attachments that returned an environment. -/
def State.attach_count (s : State) : Nat :=
  s.trace.count (Event.acquire_thread_env true)

/-- Number of runtime attachment releases. -/
def State.detach_count (s : State) : Nat :=
  s.trace.count Event.release_thread_env

/-- The callback that led from `s` to `s'` against the runtime `jvm` scoped
its attachment: unless a fatal assertion ended the process it made as many
releases as successful acquisitions, and it made no release when the
acquisition returned NULL. -/
def State.scoped_attachment (s s' : State) (jvm : Jvm) : Prop :=
  (s'.crashed = false →
      s'.attach_count + s.detach_count = s.attach_count + s'.detach_count) ∧
    (jvm.thread_env = false → s'.detach_count = s.detach_count)

/-- Number of times the bridge object `id` was released to the allocator. -/
def State.ws_free_count (s : State) (id : WsId) : Nat :=
  s.trace.count (Event.ws_free id)

/-- The bridge object `id` has been allocated and not released. -/
def State.ws_live (s : State) (id : WsId) : Bool :=
  decide (id < s.ws_handshakes.length) && decide (s.ws_free_count id = 0)

/-- Number of bridge objects allocated and not released. -/
def State.live_ws_count (s : State) : Nat :=
  (List.range s.ws_handshakes.length).countP (fun id => decide (s.ws_free_count id = 0))

/-- Whether a pending completion is a connection-complete callback. -/
def Pending.is_connection_complete : Pending → Bool
  | Pending.on_connection_complete _ => true
  | _ => false

/-- Number of connection-complete callbacks the engine still owes. -/
def State.connects_pending (s : State) : Nat :=
  s.pending.countP Pending.is_connection_complete

/-- Every handshake completion call of the run is made on a bridge object that
is live at that moment: the managed side completes a handshake it was given,
and completes it once. -/
def completes_live_bridges (codes : ErrorCodes) : State → List Action → Bool
  | _, [] => true
  | s, a :: rest =>
    (match a with
      | Action.WebsocketHandshakeComplete _ jni_user_data _ => s.ws_live jni_user_data
      | _ => true) && completes_live_bridges codes (step codes s a) rest

/-- Reference accounting: no bridge object beyond those allocated was
released, the count covers the reference of the peer, one reference per
connect in flight and one per live bridge object, and every release so far
found a count of at least 2. -/
def RefInv (s : State) : Prop :=
  (∀ id, s.ws_handshakes.length ≤ id → s.ws_free_count id = 0) ∧
    1 + s.connects_pending + s.live_ws_count ≤ s.connection.ref_count ∧
    ∀ old_value ∈ released_counts s.trace, 2 ≤ old_value

/-- The call that led from `s` to `s'` left the reference accounting alone:
same bridge objects, none released, no new connect in flight, same count and
no release of a reference. -/
def State.ref_framed (s s' : State) : Prop :=
  s'.ws_handshakes = s.ws_handshakes ∧ (∀ id, s'.ws_free_count id = s.ws_free_count id) ∧
    s'.connects_pending ≤ s.connects_pending ∧
    s'.connection.ref_count = s.connection.ref_count ∧
    released_counts s'.trace = released_counts s.trace

/-- The entry points that acquire or release a reference to the handle. -/
def Action.counts_references : Action → Bool
  | Action.Connect _ _ _ _ _ _ _ _ _ _ _ => true
  | Action.on_connection_complete _ _ _ _ _ => true
  | Action.WebsocketHandshakeComplete _ _ _ => true
  | Action.ws_handshake_transform _ _ _ _ _ => true
  | _ => false

/-- A runtime that cannot be attached while the peer is still alive. -/
def jvm_detached : Jvm := { thread_env := false, peer_alive := true, exception_pending := false }

/-- A runtime that attaches, with the peer alive, whose managed callback
throws. -/
def jvm_throws : Jvm := { thread_env := true, peer_alive := true, exception_pending := true }

/-- Connect accepted, the managed connection-complete callback throws, the
disconnect it triggers completes and the connection is closed. -/
def throwing_connect_run : List Action :=
  [Action.Connect 1 (some "broker") 8883 none false (some "client") true 60 3000 0 true,
   Action.on_connection_complete 0 0 true jvm_throws true,
   Action.on_connection_disconnected 0 jvm_up,
   Action.on_connection_closed jvm_up]

/-- A handshake is started, handed to the peer and completed, around an
accepted connect whose completion fires. -/
def handshake_run : List Action :=
  [Action.ws_handshake_transform 7 9 jvm_up true (some 55),
   Action.Connect 1 (some "broker") 8883 none false (some "client") true 60 3000 0 true,
   Action.WebsocketHandshakeComplete none 0 none,
   Action.on_connection_complete 0 0 true jvm_up false]

/-! ## Basic facts about the primitives -/

@[simp] theorem emit_connection (s : State) (e : Event) :
    (s.emit e).connection = s.connection := rfl

@[simp] theorem emit_connection_freed (s : State) (e : Event) :
    (s.emit e).connection_freed = s.connection_freed := rfl

@[simp] theorem emit_callbacks (s : State) (e : Event) :
    (s.emit e).callbacks = s.callbacks := rfl

@[simp] theorem emit_ws_handshakes (s : State) (e : Event) :
    (s.emit e).ws_handshakes = s.ws_handshakes := rfl

@[simp] theorem emit_pending (s : State) (e : Event) :
    (s.emit e).pending = s.pending := rfl

@[simp] theorem emit_termination_pending (s : State) (e : Event) :
    (s.emit e).termination_pending = s.termination_pending := rfl

@[simp] theorem emit_last_error (s : State) (e : Event) :
    (s.emit e).last_error = s.last_error := rfl

@[simp] theorem emit_crashed (s : State) (e : Event) :
    (s.emit e).crashed = s.crashed := rfl

@[simp] theorem emit_trace (s : State) (e : Event) :
    (s.emit e).trace = s.trace ++ [e] := rfl

@[simp] theorem new_local_ref_emit (s : State) (e : Event) (jvm : Jvm) :
    new_local_ref (s.emit e) jvm = new_local_ref s jvm := rfl

@[simp] theorem emit_async_callback (s : State) (e : Event) (id : TokenId) :
    (s.emit e).async_callback id = s.async_callback id := rfl

@[simp] theorem register_connection (s : State) (p : Pending) :
    (s.register p).connection = s.connection := rfl

@[simp] theorem register_connection_freed (s : State) (p : Pending) :
    (s.register p).connection_freed = s.connection_freed := rfl

@[simp] theorem register_callbacks (s : State) (p : Pending) :
    (s.register p).callbacks = s.callbacks := rfl

@[simp] theorem register_ws_handshakes (s : State) (p : Pending) :
    (s.register p).ws_handshakes = s.ws_handshakes := rfl

@[simp] theorem register_pending (s : State) (p : Pending) :
    (s.register p).pending = s.pending ++ [p] := rfl

@[simp] theorem register_termination_pending (s : State) (p : Pending) :
    (s.register p).termination_pending = s.termination_pending := rfl

@[simp] theorem register_last_error (s : State) (p : Pending) :
    (s.register p).last_error = s.last_error := rfl

@[simp] theorem register_crashed (s : State) (p : Pending) :
    (s.register p).crashed = s.crashed := rfl

@[simp] theorem register_trace (s : State) (p : Pending) :
    (s.register p).trace = s.trace := rfl

@[simp] theorem new_local_ref_register (s : State) (p : Pending) (jvm : Jvm) :
    new_local_ref (s.register p) jvm = new_local_ref s jvm := rfl

@[simp] theorem register_async_callback (s : State) (p : Pending) (id : TokenId) :
    (s.register p).async_callback id = s.async_callback id := rfl

@[simp] theorem take_connection (s : State) (p : Pending) :
    (s.take p).connection = s.connection := rfl

@[simp] theorem take_connection_freed (s : State) (p : Pending) :
    (s.take p).connection_freed = s.connection_freed := rfl

@[simp] theorem take_callbacks (s : State) (p : Pending) :
    (s.take p).callbacks = s.callbacks := rfl

@[simp] theorem take_ws_handshakes (s : State) (p : Pending) :
    (s.take p).ws_handshakes = s.ws_handshakes := rfl

@[simp] theorem take_pending (s : State) (p : Pending) :
    (s.take p).pending = s.pending.erase p := rfl

@[simp] theorem take_termination_pending (s : State) (p : Pending) :
    (s.take p).termination_pending = s.termination_pending := rfl

@[simp] theorem take_last_error (s : State) (p : Pending) :
    (s.take p).last_error = s.last_error := rfl

@[simp] theorem take_crashed (s : State) (p : Pending) :
    (s.take p).crashed = s.crashed := rfl

@[simp] theorem take_trace (s : State) (p : Pending) :
    (s.take p).trace = s.trace := rfl

@[simp] theorem new_local_ref_take (s : State) (p : Pending) (jvm : Jvm) :
    new_local_ref (s.take p) jvm = new_local_ref s jvm := rfl

@[simp] theorem take_async_callback (s : State) (p : Pending) (id : TokenId) :
    (s.take p).async_callback id = s.async_callback id := rfl

@[simp] theorem fatal_connection (s : State) :
    s.fatal.connection = s.connection := rfl

@[simp] theorem fatal_connection_freed (s : State) :
    s.fatal.connection_freed = s.connection_freed := rfl

@[simp] theorem fatal_callbacks (s : State) :
    s.fatal.callbacks = s.callbacks := rfl

@[simp] theorem fatal_ws_handshakes (s : State) :
    s.fatal.ws_handshakes = s.ws_handshakes := rfl

@[simp] theorem fatal_pending (s : State) :
    s.fatal.pending = s.pending := rfl

@[simp] theorem fatal_termination_pending (s : State) :
    s.fatal.termination_pending = s.termination_pending := rfl

@[simp] theorem fatal_last_error (s : State) :
    s.fatal.last_error = s.last_error := rfl

@[simp] theorem fatal_crashed (s : State) :
    s.fatal.crashed = true := rfl

@[simp] theorem fatal_trace (s : State) :
    s.fatal.trace = s.trace ++ [Event.fatal_assert] := rfl

@[simp] theorem new_local_ref_fatal (s : State) (jvm : Jvm) :
    new_local_ref s.fatal jvm = new_local_ref s jvm := rfl

@[simp] theorem fatal_async_callback (s : State) (id : TokenId) :
    s.fatal.async_callback id = s.async_callback id := rfl

@[simp] theorem raise_connection (s : State) (c : Int) :
    (s.raise c).connection = s.connection := rfl

@[simp] theorem raise_connection_freed (s : State) (c : Int) :
    (s.raise c).connection_freed = s.connection_freed := rfl

@[simp] theorem raise_callbacks (s : State) (c : Int) :
    (s.raise c).callbacks = s.callbacks := rfl

@[simp] theorem raise_ws_handshakes (s : State) (c : Int) :
    (s.raise c).ws_handshakes = s.ws_handshakes := rfl

@[simp] theorem raise_pending (s : State) (c : Int) :
    (s.raise c).pending = s.pending := rfl

@[simp] theorem raise_termination_pending (s : State) (c : Int) :
    (s.raise c).termination_pending = s.termination_pending := rfl

@[simp] theorem raise_last_error (s : State) (c : Int) :
    (s.raise c).last_error = c := rfl

@[simp] theorem raise_crashed (s : State) (c : Int) :
    (s.raise c).crashed = s.crashed := rfl

@[simp] theorem raise_trace (s : State) (c : Int) :
    (s.raise c).trace = s.trace ++ [Event.raise_error c] := rfl

@[simp] theorem new_local_ref_raise (s : State) (c : Int) (jvm : Jvm) :
    new_local_ref (s.raise c) jvm = new_local_ref s jvm := rfl

@[simp] theorem raise_async_callback (s : State) (c : Int) (id : TokenId) :
    (s.raise c).async_callback id = s.async_callback id := rfl

@[simp] theorem segfault_connection (s : State) :
    s.segfault.connection = s.connection := rfl

@[simp] theorem segfault_connection_freed (s : State) :
    s.segfault.connection_freed = s.connection_freed := rfl

@[simp] theorem segfault_callbacks (s : State) :
    s.segfault.callbacks = s.callbacks := rfl

@[simp] theorem segfault_ws_handshakes (s : State) :
    s.segfault.ws_handshakes = s.ws_handshakes := rfl

@[simp] theorem segfault_pending (s : State) :
    s.segfault.pending = s.pending := rfl

@[simp] theorem segfault_termination_pending (s : State) :
    s.segfault.termination_pending = s.termination_pending := rfl

@[simp] theorem segfault_last_error (s : State) :
    s.segfault.last_error = s.last_error := rfl

@[simp] theorem segfault_crashed (s : State) :
    s.segfault.crashed = true := rfl

@[simp] theorem segfault_trace (s : State) :
    s.segfault.trace = s.trace ++ [Event.null_dereference] := rfl

@[simp] theorem new_local_ref_segfault (s : State) (jvm : Jvm) :
    new_local_ref s.segfault jvm = new_local_ref s jvm := rfl

@[simp] theorem segfault_async_callback (s : State) (id : TokenId) :
    s.segfault.async_callback id = s.async_callback id := rfl

@[simp] theorem set_socket_options_connection (s : State) (o : SocketOptions) :
    (s.set_socket_options o).connection = { s.connection with socket_options := o } := rfl

@[simp] theorem set_socket_options_connection_freed (s : State) (o : SocketOptions) :
    (s.set_socket_options o).connection_freed = s.connection_freed := rfl

@[simp] theorem set_socket_options_callbacks (s : State) (o : SocketOptions) :
    (s.set_socket_options o).callbacks = s.callbacks := rfl

@[simp] theorem set_socket_options_ws_handshakes (s : State) (o : SocketOptions) :
    (s.set_socket_options o).ws_handshakes = s.ws_handshakes := rfl

@[simp] theorem set_socket_options_pending (s : State) (o : SocketOptions) :
    (s.set_socket_options o).pending = s.pending := rfl

@[simp] theorem set_socket_options_termination_pending (s : State) (o : SocketOptions) :
    (s.set_socket_options o).termination_pending = s.termination_pending := rfl

@[simp] theorem set_socket_options_last_error (s : State) (o : SocketOptions) :
    (s.set_socket_options o).last_error = s.last_error := rfl

@[simp] theorem set_socket_options_crashed (s : State) (o : SocketOptions) :
    (s.set_socket_options o).crashed = s.crashed := rfl

@[simp] theorem set_socket_options_trace (s : State) (o : SocketOptions) :
    (s.set_socket_options o).trace = s.trace := rfl

@[simp] theorem new_local_ref_set_socket_options (s : State) (o : SocketOptions) (jvm : Jvm) :
    new_local_ref (s.set_socket_options o) jvm = new_local_ref s jvm := rfl

@[simp] theorem set_socket_options_async_callback (s : State) (o : SocketOptions) (id : TokenId) :
    (s.set_socket_options o).async_callback id = s.async_callback id := rfl

@[simp] theorem init_tls_options_connection (s : State) :
    s.init_tls_options.connection = { s.connection with tls_options := true } := rfl

@[simp] theorem init_tls_options_connection_freed (s : State) :
    s.init_tls_options.connection_freed = s.connection_freed := rfl

@[simp] theorem init_tls_options_callbacks (s : State) :
    s.init_tls_options.callbacks = s.callbacks := rfl

@[simp] theorem init_tls_options_ws_handshakes (s : State) :
    s.init_tls_options.ws_handshakes = s.ws_handshakes := rfl

@[simp] theorem init_tls_options_pending (s : State) :
    s.init_tls_options.pending = s.pending := rfl

@[simp] theorem init_tls_options_termination_pending (s : State) :
    s.init_tls_options.termination_pending = s.termination_pending := rfl

@[simp] theorem init_tls_options_last_error (s : State) :
    s.init_tls_options.last_error = s.last_error := rfl

@[simp] theorem init_tls_options_crashed (s : State) :
    s.init_tls_options.crashed = s.crashed := rfl

@[simp] theorem init_tls_options_trace (s : State) :
    s.init_tls_options.trace = s.trace := rfl

@[simp] theorem new_local_ref_init_tls_options (s : State) (jvm : Jvm) :
    new_local_ref s.init_tls_options jvm = new_local_ref s jvm := rfl

@[simp] theorem init_tls_options_async_callback (s : State) (id : TokenId) :
    s.init_tls_options.async_callback id = s.async_callback id := rfl

@[simp] theorem set_on_message_connection (s : State) (h : TokenId) :
    (s.set_on_message h).connection = { s.connection with on_message := some h } := rfl

@[simp] theorem set_on_message_connection_freed (s : State) (h : TokenId) :
    (s.set_on_message h).connection_freed = s.connection_freed := rfl

@[simp] theorem set_on_message_callbacks (s : State) (h : TokenId) :
    (s.set_on_message h).callbacks = s.callbacks := rfl

@[simp] theorem set_on_message_ws_handshakes (s : State) (h : TokenId) :
    (s.set_on_message h).ws_handshakes = s.ws_handshakes := rfl

@[simp] theorem set_on_message_pending (s : State) (h : TokenId) :
    (s.set_on_message h).pending = s.pending := rfl

@[simp] theorem set_on_message_termination_pending (s : State) (h : TokenId) :
    (s.set_on_message h).termination_pending = s.termination_pending := rfl

@[simp] theorem set_on_message_last_error (s : State) (h : TokenId) :
    (s.set_on_message h).last_error = s.last_error := rfl

@[simp] theorem set_on_message_crashed (s : State) (h : TokenId) :
    (s.set_on_message h).crashed = s.crashed := rfl

@[simp] theorem set_on_message_trace (s : State) (h : TokenId) :
    (s.set_on_message h).trace = s.trace := rfl

@[simp] theorem new_local_ref_set_on_message (s : State) (h : TokenId) (jvm : Jvm) :
    new_local_ref (s.set_on_message h) jvm = new_local_ref s jvm := rfl

@[simp] theorem set_on_message_async_callback (s : State) (h : TokenId) (id : TokenId) :
    (s.set_on_message h).async_callback id = s.async_callback id := rfl

@[simp] theorem set_last_error_connection (s : State) (c : Int) :
    (s.set_last_error c).connection = s.connection := rfl

@[simp] theorem set_last_error_connection_freed (s : State) (c : Int) :
    (s.set_last_error c).connection_freed = s.connection_freed := rfl

@[simp] theorem set_last_error_callbacks (s : State) (c : Int) :
    (s.set_last_error c).callbacks = s.callbacks := rfl

@[simp] theorem set_last_error_ws_handshakes (s : State) (c : Int) :
    (s.set_last_error c).ws_handshakes = s.ws_handshakes := rfl

@[simp] theorem set_last_error_pending (s : State) (c : Int) :
    (s.set_last_error c).pending = s.pending := rfl

@[simp] theorem set_last_error_termination_pending (s : State) (c : Int) :
    (s.set_last_error c).termination_pending = s.termination_pending := rfl

@[simp] theorem set_last_error_last_error (s : State) (c : Int) :
    (s.set_last_error c).last_error = c := rfl

@[simp] theorem set_last_error_crashed (s : State) (c : Int) :
    (s.set_last_error c).crashed = s.crashed := rfl

@[simp] theorem set_last_error_trace (s : State) (c : Int) :
    (s.set_last_error c).trace = s.trace := rfl

@[simp] theorem new_local_ref_set_last_error (s : State) (c : Int) (jvm : Jvm) :
    new_local_ref (s.set_last_error c) jvm = new_local_ref s jvm := rfl

@[simp] theorem set_last_error_async_callback (s : State) (c : Int) (id : TokenId) :
    (s.set_last_error c).async_callback id = s.async_callback id := rfl

@[simp] theorem alloc_ws_handshake_connection (s : State) (r x : Nat) :
    (s.alloc_ws_handshake r x).connection = s.connection := rfl

@[simp] theorem alloc_ws_handshake_connection_freed (s : State) (r x : Nat) :
    (s.alloc_ws_handshake r x).connection_freed = s.connection_freed := rfl

@[simp] theorem alloc_ws_handshake_callbacks (s : State) (r x : Nat) :
    (s.alloc_ws_handshake r x).callbacks = s.callbacks := rfl

@[simp] theorem alloc_ws_handshake_ws_handshakes (s : State) (r x : Nat) :
    (s.alloc_ws_handshake r x).ws_handshakes = s.ws_handshakes ++ [{ http_request := r, complete_ctx := x }] := rfl

@[simp] theorem alloc_ws_handshake_pending (s : State) (r x : Nat) :
    (s.alloc_ws_handshake r x).pending = s.pending := rfl

@[simp] theorem alloc_ws_handshake_termination_pending (s : State) (r x : Nat) :
    (s.alloc_ws_handshake r x).termination_pending = s.termination_pending := rfl

@[simp] theorem alloc_ws_handshake_last_error (s : State) (r x : Nat) :
    (s.alloc_ws_handshake r x).last_error = s.last_error := rfl

@[simp] theorem alloc_ws_handshake_crashed (s : State) (r x : Nat) :
    (s.alloc_ws_handshake r x).crashed = s.crashed := rfl

@[simp] theorem alloc_ws_handshake_trace (s : State) (r x : Nat) :
    (s.alloc_ws_handshake r x).trace = s.trace ++ [Event.ws_alloc s.ws_handshakes.length] := rfl

@[simp] theorem new_local_ref_alloc_ws_handshake (s : State) (r x : Nat) (jvm : Jvm) :
    new_local_ref (s.alloc_ws_handshake r x) jvm = new_local_ref s jvm := rfl

@[simp] theorem alloc_ws_handshake_async_callback (s : State) (r x : Nat) (id : TokenId) :
    (s.alloc_ws_handshake r x).async_callback id = s.async_callback id := rfl

@[simp] theorem free_connection_connection (s : State) :
    s.free_connection.connection = s.connection := rfl

@[simp] theorem free_connection_connection_freed (s : State) :
    s.free_connection.connection_freed = true := rfl

@[simp] theorem free_connection_callbacks (s : State) :
    s.free_connection.callbacks = s.callbacks := rfl

@[simp] theorem free_connection_ws_handshakes (s : State) :
    s.free_connection.ws_handshakes = s.ws_handshakes := rfl

@[simp] theorem free_connection_pending (s : State) :
    s.free_connection.pending = s.pending := rfl

@[simp] theorem free_connection_termination_pending (s : State) :
    s.free_connection.termination_pending = s.termination_pending := rfl

@[simp] theorem free_connection_last_error (s : State) :
    s.free_connection.last_error = s.last_error := rfl

@[simp] theorem free_connection_crashed (s : State) :
    s.free_connection.crashed = s.crashed := rfl

@[simp] theorem free_connection_trace (s : State) :
    s.free_connection.trace = s.trace ++ [Event.connection_free] := rfl

@[simp] theorem new_local_ref_free_connection (s : State) (jvm : Jvm) :
    new_local_ref s.free_connection jvm = new_local_ref s jvm := rfl

@[simp] theorem free_connection_async_callback (s : State) (id : TokenId) :
    s.free_connection.async_callback id = s.async_callback id := rfl

@[simp] theorem fire_termination_connection (s : State) :
    s.fire_termination.connection = s.connection := rfl

@[simp] theorem fire_termination_connection_freed (s : State) :
    s.fire_termination.connection_freed = s.connection_freed := rfl

@[simp] theorem fire_termination_callbacks (s : State) :
    s.fire_termination.callbacks = s.callbacks := rfl

@[simp] theorem fire_termination_ws_handshakes (s : State) :
    s.fire_termination.ws_handshakes = s.ws_handshakes := rfl

@[simp] theorem fire_termination_pending (s : State) :
    s.fire_termination.pending = s.pending := rfl

@[simp] theorem fire_termination_termination_pending (s : State) :
    s.fire_termination.termination_pending = false := rfl

@[simp] theorem fire_termination_last_error (s : State) :
    s.fire_termination.last_error = s.last_error := rfl

@[simp] theorem fire_termination_crashed (s : State) :
    s.fire_termination.crashed = s.crashed := rfl

@[simp] theorem fire_termination_trace (s : State) :
    s.fire_termination.trace = s.trace := rfl

@[simp] theorem new_local_ref_fire_termination (s : State) (jvm : Jvm) :
    new_local_ref s.fire_termination jvm = new_local_ref s jvm := rfl

@[simp] theorem fire_termination_async_callback (s : State) (id : TokenId) :
    s.fire_termination.async_callback id = s.async_callback id := rfl

@[simp] theorem alloc_callback_connection (s : State) (cb : Option JObject) :
    (s.alloc_callback cb).connection = s.connection := by
  unfold State.alloc_callback
  split <;> rfl

@[simp] theorem alloc_callback_connection_freed (s : State) (cb : Option JObject) :
    (s.alloc_callback cb).connection_freed = s.connection_freed := by
  unfold State.alloc_callback
  split <;> rfl

@[simp] theorem alloc_callback_callbacks (s : State) (cb : Option JObject) :
    (s.alloc_callback cb).callbacks = s.callbacks ++ [{ async_callback := cb }] := by
  unfold State.alloc_callback
  split <;> rfl

@[simp] theorem alloc_callback_ws_handshakes (s : State) (cb : Option JObject) :
    (s.alloc_callback cb).ws_handshakes = s.ws_handshakes := by
  unfold State.alloc_callback
  split <;> rfl

@[simp] theorem alloc_callback_pending (s : State) (cb : Option JObject) :
    (s.alloc_callback cb).pending = s.pending := by
  unfold State.alloc_callback
  split <;> rfl

@[simp] theorem alloc_callback_termination_pending (s : State) (cb : Option JObject) :
    (s.alloc_callback cb).termination_pending = s.termination_pending := by
  unfold State.alloc_callback
  split <;> rfl

@[simp] theorem alloc_callback_last_error (s : State) (cb : Option JObject) :
    (s.alloc_callback cb).last_error = s.last_error := by
  unfold State.alloc_callback
  split <;> rfl

@[simp] theorem alloc_callback_crashed (s : State) (cb : Option JObject) :
    (s.alloc_callback cb).crashed = s.crashed := by
  unfold State.alloc_callback
  split <;> rfl

@[simp] theorem new_local_ref_alloc_callback (s : State) (cb : Option JObject) (jvm : Jvm) :
    new_local_ref (s.alloc_callback cb) jvm = new_local_ref s jvm := by
  simp [new_local_ref]

@[simp] theorem free_callback_connection (s : State) (t : TokenId) :
    (s.free_callback t).connection = s.connection := by
  unfold State.free_callback
  split <;> rfl

@[simp] theorem free_callback_connection_freed (s : State) (t : TokenId) :
    (s.free_callback t).connection_freed = s.connection_freed := by
  unfold State.free_callback
  split <;> rfl

@[simp] theorem free_callback_callbacks (s : State) (t : TokenId) :
    (s.free_callback t).callbacks = s.callbacks := by
  unfold State.free_callback
  split <;> rfl

@[simp] theorem free_callback_ws_handshakes (s : State) (t : TokenId) :
    (s.free_callback t).ws_handshakes = s.ws_handshakes := by
  unfold State.free_callback
  split <;> rfl

@[simp] theorem free_callback_pending (s : State) (t : TokenId) :
    (s.free_callback t).pending = s.pending := by
  unfold State.free_callback
  split <;> rfl

@[simp] theorem free_callback_termination_pending (s : State) (t : TokenId) :
    (s.free_callback t).termination_pending = s.termination_pending := by
  unfold State.free_callback
  split <;> rfl

@[simp] theorem free_callback_last_error (s : State) (t : TokenId) :
    (s.free_callback t).last_error = s.last_error := by
  unfold State.free_callback
  split <;> rfl

@[simp] theorem free_callback_crashed (s : State) (t : TokenId) :
    (s.free_callback t).crashed = s.crashed := by
  unfold State.free_callback
  split <;> rfl

@[simp] theorem new_local_ref_free_callback (s : State) (t : TokenId) (jvm : Jvm) :
    new_local_ref (s.free_callback t) jvm = new_local_ref s jvm := by
  simp [new_local_ref]

@[simp] theorem free_callback_async_callback (s : State) (t : TokenId) (id : TokenId) :
    (s.free_callback t).async_callback id = s.async_callback id := by
  simp [State.async_callback]

@[simp] theorem acquire_connection (s : State) :
    (s_mqtt_jni_connection_acquire s).connection = { s.connection with
        ref_count := if s.connection.ref_count = SIZE_MAX then 0 else s.connection.ref_count + 1 } := rfl

@[simp] theorem acquire_connection_freed (s : State) :
    (s_mqtt_jni_connection_acquire s).connection_freed = s.connection_freed := rfl

@[simp] theorem acquire_callbacks (s : State) :
    (s_mqtt_jni_connection_acquire s).callbacks = s.callbacks := rfl

@[simp] theorem acquire_ws_handshakes (s : State) :
    (s_mqtt_jni_connection_acquire s).ws_handshakes = s.ws_handshakes := rfl

@[simp] theorem acquire_pending (s : State) :
    (s_mqtt_jni_connection_acquire s).pending = s.pending := rfl

@[simp] theorem acquire_termination_pending (s : State) :
    (s_mqtt_jni_connection_acquire s).termination_pending = s.termination_pending := rfl

@[simp] theorem acquire_last_error (s : State) :
    (s_mqtt_jni_connection_acquire s).last_error = s.last_error := rfl

@[simp] theorem acquire_crashed (s : State) :
    (s_mqtt_jni_connection_acquire s).crashed = s.crashed := rfl

@[simp] theorem acquire_trace (s : State) :
    (s_mqtt_jni_connection_acquire s).trace = s.trace ++ [Event.connection_acquire s.connection.ref_count] := rfl

@[simp] theorem new_local_ref_acquire (s : State) (jvm : Jvm) :
    new_local_ref (s_mqtt_jni_connection_acquire s) jvm = new_local_ref s jvm := rfl

@[simp] theorem acquire_async_callback (s : State) (id : TokenId) :
    (s_mqtt_jni_connection_acquire s).async_callback id = s.async_callback id := rfl

@[simp] theorem release_connection (s : State) :
    (s_mqtt_jni_connection_release s).connection = { s.connection with
        ref_count := if s.connection.ref_count = 0 then SIZE_MAX else s.connection.ref_count - 1 } := rfl

@[simp] theorem release_connection_freed (s : State) :
    (s_mqtt_jni_connection_release s).connection_freed = s.connection_freed := rfl

@[simp] theorem release_callbacks (s : State) :
    (s_mqtt_jni_connection_release s).callbacks = s.callbacks := rfl

@[simp] theorem release_ws_handshakes (s : State) :
    (s_mqtt_jni_connection_release s).ws_handshakes = s.ws_handshakes := rfl

@[simp] theorem release_pending (s : State) :
    (s_mqtt_jni_connection_release s).pending = s.pending := rfl

@[simp] theorem release_termination_pending (s : State) :
    (s_mqtt_jni_connection_release s).termination_pending = s.termination_pending := rfl

@[simp] theorem release_last_error (s : State) :
    (s_mqtt_jni_connection_release s).last_error = s.last_error := rfl

@[simp] theorem release_crashed (s : State) :
    (s_mqtt_jni_connection_release s).crashed = s.crashed := rfl

@[simp] theorem release_trace (s : State) :
    (s_mqtt_jni_connection_release s).trace = s.trace ++ [Event.connection_release s.connection.ref_count] := rfl

@[simp] theorem new_local_ref_release (s : State) (jvm : Jvm) :
    new_local_ref (s_mqtt_jni_connection_release s) jvm = new_local_ref s jvm := rfl

@[simp] theorem release_async_callback (s : State) (id : TokenId) :
    (s_mqtt_jni_connection_release s).async_callback id = s.async_callback id := rfl

theorem alloc_callback_trace (s : State) (cb : Option JObject) :
    (s.alloc_callback cb).trace = s.trace ++ Event.callback_alloc s.callbacks.length ::
      (match cb with
        | some obj => [Event.new_global_ref obj]
        | none => []) := by
  cases cb <;> simp [State.alloc_callback]

theorem free_callback_trace (s : State) (t : TokenId) :
    (s.free_callback t).trace = s.trace ++
      ((match s.async_callback t with
        | some obj => [Event.delete_global_ref obj]
        | none => []) ++ [Event.byte_buf_clean_up t, Event.callback_free t]) := by
  unfold State.free_callback
  cases s.async_callback t <;> simp

@[simp] theorem alloc_callback_async_callback (s : State) (cb : Option JObject) :
    (s.alloc_callback cb).async_callback s.callbacks.length = cb := by
  simp [State.async_callback]

@[simp] theorem callback_new_attached (s : State) (cb : Option JObject) :
    s_mqtt_jni_async_callback_new s cb true = (s.alloc_callback cb, some s.callbacks.length) := rfl

@[simp] theorem callback_destroy_attached (s : State) (t : TokenId) :
    s_mqtt_jni_async_callback_destroy s t true = s.free_callback t := rfl

/-! ### Counting allocations, frees and registrations -/

@[simp] theorem alloc_count_emit (s : State) (e : Event) (id : TokenId) :
    (s.emit e).alloc_count id = s.alloc_count id + (if e = Event.callback_alloc id then 1 else 0) := by
  simp only [State.alloc_count, emit_trace, List.count_append, List.count_cons, List.count_nil]
  by_cases h : e = Event.callback_alloc id <;> simp [h]

@[simp] theorem alloc_count_register (s : State) (p : Pending) (id : TokenId) :
    (s.register p).alloc_count id = s.alloc_count id := rfl

@[simp] theorem alloc_count_take (s : State) (p : Pending) (id : TokenId) :
    (s.take p).alloc_count id = s.alloc_count id := rfl

@[simp] theorem alloc_count_fatal (s : State) (id : TokenId) :
    s.fatal.alloc_count id = s.alloc_count id := by
  simp [State.alloc_count, List.count_append, List.count_cons]

@[simp] theorem alloc_count_raise (s : State) (c : Int) (id : TokenId) :
    (s.raise c).alloc_count id = s.alloc_count id := by
  simp [State.alloc_count, List.count_append, List.count_cons]

@[simp] theorem alloc_count_segfault (s : State) (id : TokenId) :
    s.segfault.alloc_count id = s.alloc_count id := by
  simp [State.alloc_count, List.count_append, List.count_cons]

@[simp] theorem alloc_count_set_socket_options (s : State) (o : SocketOptions) (id : TokenId) :
    (s.set_socket_options o).alloc_count id = s.alloc_count id := rfl

@[simp] theorem alloc_count_init_tls_options (s : State) (id : TokenId) :
    s.init_tls_options.alloc_count id = s.alloc_count id := rfl

@[simp] theorem alloc_count_set_on_message (s : State) (h : TokenId) (id : TokenId) :
    (s.set_on_message h).alloc_count id = s.alloc_count id := rfl

@[simp] theorem alloc_count_set_last_error (s : State) (c : Int) (id : TokenId) :
    (s.set_last_error c).alloc_count id = s.alloc_count id := rfl

@[simp] theorem alloc_count_alloc_ws_handshake (s : State) (r x : Nat) (id : TokenId) :
    (s.alloc_ws_handshake r x).alloc_count id = s.alloc_count id := by
  simp [State.alloc_count, List.count_append, List.count_cons]

@[simp] theorem alloc_count_free_connection (s : State) (id : TokenId) :
    s.free_connection.alloc_count id = s.alloc_count id := by
  simp [State.alloc_count, List.count_append, List.count_cons]

@[simp] theorem alloc_count_fire_termination (s : State) (id : TokenId) :
    s.fire_termination.alloc_count id = s.alloc_count id := rfl

@[simp] theorem alloc_count_alloc_callback (s : State) (cb : Option JObject) (id : TokenId) :
    (s.alloc_callback cb).alloc_count id = s.alloc_count id + (if id = s.callbacks.length then 1 else 0) := by
  simp only [State.alloc_count, alloc_callback_trace]
  by_cases h : id = s.callbacks.length
  · subst h
    cases cb <;> simp [List.count_append, List.count_cons]
  · have h' : ¬ s.callbacks.length = id := fun e => h e.symm
    cases cb <;> simp [List.count_append, List.count_cons, h, h']

@[simp] theorem alloc_count_free_callback (s : State) (t : TokenId) (id : TokenId) :
    (s.free_callback t).alloc_count id = s.alloc_count id := by
  simp only [State.alloc_count, free_callback_trace]
  cases s.async_callback t <;> simp [List.count_append, List.count_cons]

@[simp] theorem alloc_count_acquire (s : State) (id : TokenId) :
    (s_mqtt_jni_connection_acquire s).alloc_count id = s.alloc_count id := by
  simp [State.alloc_count, List.count_append, List.count_cons]

@[simp] theorem alloc_count_release (s : State) (id : TokenId) :
    (s_mqtt_jni_connection_release s).alloc_count id = s.alloc_count id := by
  simp [State.alloc_count, List.count_append, List.count_cons]

@[simp] theorem destroy_count_emit (s : State) (e : Event) (id : TokenId) :
    (s.emit e).destroy_count id = s.destroy_count id + (if e = Event.callback_free id then 1 else 0) := by
  simp only [State.destroy_count, emit_trace, List.count_append, List.count_cons, List.count_nil]
  by_cases h : e = Event.callback_free id <;> simp [h]

@[simp] theorem destroy_count_register (s : State) (p : Pending) (id : TokenId) :
    (s.register p).destroy_count id = s.destroy_count id := rfl

@[simp] theorem destroy_count_take (s : State) (p : Pending) (id : TokenId) :
    (s.take p).destroy_count id = s.destroy_count id := rfl

@[simp] theorem destroy_count_fatal (s : State) (id : TokenId) :
    s.fatal.destroy_count id = s.destroy_count id := by
  simp [State.destroy_count, List.count_append, List.count_cons]

@[simp] theorem destroy_count_raise (s : State) (c : Int) (id : TokenId) :
    (s.raise c).destroy_count id = s.destroy_count id := by
  simp [State.destroy_count, List.count_append, List.count_cons]

@[simp] theorem destroy_count_segfault (s : State) (id : TokenId) :
    s.segfault.destroy_count id = s.destroy_count id := by
  simp [State.destroy_count, List.count_append, List.count_cons]

@[simp] theorem destroy_count_set_socket_options (s : State) (o : SocketOptions) (id : TokenId) :
    (s.set_socket_options o).destroy_count id = s.destroy_count id := rfl

@[simp] theorem destroy_count_init_tls_options (s : State) (id : TokenId) :
    s.init_tls_options.destroy_count id = s.destroy_count id := rfl

@[simp] theorem destroy_count_set_on_message (s : State) (h : TokenId) (id : TokenId) :
    (s.set_on_message h).destroy_count id = s.destroy_count id := rfl

@[simp] theorem destroy_count_set_last_error (s : State) (c : Int) (id : TokenId) :
    (s.set_last_error c).destroy_count id = s.destroy_count id := rfl

@[simp] theorem destroy_count_alloc_ws_handshake (s : State) (r x : Nat) (id : TokenId) :
    (s.alloc_ws_handshake r x).destroy_count id = s.destroy_count id := by
  simp [State.destroy_count, List.count_append, List.count_cons]

@[simp] theorem destroy_count_free_connection (s : State) (id : TokenId) :
    s.free_connection.destroy_count id = s.destroy_count id := by
  simp [State.destroy_count, List.count_append, List.count_cons]

@[simp] theorem destroy_count_fire_termination (s : State) (id : TokenId) :
    s.fire_termination.destroy_count id = s.destroy_count id := rfl

@[simp] theorem destroy_count_alloc_callback (s : State) (cb : Option JObject) (id : TokenId) :
    (s.alloc_callback cb).destroy_count id = s.destroy_count id := by
  simp only [State.destroy_count, alloc_callback_trace]
  cases cb <;> simp [List.count_append, List.count_cons]

@[simp] theorem destroy_count_free_callback (s : State) (t : TokenId) (id : TokenId) :
    (s.free_callback t).destroy_count id = s.destroy_count id + (if id = t then 1 else 0) := by
  simp only [State.destroy_count, free_callback_trace]
  by_cases h : id = t
  · subst h
    cases s.async_callback id <;> simp [List.count_append, List.count_cons]
  · have h' : ¬ t = id := fun e => h e.symm
    cases s.async_callback t <;> simp [List.count_append, List.count_cons, h, h']

@[simp] theorem destroy_count_acquire (s : State) (id : TokenId) :
    (s_mqtt_jni_connection_acquire s).destroy_count id = s.destroy_count id := by
  simp [State.destroy_count, List.count_append, List.count_cons]

@[simp] theorem destroy_count_release (s : State) (id : TokenId) :
    (s_mqtt_jni_connection_release s).destroy_count id = s.destroy_count id := by
  simp [State.destroy_count, List.count_append, List.count_cons]

@[simp] theorem free_count_emit (s : State) (e : Event) :
    (s.emit e).free_count = s.free_count + (if e = Event.connection_free then 1 else 0) := by
  simp only [State.free_count, emit_trace, List.count_append, List.count_cons, List.count_nil]
  by_cases h : e = Event.connection_free <;> simp [h]

@[simp] theorem free_count_register (s : State) (p : Pending) :
    (s.register p).free_count = s.free_count := rfl

@[simp] theorem free_count_take (s : State) (p : Pending) :
    (s.take p).free_count = s.free_count := rfl

@[simp] theorem free_count_fatal (s : State) :
    s.fatal.free_count = s.free_count := by
  simp [State.free_count, List.count_append, List.count_cons]

@[simp] theorem free_count_raise (s : State) (c : Int) :
    (s.raise c).free_count = s.free_count := by
  simp [State.free_count, List.count_append, List.count_cons]

@[simp] theorem free_count_segfault (s : State) :
    s.segfault.free_count = s.free_count := by
  simp [State.free_count, List.count_append, List.count_cons]

@[simp] theorem free_count_set_socket_options (s : State) (o : SocketOptions) :
    (s.set_socket_options o).free_count = s.free_count := rfl

@[simp] theorem free_count_init_tls_options (s : State) :
    s.init_tls_options.free_count = s.free_count := rfl

@[simp] theorem free_count_set_on_message (s : State) (h : TokenId) :
    (s.set_on_message h).free_count = s.free_count := rfl

@[simp] theorem free_count_set_last_error (s : State) (c : Int) :
    (s.set_last_error c).free_count = s.free_count := rfl

@[simp] theorem free_count_alloc_ws_handshake (s : State) (r x : Nat) :
    (s.alloc_ws_handshake r x).free_count = s.free_count := by
  simp [State.free_count, List.count_append, List.count_cons]

@[simp] theorem free_count_free_connection (s : State) :
    s.free_connection.free_count = s.free_count + 1 := by
  simp [State.free_count, List.count_append, List.count_cons]

@[simp] theorem free_count_fire_termination (s : State) :
    s.fire_termination.free_count = s.free_count := rfl

@[simp] theorem free_count_alloc_callback (s : State) (cb : Option JObject) :
    (s.alloc_callback cb).free_count = s.free_count := by
  simp only [State.free_count, alloc_callback_trace]
  cases cb <;> simp [List.count_append, List.count_cons]

@[simp] theorem free_count_free_callback (s : State) (t : TokenId) :
    (s.free_callback t).free_count = s.free_count := by
  simp only [State.free_count, free_callback_trace]
  cases s.async_callback t <;> simp [List.count_append, List.count_cons]

@[simp] theorem free_count_acquire (s : State) :
    (s_mqtt_jni_connection_acquire s).free_count = s.free_count := by
  simp [State.free_count, List.count_append, List.count_cons]

@[simp] theorem free_count_release (s : State) :
    (s_mqtt_jni_connection_release s).free_count = s.free_count := by
  simp [State.free_count, List.count_append, List.count_cons]

@[simp] theorem registered_count_emit (s : State) (e : Event) (id : TokenId) :
    (s.emit e).registered_count id = s.registered_count id := rfl

@[simp] theorem registered_count_register (s : State) (p : Pending) (id : TokenId) :
    (s.register p).registered_count id
      = s.registered_count id + (if pending_token p = some id then 1 else 0) := by
  simp only [State.registered_count, register_pending, register_connection,
    register_connection_freed, List.filterMap_append, List.count_append]
  cases h : pending_token p with
  | none => simp [List.filterMap, h]
  | some t =>
    by_cases ht : t = id
    · simp [List.filterMap, h, ht]
      omega
    · simp [List.filterMap, h, ht, List.count_cons]

@[simp] theorem registered_count_fatal (s : State) (id : TokenId) :
    s.fatal.registered_count id = s.registered_count id := rfl

@[simp] theorem registered_count_raise (s : State) (c : Int) (id : TokenId) :
    (s.raise c).registered_count id = s.registered_count id := rfl

@[simp] theorem registered_count_segfault (s : State) (id : TokenId) :
    s.segfault.registered_count id = s.registered_count id := rfl

@[simp] theorem registered_count_set_socket_options (s : State) (o : SocketOptions) (id : TokenId) :
    (s.set_socket_options o).registered_count id = s.registered_count id := rfl

@[simp] theorem registered_count_init_tls_options (s : State) (id : TokenId) :
    s.init_tls_options.registered_count id = s.registered_count id := rfl

@[simp] theorem registered_count_set_last_error (s : State) (c : Int) (id : TokenId) :
    (s.set_last_error c).registered_count id = s.registered_count id := rfl

@[simp] theorem registered_count_alloc_ws_handshake (s : State) (r x : Nat) (id : TokenId) :
    (s.alloc_ws_handshake r x).registered_count id = s.registered_count id := rfl

@[simp] theorem registered_count_fire_termination (s : State) (id : TokenId) :
    s.fire_termination.registered_count id = s.registered_count id := rfl

@[simp] theorem registered_count_alloc_callback (s : State) (cb : Option JObject) (id : TokenId) :
    (s.alloc_callback cb).registered_count id = s.registered_count id := by
  simp [State.registered_count]

@[simp] theorem registered_count_free_callback (s : State) (t : TokenId) (id : TokenId) :
    (s.free_callback t).registered_count id = s.registered_count id := by
  simp [State.registered_count]

@[simp] theorem registered_count_acquire (s : State) (id : TokenId) :
    (s_mqtt_jni_connection_acquire s).registered_count id = s.registered_count id := rfl

@[simp] theorem registered_count_release (s : State) (id : TokenId) :
    (s_mqtt_jni_connection_release s).registered_count id = s.registered_count id := rfl

theorem registered_count_take (s : State) (p : Pending) (id : TokenId) (hp : p ∈ s.pending) :
    s.registered_count id
      = (s.take p).registered_count id + (if pending_token p = some id then 1 else 0) := by
  have hperm := (List.perm_cons_erase hp).filterMap pending_token
  have hcount := hperm.count_eq id
  simp only [State.registered_count, take_pending, take_connection, take_connection_freed]
  rw [hcount]
  cases h : pending_token p with
  | none => simp [List.filterMap_cons, h]
  | some t =>
    by_cases ht : t = id
    · simp [List.filterMap_cons, h, ht]
      omega
    · simp [List.filterMap_cons, h, ht, List.count_cons]

/-! ## Subscribe acknowledgement -/

/-- C1, counterexample: the ack of an accepted subscribe, whose token holds
the caller's callback, is handled by `s_on_ack` with error code 0 while the
runtime cannot be attached.  With qos 128 and with qos 1 alike the callback
receives nothing, neither a failure nor a success: the function only records
the failed attachment. -/
theorem subscribe_ack_without_runtime :
    subscribed_handle.async_callback 1 = some 11 ∧
    Pending.on_ack (some 1) ∈ subscribed_handle.pending ∧
    ack_deliveries (s_on_ack sample_codes subscribed_handle 5 (some "a/b") 128 0 (some 1)
      jvm_down).trace = ack_deliveries subscribed_handle.trace ∧
    ack_deliveries (s_on_ack sample_codes subscribed_handle 5 (some "a/b") 1 0 (some 1)
      jvm_down).trace = ack_deliveries subscribed_handle.trace ∧
    ack_deliveries subscribed_handle.trace = [] ∧
    (s_on_ack sample_codes subscribed_handle 5 (some "a/b") 128 0 (some 1) jvm_down).trace
      = subscribed_handle.trace ++ [Event.acquire_thread_env false] ∧
    (s_on_ack sample_codes subscribed_handle 5 (some "a/b") 1 0 (some 1) jvm_down).trace
      = subscribed_handle.trace ++ [Event.acquire_thread_env false] := by
  decide

/-- C1, amended: when the runtime attachment succeeds, a subscribe
acknowledgement handled by `s_on_ack` with error code 0 reaches the caller's
ack callback as a failure carrying
`AWS_ERROR_MQTT_CONNECTION_SUBSCRIBE_FAILURE` (and not as a success) when
`qos >= 128`, and as a success when `qos < 128`, in particular for qos 0, 1
and 2.  The ack token carries the caller's callback `cb`. -/
theorem s_on_ack_qos_translation (codes : ErrorCodes) (s : State) (packet_id : Nat)
    (topic : Option String) (qos : Int) (callback : TokenId) (cb : JObject) (jvm : Jvm)
    (hcode : codes.AWS_ERROR_MQTT_CONNECTION_SUBSCRIBE_FAILURE ≠ 0)
    (hcb : s.async_callback callback = some cb) (henv : jvm.thread_env = true) :
    (128 ≤ qos →
      ack_deliveries (s_on_ack codes s packet_id topic qos 0 (some callback) jvm).trace
        = ack_deliveries s.trace
          ++ [Event.on_failure cb codes.AWS_ERROR_MQTT_CONNECTION_SUBSCRIBE_FAILURE]) ∧
    (qos < 128 →
      ack_deliveries (s_on_ack codes s packet_id topic qos 0 (some callback) jvm).trace
        = ack_deliveries s.trace ++ [Event.on_success cb]) := by
  constructor
  · intro hq
    have h1 : ¬ qos < 128 := by omega
    cases hx : jvm.exception_pending <;> cases hc : s.crashed <;>
      simp [s_on_ack, s_is_qos_successful, h1, s_on_op_complete, henv, hcode,
        s_deliver_ack_failure, hcb, hx, hc, s_mqtt_jni_async_callback_destroy, State.free_callback, ack_deliveries,
        List.filter_append]
  · intro hq
    cases hx : jvm.exception_pending <;> cases hc : s.crashed <;>
      simp [s_on_ack, s_is_qos_successful, hq, s_on_op_complete, henv,
        s_deliver_ack_success, hcb, hx, hc, s_mqtt_jni_async_callback_destroy, State.free_callback, ack_deliveries,
        List.filter_append]

theorem s_on_ack_qos_translation_witness :
    sample_codes.AWS_ERROR_MQTT_CONNECTION_SUBSCRIBE_FAILURE ≠ 0 ∧
    subscribed_handle.async_callback 1 = some 11 ∧ jvm_up.thread_env = true ∧
    ((128 ≤ (128 : Int) →
      ack_deliveries (s_on_ack sample_codes subscribed_handle 5 (some "a/b") 128 0 (some 1)
        jvm_up).trace
        = ack_deliveries subscribed_handle.trace ++ [Event.on_failure 11 5153]) ∧
    ((128 : Int) < 128 →
      ack_deliveries (s_on_ack sample_codes subscribed_handle 5 (some "a/b") 128 0 (some 1)
        jvm_up).trace
        = ack_deliveries subscribed_handle.trace ++ [Event.on_success 11])) :=
  ⟨by decide, rfl, rfl,
    s_on_ack_qos_translation sample_codes subscribed_handle 5 (some "a/b") 128 1 11 jvm_up
      (by decide) rfl rfl⟩

/-! ## Null handles -/

/-- The eleven other dispatchers test the handle first: with a NULL handle each
throws to the caller and returns without calling the engine. -/
theorem null_handle_rejected_elsewhere (codes : ErrorCodes) (s : State) (str1 str2 : Option String)
    (n1 n2 n3 n4 : Int) (so : Option SocketOptions) (b1 b2 b3 b4 b5 : Bool)
    (obj1 obj2 : Option JObject) (bytes : Option (List Nat)) (msg_id : Nat) (jvm : Jvm)
    (stats : OperationStatistics) :
    engine_calls (mqttClientConnectionConnect s 0 str1 n1 so b1 str2 b2 n2 n3 n4 b3).trace
      = engine_calls s.trace ∧
    engine_calls (mqttClientConnectionDisconnect s 0 obj1 b1 jvm).trace = engine_calls s.trace ∧
    engine_calls (mqttClientConnectionSubscribe s 0 str1 n1 obj1 obj2 msg_id).1.trace
      = engine_calls s.trace ∧
    engine_calls (mqttClientConnectionUnsubscribe s 0 str1 obj1 msg_id).1.trace
      = engine_calls s.trace ∧
    engine_calls (mqttClientConnectionPublish s 0 str1 n1 b1 bytes obj1 msg_id).1.trace
      = engine_calls s.trace ∧
    engine_calls (mqttClientConnectionOnMessage s 0 obj1 b1).trace = engine_calls s.trace ∧
    engine_calls (mqttClientConnectionSetWill s 0 str1 n1 b1 bytes b2).1.trace
      = engine_calls s.trace ∧
    engine_calls (mqttClientConnectionSetLogin s 0 str1 str2 b1).trace = engine_calls s.trace ∧
    engine_calls (mqttClientConnectionSetReconnectTimeout s 0 n1 n2 b1).trace
      = engine_calls s.trace ∧
    engine_calls (mqttClientConnectionUseWebsockets codes s 0 b1).trace = engine_calls s.trace ∧
    engine_calls (mqttClientConnectionGetOperationStatistics codes s 0 b1 stats b2 b3 b4
      b5).1.trace = engine_calls s.trace ∧
    (thrown (mqttClientConnectionConnect s 0 str1 n1 so b1 str2 b2 n2 n3 n4 b3).trace).length
      = (thrown s.trace).length + 1 ∧
    (thrown (mqttClientConnectionDisconnect s 0 obj1 b1 jvm).trace).length
      = (thrown s.trace).length + 1 ∧
    (thrown (mqttClientConnectionSubscribe s 0 str1 n1 obj1 obj2 msg_id).1.trace).length
      = (thrown s.trace).length + 1 ∧
    (thrown (mqttClientConnectionUnsubscribe s 0 str1 obj1 msg_id).1.trace).length
      = (thrown s.trace).length + 1 ∧
    (thrown (mqttClientConnectionPublish s 0 str1 n1 b1 bytes obj1 msg_id).1.trace).length
      = (thrown s.trace).length + 1 ∧
    (thrown (mqttClientConnectionOnMessage s 0 obj1 b1).trace).length
      = (thrown s.trace).length + 1 ∧
    (thrown (mqttClientConnectionSetWill s 0 str1 n1 b1 bytes b2).1.trace).length
      = (thrown s.trace).length + 1 ∧
    (thrown (mqttClientConnectionSetLogin s 0 str1 str2 b1).trace).length
      = (thrown s.trace).length + 1 ∧
    (thrown (mqttClientConnectionSetReconnectTimeout s 0 n1 n2 b1).trace).length
      = (thrown s.trace).length + 1 ∧
    (thrown (mqttClientConnectionUseWebsockets codes s 0 b1).trace).length
      = (thrown s.trace).length + 1 ∧
    (thrown (mqttClientConnectionGetOperationStatistics codes s 0 b1 stats b2 b3 b4
      b5).1.trace).length = (thrown s.trace).length + 1 := by
  simp [mqttClientConnectionConnect, mqttClientConnectionDisconnect,
    mqttClientConnectionSubscribe, mqttClientConnectionUnsubscribe, mqttClientConnectionPublish,
    mqttClientConnectionOnMessage, mqttClientConnectionSetWill, mqttClientConnectionSetLogin,
    mqttClientConnectionSetReconnectTimeout, mqttClientConnectionUseWebsockets,
    mqttClientConnectionGetOperationStatistics, engine_calls, thrown, List.filterMap_append]

/-- C2: the proxy-options dispatcher called with a NULL handle and a non-null
proxy host raises nothing to the caller: it reads the engine connection
through the NULL handle, which ends the process. -/
theorem set_http_proxy_options_null_handle :
    thrown (mqttClientConnectionSetHttpProxyOptions fresh_handle 0 0 (some "proxy") 8080 false 0
      none none true).trace = thrown fresh_handle.trace ∧
    (mqttClientConnectionSetHttpProxyOptions fresh_handle 0 0 (some "proxy") 8080 false 0
      none none true).trace = fresh_handle.trace ++ [Event.null_dereference] ∧
    (mqttClientConnectionSetHttpProxyOptions fresh_handle 0 0 (some "proxy") 8080 false 0
      none none true).crashed = true := by
  refine ⟨?_, ?_, ?_⟩ <;> rfl

/-! ## Connect rejected by the engine -/

/-- C3: for a valid handle and a non-zero port, when the engine rejects the
connect submission the dispatcher throws to the caller, leaves the reference
count as it was, has created one token (at the next free address) and freed
exactly that token exactly once, and leaves nothing registered with the
engine. -/
theorem connect_rejected_rolls_back (s : State) (jni_connection : Int)
    (jni_endpoint : Option String) (jni_port : Int) (jni_socket_options : Option SocketOptions)
    (jni_tls_ctx : Bool) (jni_client_id : Option String) (jni_clean_session : Bool)
    (keep_alive_secs : Int) (ping_timeout_ms : Int) (protocol_operation_timeout_ms : Int)
    (s' : State)
    (hconn : jni_connection ≠ 0) (hport : jni_port ≠ 0)
    (hjint : -2 ^ 31 ≤ jni_port ∧ jni_port < 2 ^ 31)
    (hcall : s' = mqttClientConnectionConnect s jni_connection jni_endpoint jni_port
      jni_socket_options jni_tls_ctx jni_client_id jni_clean_session keep_alive_secs
      ping_timeout_ms protocol_operation_timeout_ms false) :
    thrown s'.trace = thrown s.trace ++
      ["MqttClientConnection.mqtt_connect: aws_mqtt_client_connection_connect failed"] ∧
    s'.connection.ref_count = s.connection.ref_count ∧
    s'.alloc_count s.callbacks.length = s.alloc_count s.callbacks.length + 1 ∧
    s'.destroy_count s.callbacks.length = s.destroy_count s.callbacks.length + 1 ∧
    (∀ id, id ≠ s.callbacks.length →
      s'.alloc_count id = s.alloc_count id ∧ s'.destroy_count id = s.destroy_count id) ∧
    s'.pending = s.pending := by
  have hp : ¬ (jni_port % 2 ^ 32).toNat = 0 := by
    obtain ⟨h1, h2⟩ := hjint
    omega
  have hp' : ¬ jni_port % 4294967296 ≤ 0 := by
    obtain ⟨h1, h2⟩ := hjint
    omega
  subst hcall
  cases jni_tls_ctx <;>
    simp [mqttClientConnectionConnect, hconn, hp, hp', s_mqtt_jni_async_callback_new,
      s_mqtt_jni_connection_acquire, s_mqtt_jni_connection_release,
      s_mqtt_jni_async_callback_destroy, State.alloc_callback, State.free_callback, State.emit,
      State.async_callback, thrown,
      State.alloc_count, State.destroy_count, List.filterMap_append, List.count_append] <;>
    (refine ⟨?_, ?_⟩
     · by_cases h : s.connection.ref_count = SIZE_MAX
       · simp [h]
       · simp [h]
     · intro id hid
       have hid' : ¬ s.callbacks.length = id := fun h => hid h.symm
       simp [List.count_cons, hid'])

theorem connect_rejected_rolls_back_witness :
    (1 : Int) ≠ 0 ∧ (8883 : Int) ≠ 0 ∧ (-2 ^ 31 ≤ (8883 : Int) ∧ (8883 : Int) < 2 ^ 31) ∧
    (thrown (mqttClientConnectionConnect fresh_handle 1 (some "broker") 8883 none false
        (some "client") true 60 3000 0 false).trace = thrown fresh_handle.trace ++
        ["MqttClientConnection.mqtt_connect: aws_mqtt_client_connection_connect failed"] ∧
      (mqttClientConnectionConnect fresh_handle 1 (some "broker") 8883 none false
        (some "client") true 60 3000 0 false).connection.ref_count
        = fresh_handle.connection.ref_count ∧
      (mqttClientConnectionConnect fresh_handle 1 (some "broker") 8883 none false
        (some "client") true 60 3000 0 false).alloc_count fresh_handle.callbacks.length
        = fresh_handle.alloc_count fresh_handle.callbacks.length + 1 ∧
      (mqttClientConnectionConnect fresh_handle 1 (some "broker") 8883 none false
        (some "client") true 60 3000 0 false).destroy_count fresh_handle.callbacks.length
        = fresh_handle.destroy_count fresh_handle.callbacks.length + 1 ∧
      (∀ id, id ≠ fresh_handle.callbacks.length →
        (mqttClientConnectionConnect fresh_handle 1 (some "broker") 8883 none false
          (some "client") true 60 3000 0 false).alloc_count id = fresh_handle.alloc_count id ∧
        (mqttClientConnectionConnect fresh_handle 1 (some "broker") 8883 none false
          (some "client") true 60 3000 0 false).destroy_count id
          = fresh_handle.destroy_count id) ∧
      (mqttClientConnectionConnect fresh_handle 1 (some "broker") 8883 none false
        (some "client") true 60 3000 0 false).pending = fresh_handle.pending) :=
  ⟨by decide, by decide, by decide,
    connect_rejected_rolls_back fresh_handle 1 (some "broker") 8883 none false (some "client")
      true 60 3000 0 _ (by decide) (by decide) (by decide) rfl⟩

/-! ## The handle is freed by the termination notification only -/

theorem step_keeps_handle (codes : ErrorCodes) (s : State) (a : Action)
    (ha : ∀ jvm, a ≠ Action.on_connection_terminated jvm) :
    (step codes s a).free_count = s.free_count ∧
    (step codes s a).connection_freed = s.connection_freed := by
  unfold step
  split
  · exact ⟨rfl, rfl⟩
  · cases a <;>
      simp only [mqttClientConnectionDestroy, s_mqtt_jni_connection_destroy,
        s_on_shutdown_disconnect_complete, mqttClientConnectionConnect,
        mqttClientConnectionDisconnect, mqttClientConnectionSubscribe,
        mqttClientConnectionOnMessage, mqttClientConnectionUnsubscribe,
        mqttClientConnectionPublish, mqttClientConnectionSetWill, mqttClientConnectionSetLogin,
        mqttClientConnectionSetReconnectTimeout, mqttClientConnectionUseWebsockets,
        mqttClientConnectionWebsocketHandshakeComplete, mqttClientConnectionSetHttpProxyOptions,
        mqttClientConnectionGetOperationStatistics, s_on_connection_complete,
        s_on_connection_interrupted, s_on_connection_interrupted_internal,
        s_on_connection_success, s_on_connection_failure, s_on_connection_resumed,
        s_on_connection_disconnected, s_on_connection_closed, s_on_op_complete, s_on_ack,
        s_cleanup_handler, s_on_subscription_delivered, s_ws_handshake_transform,
        s_ws_handshake_destroy, s_deliver_ack_success, s_deliver_ack_failure,
        callback_new_attached, callback_destroy_attached]
    all_goals first
      | (exfalso; exact ha _ rfl)
      | (repeat' split) <;> simp

/-- C5: on every run of the bridge, from any state, in which no step is the
termination notification `s_on_connection_terminated` - whatever dispatcher
calls, completion and ack callbacks, disconnect-complete callbacks and
reference-count releases it contains - the handle memory is not freed: the
number of frees of the handle and its freed flag are what they were.  In
particular `s_mqtt_jni_connection_release` itself frees nothing, whatever the
count it reaches. -/
theorem handle_freed_only_by_termination (codes : ErrorCodes) (actions : List Action)
    (s : State) (h : ∀ a ∈ actions, ∀ jvm, a ≠ Action.on_connection_terminated jvm) :
    ((run codes s actions).free_count = s.free_count ∧
      (run codes s actions).connection_freed = s.connection_freed) ∧
    ((s_mqtt_jni_connection_release s).free_count = s.free_count ∧
      (s_mqtt_jni_connection_release s).connection_freed = s.connection_freed) := by
  refine ⟨?_, free_count_release s, release_connection_freed s⟩
  induction actions generalizing s with
  | nil => exact ⟨rfl, rfl⟩
  | cons a rest ih =>
    have h1 := step_keeps_handle codes s a (h a (List.mem_cons_self a rest))
    have h2 := ih (step codes s a) (fun b hb => h b (List.mem_cons_of_mem a hb))
    simp only [run, List.foldl_cons] at h2 ⊢
    exact ⟨h2.1.trans h1.1, h2.2.trans h1.2⟩

theorem handle_freed_only_by_termination_witness :
    (∀ a ∈ sample_run, ∀ jvm, a ≠ Action.on_connection_terminated jvm) ∧
    ((run sample_codes fresh_handle sample_run).free_count = fresh_handle.free_count ∧
      (run sample_codes fresh_handle sample_run).connection_freed
        = fresh_handle.connection_freed) ∧
    ((s_mqtt_jni_connection_release fresh_handle).free_count = fresh_handle.free_count ∧
      (s_mqtt_jni_connection_release fresh_handle).connection_freed
        = fresh_handle.connection_freed) :=
  ⟨by intro a ha jvm; simp [sample_run] at ha; rcases ha with h | h | h | h | h | h <;> simp [h],
    handle_freed_only_by_termination sample_codes sample_run fresh_handle
      (by intro a ha jvm; simp [sample_run] at ha
          rcases ha with h | h | h | h | h | h <;> simp [h])⟩

/-! ## The termination notification -/

/-- C6, counterexample: the termination notification fires on a handle with
an on-message token installed while the runtime cannot be attached.  The
callback returns at once: the handle is not freed, the on-message token is not
destroyed, and nothing but the failed attachment is done. -/
theorem termination_without_runtime :
    (s_on_connection_terminated on_message_handle jvm_down).connection_freed = false ∧
    (s_on_connection_terminated on_message_handle jvm_down).free_count = 0 ∧
    on_message_handle.connection.on_message = some 0 ∧
    (s_on_connection_terminated on_message_handle jvm_down).destroy_count 0 = 0 ∧
    (s_on_connection_terminated on_message_handle jvm_down).trace
      = on_message_handle.trace ++ [Event.acquire_thread_env false] := by
  refine ⟨rfl, rfl, rfl, rfl, rfl⟩

/-- C6, amended: when the termination notification fires and the runtime
attachment succeeds, the bridge (a) calls release-references on the peer
exactly when the weak peer reference resolves, (b) frees the on-message token
if one is installed, (c) deletes the weak peer reference, if set, (d) cleans
up the TLS options and (e) frees the handle memory, once; (a) to (d) all
happen before the handle is freed. -/
theorem termination_sequence (s : State) (jvm : Jvm) (henv : jvm.thread_env = true) :
    ∃ before after : List Event,
      (s_on_connection_terminated s jvm).trace
        = s.trace ++ before ++ Event.connection_free :: after ∧
      Event.connection_free ∉ before ∧ Event.connection_free ∉ after ∧
      (s_on_connection_terminated s jvm).connection_freed = true ∧
      before.count (Event.peer PeerCall.release_references)
        = (if (new_local_ref s jvm).isSome then 1 else 0) ∧
      after.count (Event.peer PeerCall.release_references) = 0 ∧
      (∀ t, s.connection.on_message = some t → before.count (Event.callback_free t) = 1) ∧
      (∀ r, s.connection.java_mqtt_connection = some r →
        before.count (Event.delete_weak_global_ref r) = 1) ∧
      before.count Event.tls_connection_options_clean_up = 1 := by
  refine ⟨[Event.acquire_thread_env true]
      ++ (match new_local_ref s jvm with
          | some _ => [Event.peer PeerCall.release_references]
          | none => [])
      ++ (match s.connection.on_message with
          | some t => (match s.async_callback t with
              | some obj => [Event.delete_global_ref obj]
              | none => []) ++ [Event.byte_buf_clean_up t, Event.callback_free t]
          | none => [])
      ++ (match s.connection.java_mqtt_connection with
          | some r => [Event.delete_weak_global_ref r]
          | none => [])
      ++ [Event.tls_connection_options_clean_up], [Event.release_thread_env], ?_⟩
  unfold s_on_connection_terminated s_mqtt_connection_destroy
  cases h1 : new_local_ref s jvm <;> cases h2 : s.connection.on_message <;>
    cases h3 : s.connection.java_mqtt_connection <;>
    simp [henv, h1, h2, h3, free_callback_trace, List.count_append, List.count_cons] <;>
    split <;> simp_all [List.count_cons]

theorem termination_sequence_witness :
    jvm_up.thread_env = true ∧
    ∃ before after : List Event,
      (s_on_connection_terminated on_message_handle jvm_up).trace
        = on_message_handle.trace ++ before ++ Event.connection_free :: after ∧
      Event.connection_free ∉ before ∧ Event.connection_free ∉ after ∧
      (s_on_connection_terminated on_message_handle jvm_up).connection_freed = true ∧
      before.count (Event.peer PeerCall.release_references)
        = (if (new_local_ref on_message_handle jvm_up).isSome then 1 else 0) ∧
      after.count (Event.peer PeerCall.release_references) = 0 ∧
      (∀ t, on_message_handle.connection.on_message = some t →
        before.count (Event.callback_free t) = 1) ∧
      (∀ r, on_message_handle.connection.java_mqtt_connection = some r →
        before.count (Event.delete_weak_global_ref r) = 1) ∧
      before.count Event.tls_connection_options_clean_up = 1 :=
  ⟨rfl, termination_sequence on_message_handle jvm_up rfl⟩

/-! ## Shutdown: the destroy request -/

/-- C7: one destroy request on a live handle releases the engine connection
exactly once.  If the engine rejects the disconnect, the disconnect-complete
path runs synchronously and nothing stays registered; if it accepts, nothing
is released by the request itself, the completion is registered once, firing
it releases the engine connection, and it cannot be fired a second time. -/
theorem destroy_releases_engine_connection_once (codes : ErrorCodes) (s : State)
    (jni_connection : Int) (hconn : jni_connection ≠ 0)
    (hc : s.crashed = false) (hf : s.connection_freed = false) :
    ((run codes s [Action.Destroy jni_connection false]).release_count = s.release_count + 1 ∧
      (run codes s [Action.Destroy jni_connection false]).pending = s.pending) ∧
    ((run codes s [Action.Destroy jni_connection true]).release_count = s.release_count ∧
      (run codes s [Action.Destroy jni_connection true]).pending
        = s.pending ++ [Pending.on_shutdown_disconnect_complete]) ∧
    (run codes s [Action.Destroy jni_connection true, Action.on_shutdown_disconnect_complete]).release_count
      = s.release_count + 1 ∧
    (Pending.on_shutdown_disconnect_complete ∉ s.pending →
      run codes s [Action.Destroy jni_connection true, Action.on_shutdown_disconnect_complete,
        Action.on_shutdown_disconnect_complete]
        = run codes s [Action.Destroy jni_connection true, Action.on_shutdown_disconnect_complete]) := by
  refine ⟨?_, ?_, ?_, ?_⟩
  · simp [run, step, hc, hf, hconn, mqttClientConnectionDestroy, s_mqtt_jni_connection_destroy,
      s_on_shutdown_disconnect_complete, State.release_count, List.count_append, List.count_cons]
  · simp [run, step, hc, hf, hconn, mqttClientConnectionDestroy, s_mqtt_jni_connection_destroy,
      State.release_count, List.count_append, List.count_cons]
  · simp [run, step, hc, hf, hconn, mqttClientConnectionDestroy, s_mqtt_jni_connection_destroy,
      s_on_shutdown_disconnect_complete, State.release_count, List.count_append, List.count_cons]
  · intro hp
    simp [run, step, hc, hf, hconn, mqttClientConnectionDestroy, s_mqtt_jni_connection_destroy,
      s_on_shutdown_disconnect_complete, hp, List.erase_append_right]

theorem destroy_releases_engine_connection_once_witness :
    (1 : Int) ≠ 0 ∧ fresh_handle.crashed = false ∧ fresh_handle.connection_freed = false ∧
    (((run sample_codes fresh_handle [Action.Destroy 1 false]).release_count
        = fresh_handle.release_count + 1 ∧
      (run sample_codes fresh_handle [Action.Destroy 1 false]).pending = fresh_handle.pending) ∧
    ((run sample_codes fresh_handle [Action.Destroy 1 true]).release_count
        = fresh_handle.release_count ∧
      (run sample_codes fresh_handle [Action.Destroy 1 true]).pending
        = fresh_handle.pending ++ [Pending.on_shutdown_disconnect_complete]) ∧
    (run sample_codes fresh_handle
      [Action.Destroy 1 true, Action.on_shutdown_disconnect_complete]).release_count
      = fresh_handle.release_count + 1 ∧
    (Pending.on_shutdown_disconnect_complete ∉ fresh_handle.pending →
      run sample_codes fresh_handle [Action.Destroy 1 true, Action.on_shutdown_disconnect_complete,
        Action.on_shutdown_disconnect_complete]
        = run sample_codes fresh_handle
          [Action.Destroy 1 true, Action.on_shutdown_disconnect_complete])) :=
  ⟨by decide, rfl, rfl,
    destroy_releases_engine_connection_once sample_codes fresh_handle 1 (by decide) rfl rfl⟩

/-! ## Websocket handshake with a collected peer -/

/-- C9: a handshake started with the runtime attached, the bridge object
allocated and the request converted, but the peer already collected.  The
bridge object is created and a handle reference acquired, and the callback
returns: the engine completion function is not invoked, the bridge object is
not destroyed, and no managed object has received its address. -/
theorem ws_handshake_transform_peer_gone :
    (s_ws_handshake_transform sample_codes fresh_handle 7 9 jvm_peer_gone true (some 55)).trace
      = fresh_handle.trace ++ [Event.acquire_thread_env true, Event.ws_alloc 0,
          Event.connection_acquire 1, Event.release_thread_env] ∧
    (s_ws_handshake_transform sample_codes fresh_handle 7 9 jvm_peer_gone true
      (some 55)).connection.ref_count = fresh_handle.connection.ref_count + 1 ∧
    (s_ws_handshake_transform sample_codes fresh_handle 7 9 jvm_peer_gone true
      (some 55)).crashed = false := by
  refine ⟨rfl, rfl, rfl⟩

/-! ## Callbacks without a runtime -/

/-- C10, counterexample: with the runtime unreachable the operation ack
leaves its token allocated, the connect completion leaves the token allocated
and the reference-count bump in place, and the termination notification leaves
the handle unfreed. -/
theorem callbacks_without_runtime_release_nothing :
    (published_handle.alloc_count 0 = 1 ∧
      (s_on_op_complete published_handle 7 0 (some 0) jvm_down).destroy_count 0 = 0) ∧
    (connecting_handle.connection.ref_count = fresh_handle.connection.ref_count + 1 ∧
      (s_on_connection_complete connecting_handle 0 true 0 jvm_down false).connection.ref_count
        = fresh_handle.connection.ref_count + 1 ∧
      (s_on_connection_complete connecting_handle 0 true 0 jvm_down false).destroy_count 0 = 0) ∧
    ((s_on_connection_terminated fresh_handle jvm_down).connection_freed = false ∧
      (s_on_connection_terminated fresh_handle jvm_down).free_count = 0) := by
  refine ⟨⟨rfl, rfl⟩, ⟨rfl, rfl, rfl⟩, ⟨rfl, rfl⟩⟩

/-- C10, amended: when runtime attachment returns NULL, each callback that
owns a native resource (operation ack, connect completion, disconnected
completion, cleanup handler, termination) does nothing after the failed
attachment: no managed object is touched and nothing is released. -/
theorem callbacks_without_runtime_only_return (s : State) (jvm : Jvm) (packet_id : Nat)
    (error_code : Int) (session_present : Bool) (callback : TokenId) (disconnect_ok : Bool)
    (henv : jvm.thread_env = false) :
    s_on_op_complete s packet_id error_code (some callback) jvm
      = s.emit (Event.acquire_thread_env false) ∧
    s_on_connection_complete s error_code session_present callback jvm disconnect_ok
      = s.emit (Event.acquire_thread_env false) ∧
    s_on_connection_disconnected s callback jvm = s.emit (Event.acquire_thread_env false) ∧
    s_cleanup_handler s callback jvm = s.emit (Event.acquire_thread_env false) ∧
    s_on_connection_terminated s jvm = s.emit (Event.acquire_thread_env false) := by
  simp [s_on_op_complete, s_on_connection_complete, s_on_connection_disconnected,
    s_cleanup_handler, s_on_connection_terminated, henv]

theorem callbacks_without_runtime_only_return_witness :
    jvm_down.thread_env = false ∧
    (s_on_op_complete published_handle 7 0 (some 0) jvm_down
      = published_handle.emit (Event.acquire_thread_env false) ∧
    s_on_connection_complete published_handle 0 true 0 jvm_down false
      = published_handle.emit (Event.acquire_thread_env false) ∧
    s_on_connection_disconnected published_handle 0 jvm_down
      = published_handle.emit (Event.acquire_thread_env false) ∧
    s_cleanup_handler published_handle 0 jvm_down
      = published_handle.emit (Event.acquire_thread_env false) ∧
    s_on_connection_terminated published_handle jvm_down
      = published_handle.emit (Event.acquire_thread_env false)) :=
  ⟨rfl, callbacks_without_runtime_only_return published_handle jvm_down 7 0 true 0 false rfl⟩

/-! ## Disconnect on a connection the engine reports as not connected -/

/-- C8, counterexample: the engine refuses the disconnect and the runtime
cannot be attached by the synchronous completion.  The disconnect token has
been allocated, is not destroyed, is not registered with the engine, and the
peer is not notified. -/
theorem disconnect_rejected_without_runtime :
    (mqttClientConnectionDisconnect fresh_handle 1 (some 30) false jvm_down).alloc_count 0 = 1 ∧
    (mqttClientConnectionDisconnect fresh_handle 1 (some 30) false jvm_down).destroy_count 0 = 0 ∧
    (mqttClientConnectionDisconnect fresh_handle 1 (some 30) false jvm_down).pending = [] ∧
    (mqttClientConnectionDisconnect fresh_handle 1 (some 30) false
      jvm_down).interrupted_count 0 (some 30) = 0 := by
  refine ⟨rfl, rfl, rfl, rfl⟩

/-- C8, amended: for a valid handle, when the engine refuses the disconnect
the dispatcher runs the disconnected-completion path once, synchronously, on
the token it created, throws nothing and registers nothing; if that path
attaches to the runtime and the peer does not throw, the peer (if alive)
receives connection-interrupted with error code 0 and the caller's ack
reference, and the token is freed exactly once.  When the engine accepts, the
dispatcher only registers the token: no peer call, no free, no exception. -/
theorem disconnect_rejected_completes_synchronously (s : State) (jni_connection : Int)
    (jni_ack : Option JObject) (jvm : Jvm) (hconn : jni_connection ≠ 0) :
    (mqttClientConnectionDisconnect s jni_connection jni_ack false jvm
        = s_on_connection_disconnected
            ((s.alloc_callback jni_ack).emit (Event.engine (EngineCall.disconnect
              DisconnectFn.s_on_connection_disconnected (UserData.callback s.callbacks.length))))
            s.callbacks.length jvm ∧
      thrown (mqttClientConnectionDisconnect s jni_connection jni_ack false jvm).trace
        = thrown s.trace ∧
      (mqttClientConnectionDisconnect s jni_connection jni_ack false jvm).pending = s.pending) ∧
    (jvm.thread_env = true → jvm.exception_pending = false → s.crashed = false →
      (mqttClientConnectionDisconnect s jni_connection jni_ack false jvm).interrupted_count 0
          jni_ack
        = s.interrupted_count 0 jni_ack + (if (new_local_ref s jvm).isSome then 1 else 0) ∧
      (mqttClientConnectionDisconnect s jni_connection jni_ack false jvm).alloc_count
          s.callbacks.length = s.alloc_count s.callbacks.length + 1 ∧
      (mqttClientConnectionDisconnect s jni_connection jni_ack false jvm).destroy_count
          s.callbacks.length = s.destroy_count s.callbacks.length + 1) ∧
    (mqttClientConnectionDisconnect s jni_connection jni_ack true jvm
        = ((s.alloc_callback jni_ack).emit (Event.engine (EngineCall.disconnect
            DisconnectFn.s_on_connection_disconnected (UserData.callback s.callbacks.length)))).register
            (Pending.on_connection_disconnected s.callbacks.length) ∧
      thrown (mqttClientConnectionDisconnect s jni_connection jni_ack true jvm).trace
        = thrown s.trace ∧
      (mqttClientConnectionDisconnect s jni_connection jni_ack true jvm).interrupted_count 0
          jni_ack = s.interrupted_count 0 jni_ack ∧
      (mqttClientConnectionDisconnect s jni_connection jni_ack true jvm).destroy_count
          s.callbacks.length = s.destroy_count s.callbacks.length) := by
  refine ⟨⟨?_, ?_, ?_⟩, ?_, ⟨?_, ?_, ?_, ?_⟩⟩
  · simp [mqttClientConnectionDisconnect, hconn]
  · simp only [mqttClientConnectionDisconnect, s_on_connection_disconnected,
      s_on_connection_interrupted_internal, callback_new_attached, callback_destroy_attached]
    cases jni_ack <;> (repeat' split) <;>
      simp_all [thrown, alloc_callback_trace, free_callback_trace, List.filterMap_append]
  · simp only [mqttClientConnectionDisconnect, s_on_connection_disconnected,
      s_on_connection_interrupted_internal, callback_new_attached, callback_destroy_attached]
    (repeat' split) <;> simp_all
  · intro henv hexc hcr
    simp only [mqttClientConnectionDisconnect, s_on_connection_disconnected,
      s_on_connection_interrupted_internal, callback_new_attached, callback_destroy_attached,
      State.interrupted_count, State.alloc_count, State.destroy_count]
    cases jni_ack <;> cases h1 : new_local_ref s jvm <;>
      simp [hconn, henv, hexc, hcr, h1, alloc_callback_trace, free_callback_trace,
        List.count_append, List.count_cons]
  · simp [mqttClientConnectionDisconnect, hconn]
  · cases jni_ack <;>
      simp [mqttClientConnectionDisconnect, hconn, thrown, alloc_callback_trace,
        List.filterMap_append]
  · cases jni_ack <;>
      simp [mqttClientConnectionDisconnect, hconn, State.interrupted_count, alloc_callback_trace,
        List.count_append, List.count_cons]
  · cases jni_ack <;>
      simp [mqttClientConnectionDisconnect, hconn, State.destroy_count, alloc_callback_trace,
        List.count_append, List.count_cons]

theorem disconnect_rejected_completes_synchronously_witness :
    (1 : Int) ≠ 0 ∧
    (mqttClientConnectionDisconnect fresh_handle 1 (some 30) false jvm_up).interrupted_count 0
      (some 30) = 1 ∧
    (mqttClientConnectionDisconnect fresh_handle 1 (some 30) false jvm_up).destroy_count 0 = 1 ∧
    jvm_up.thread_env = true ∧
    (jvm_up.thread_env = true → jvm_up.exception_pending = false → fresh_handle.crashed = false →
      (mqttClientConnectionDisconnect fresh_handle 1 (some 30) false jvm_up).interrupted_count 0
          (some 30)
        = fresh_handle.interrupted_count 0 (some 30)
          + (if (new_local_ref fresh_handle jvm_up).isSome then 1 else 0) ∧
      (mqttClientConnectionDisconnect fresh_handle 1 (some 30) false jvm_up).alloc_count
          fresh_handle.callbacks.length = fresh_handle.alloc_count fresh_handle.callbacks.length + 1 ∧
      (mqttClientConnectionDisconnect fresh_handle 1 (some 30) false jvm_up).destroy_count
          fresh_handle.callbacks.length
        = fresh_handle.destroy_count fresh_handle.callbacks.length + 1) :=
  ⟨by decide, rfl, rfl, rfl,
    (disconnect_rejected_completes_synchronously fresh_handle 1 (some 30) jvm_up
      (by decide)).2.1⟩

/-! ## Token accounting

Every entry point preserves the accounting `TokenInv`: a token allocated is
either freed once or still registered. -/

theorem destroy_token_inv (s : State) (c : Int) (ok : Bool)
    (hinv : TokenInv s (fun _ => 0))
    (hcr : (mqttClientConnectionDestroy s c ok).crashed = false) :
    TokenInv (mqttClientConnectionDestroy s c ok) (fun _ => 0) := by
  simp only [mqttClientConnectionDestroy, s_mqtt_jni_connection_destroy, s_on_shutdown_disconnect_complete, callback_new_attached, callback_destroy_attached] at hcr ⊢
  revert hcr
  (repeat' split) <;> intro hcr <;> intro id <;> have h := hinv id <;>
    simp [pending_token] at hcr h ⊢ <;>
    exact h

theorem connect_token_inv (s : State) (c : Int) (endpoint : Option String) (port : Int)
    (so : Option SocketOptions) (tls : Bool) (cid : Option String) (clean : Bool)
    (ka ping pto : Int) (ok : Bool)
    (hinv : TokenInv s (fun _ => 0)) (hcr : (mqttClientConnectionConnect s c endpoint port so tls cid clean ka ping pto ok).crashed = false) :
    TokenInv (mqttClientConnectionConnect s c endpoint port so tls cid clean ka ping pto ok) (fun _ => 0) := by
  simp only [mqttClientConnectionConnect, callback_new_attached, callback_destroy_attached] at hcr ⊢
  revert hcr
  (repeat' split) <;> intro hcr <;> intro id <;> have h := hinv id <;>
    simp [pending_token] at hcr h ⊢ <;>
    first | exact h | (split_ifs at h ⊢ <;> simp only [TokenId] at * <;> omega)

theorem subscribe_token_inv (s : State) (c : Int) (topic : Option String) (qos : Int)
    (handler ack : Option JObject) (msg_id : Nat)
    (hinv : TokenInv s (fun _ => 0)) (hcr : ((mqttClientConnectionSubscribe s c topic qos handler ack msg_id).1).crashed = false) :
    TokenInv ((mqttClientConnectionSubscribe s c topic qos handler ack msg_id).1) (fun _ => 0) := by
  simp only [mqttClientConnectionSubscribe, callback_new_attached, callback_destroy_attached] at hcr ⊢
  revert hcr
  (repeat' split) <;> intro hcr <;> intro id <;> have h := hinv id <;>
    simp [pending_token] at hcr h ⊢ <;>
    first | exact h | (split_ifs at h ⊢ <;> simp only [TokenId] at * <;> omega)

theorem unsubscribe_token_inv (s : State) (c : Int) (topic : Option String) (ack : Option JObject) (msg_id : Nat)
    (hinv : TokenInv s (fun _ => 0)) (hcr : ((mqttClientConnectionUnsubscribe s c topic ack msg_id).1).crashed = false) :
    TokenInv ((mqttClientConnectionUnsubscribe s c topic ack msg_id).1) (fun _ => 0) := by
  simp only [mqttClientConnectionUnsubscribe, callback_new_attached, callback_destroy_attached] at hcr ⊢
  revert hcr
  (repeat' split) <;> intro hcr <;> intro id <;> have h := hinv id <;>
    simp [pending_token] at hcr h ⊢ <;>
    first | exact h | (split_ifs at h ⊢ <;> simp only [TokenId] at * <;> omega)

theorem publish_token_inv (s : State) (c : Int) (topic : Option String) (qos : Int)
    (retain : Bool) (payload : Option (List Nat)) (ack : Option JObject) (msg_id : Nat)
    (hinv : TokenInv s (fun _ => 0)) (hcr : ((mqttClientConnectionPublish s c topic qos retain payload ack msg_id).1).crashed = false) :
    TokenInv ((mqttClientConnectionPublish s c topic qos retain payload ack msg_id).1) (fun _ => 0) := by
  simp only [mqttClientConnectionPublish, callback_new_attached, callback_destroy_attached] at hcr ⊢
  revert hcr
  (repeat' split) <;> intro hcr <;> intro id <;> have h := hinv id <;>
    simp [pending_token] at hcr h ⊢ <;>
    first | exact h | (split_ifs at h ⊢ <;> simp only [TokenId] at * <;> omega)

theorem set_will_token_inv (s : State) (c : Int) (topic : Option String) (qos : Int)
    (retain : Bool) (payload : Option (List Nat)) (ok : Bool)
    (hinv : TokenInv s (fun _ => 0)) (hcr : ((mqttClientConnectionSetWill s c topic qos retain payload ok).1).crashed = false) :
    TokenInv ((mqttClientConnectionSetWill s c topic qos retain payload ok).1) (fun _ => 0) := by
  simp only [mqttClientConnectionSetWill, callback_new_attached, callback_destroy_attached] at hcr ⊢
  revert hcr
  (repeat' split) <;> intro hcr <;> intro id <;> have h := hinv id <;>
    simp [pending_token] at hcr h ⊢ <;>
    exact h

theorem set_login_token_inv (s : State) (c : Int) (user pass : Option String) (ok : Bool)
    (hinv : TokenInv s (fun _ => 0)) (hcr : (mqttClientConnectionSetLogin s c user pass ok).crashed = false) :
    TokenInv (mqttClientConnectionSetLogin s c user pass ok) (fun _ => 0) := by
  simp only [mqttClientConnectionSetLogin, callback_new_attached, callback_destroy_attached] at hcr ⊢
  revert hcr
  (repeat' split) <;> intro hcr <;> intro id <;> have h := hinv id <;>
    simp [pending_token] at hcr h ⊢ <;>
    exact h

theorem set_reconnect_timeout_token_inv (s : State) (c lo hi : Int) (ok : Bool)
    (hinv : TokenInv s (fun _ => 0)) (hcr : (mqttClientConnectionSetReconnectTimeout s c lo hi ok).crashed = false) :
    TokenInv (mqttClientConnectionSetReconnectTimeout s c lo hi ok) (fun _ => 0) := by
  simp only [mqttClientConnectionSetReconnectTimeout, callback_new_attached, callback_destroy_attached] at hcr ⊢
  revert hcr
  (repeat' split) <;> intro hcr <;> intro id <;> have h := hinv id <;>
    simp [pending_token] at hcr h ⊢ <;>
    exact h

theorem use_websockets_token_inv (s : State) (codes : ErrorCodes) (c : Int) (ok : Bool)
    (hinv : TokenInv s (fun _ => 0)) (hcr : (mqttClientConnectionUseWebsockets codes s c ok).crashed = false) :
    TokenInv (mqttClientConnectionUseWebsockets codes s c ok) (fun _ => 0) := by
  simp only [mqttClientConnectionUseWebsockets, callback_new_attached, callback_destroy_attached] at hcr ⊢
  revert hcr
  (repeat' split) <;> intro hcr <;> intro id <;> have h := hinv id <;>
    simp [pending_token] at hcr h ⊢ <;>
    exact h

theorem websocket_handshake_complete_token_inv (s : State) (codes : ErrorCodes)
    (throwable : Option Throwable) (user_data : WsId) (apply_error : Option Int)
    (hinv : TokenInv s (fun _ => 0)) (hcr : (mqttClientConnectionWebsocketHandshakeComplete codes s throwable user_data apply_error).crashed = false) :
    TokenInv (mqttClientConnectionWebsocketHandshakeComplete codes s throwable user_data apply_error) (fun _ => 0) := by
  simp only [mqttClientConnectionWebsocketHandshakeComplete, s_ws_handshake_destroy, callback_new_attached, callback_destroy_attached] at hcr ⊢
  revert hcr
  (repeat' split) <;> intro hcr <;> intro id <;> have h := hinv id <;>
    simp [pending_token] at hcr h ⊢ <;>
    exact h

theorem set_http_proxy_options_token_inv (s : State) (c ty : Int) (host : Option String) (port : Int)
    (tls : Bool) (aty : Int) (user pass : Option String) (ok : Bool)
    (hinv : TokenInv s (fun _ => 0)) (hcr : (mqttClientConnectionSetHttpProxyOptions s c ty host port tls aty user pass ok).crashed = false) :
    TokenInv (mqttClientConnectionSetHttpProxyOptions s c ty host port tls aty user pass ok) (fun _ => 0) := by
  simp only [mqttClientConnectionSetHttpProxyOptions, callback_new_attached, callback_destroy_attached] at hcr ⊢
  revert hcr
  (repeat' split) <;> intro hcr <;> intro id <;> have h := hinv id <;>
    simp [pending_token] at hcr h ⊢ <;>
    exact h

theorem get_operation_statistics_token_inv (s : State) (codes : ErrorCodes) (c : Int) (obj : Bool)
    (stats : OperationStatistics) (e1 e2 e3 e4 : Bool)
    (hinv : TokenInv s (fun _ => 0)) (hcr : ((mqttClientConnectionGetOperationStatistics codes s c obj stats e1 e2 e3 e4).1).crashed = false) :
    TokenInv ((mqttClientConnectionGetOperationStatistics codes s c obj stats e1 e2 e3 e4).1) (fun _ => 0) := by
  simp only [mqttClientConnectionGetOperationStatistics, callback_new_attached, callback_destroy_attached] at hcr ⊢
  revert hcr
  (repeat' split) <;> intro hcr <;> intro id <;> have h := hinv id <;>
    simp [pending_token] at hcr h ⊢ <;>
    exact h

theorem on_connection_interrupted_token_inv (s : State) (error_code : Int) (jvm : Jvm) (henv : jvm.thread_env = true)
    (hinv : TokenInv s (fun _ => 0)) (hcr : (s_on_connection_interrupted s error_code jvm).crashed = false) :
    TokenInv (s_on_connection_interrupted s error_code jvm) (fun _ => 0) := by
  simp only [s_on_connection_interrupted, s_on_connection_interrupted_internal, callback_new_attached, callback_destroy_attached, henv] at hcr ⊢
  revert hcr
  (repeat' split) <;> intro hcr <;> intro id <;> have h := hinv id <;>
    simp [pending_token] at hcr h ⊢ <;>
    exact h

theorem on_connection_success_token_inv (s : State) (session_present : Bool) (jvm : Jvm) (henv : jvm.thread_env = true)
    (hinv : TokenInv s (fun _ => 0)) (hcr : (s_on_connection_success s session_present jvm).crashed = false) :
    TokenInv (s_on_connection_success s session_present jvm) (fun _ => 0) := by
  simp only [s_on_connection_success, callback_new_attached, callback_destroy_attached, henv] at hcr ⊢
  revert hcr
  (repeat' split) <;> intro hcr <;> intro id <;> have h := hinv id <;>
    simp [pending_token] at hcr h ⊢ <;>
    exact h

theorem on_connection_failure_token_inv (s : State) (error_code : Int) (jvm : Jvm) (henv : jvm.thread_env = true)
    (hinv : TokenInv s (fun _ => 0)) (hcr : (s_on_connection_failure s error_code jvm).crashed = false) :
    TokenInv (s_on_connection_failure s error_code jvm) (fun _ => 0) := by
  simp only [s_on_connection_failure, callback_new_attached, callback_destroy_attached, henv] at hcr ⊢
  revert hcr
  (repeat' split) <;> intro hcr <;> intro id <;> have h := hinv id <;>
    simp [pending_token] at hcr h ⊢ <;>
    exact h

theorem on_connection_resumed_token_inv (s : State) (session_present : Bool) (jvm : Jvm) (henv : jvm.thread_env = true)
    (hinv : TokenInv s (fun _ => 0)) (hcr : (s_on_connection_resumed s session_present jvm).crashed = false) :
    TokenInv (s_on_connection_resumed s session_present jvm) (fun _ => 0) := by
  simp only [s_on_connection_resumed, callback_new_attached, callback_destroy_attached, henv] at hcr ⊢
  revert hcr
  (repeat' split) <;> intro hcr <;> intro id <;> have h := hinv id <;>
    simp [pending_token] at hcr h ⊢ <;>
    exact h

theorem on_connection_closed_token_inv (s : State) (jvm : Jvm) (henv : jvm.thread_env = true)
    (hinv : TokenInv s (fun _ => 0)) (hcr : (s_on_connection_closed s jvm).crashed = false) :
    TokenInv (s_on_connection_closed s jvm) (fun _ => 0) := by
  simp only [s_on_connection_closed, callback_new_attached, callback_destroy_attached, henv] at hcr ⊢
  revert hcr
  (repeat' split) <;> intro hcr <;> intro id <;> have h := hinv id <;>
    simp [pending_token] at hcr h ⊢ <;>
    exact h

theorem on_subscription_delivered_token_inv (s : State) (topic : String) (payload : List Nat)
    (dup : Bool) (qos : Int) (retain : Bool) (user_data : TokenId) (jvm : Jvm) (henv : jvm.thread_env = true)
    (hinv : TokenInv s (fun _ => 0)) (hcr : (s_on_subscription_delivered s topic payload dup qos retain user_data jvm).crashed = false) :
    TokenInv (s_on_subscription_delivered s topic payload dup qos retain user_data jvm) (fun _ => 0) := by
  simp only [s_on_subscription_delivered, callback_new_attached, callback_destroy_attached, henv] at hcr ⊢
  revert hcr
  (repeat' split) <;> intro hcr <;> intro id <;> have h := hinv id <;>
    simp [pending_token] at hcr h ⊢ <;>
    exact h

theorem ws_handshake_transform_token_inv (s : State) (codes : ErrorCodes) (request complete_ctx : Nat)
    (jvm : Jvm) (alloc_ok : Bool) (java_http_request : Option JObject) (henv : jvm.thread_env = true)
    (hinv : TokenInv s (fun _ => 0)) (hcr : (s_ws_handshake_transform codes s request complete_ctx jvm alloc_ok java_http_request).crashed = false) :
    TokenInv (s_ws_handshake_transform codes s request complete_ctx jvm alloc_ok java_http_request) (fun _ => 0) := by
  simp only [s_ws_handshake_transform, s_ws_handshake_destroy, callback_new_attached, callback_destroy_attached, henv] at hcr ⊢
  revert hcr
  (repeat' split) <;> intro hcr <;> intro id <;> have h := hinv id <;>
    simp [pending_token] at hcr h ⊢ <;>
    exact h

theorem cleanup_handler_token_inv (s : State) (user_data : TokenId) (jvm : Jvm)
    (henv : jvm.thread_env = true)
    (hinv : TokenInv s (fun id => if user_data = id then 1 else 0)) :
    TokenInv (s_cleanup_handler s user_data jvm) (fun _ => 0) := by
  intro id
  have h := hinv id
  simp [s_cleanup_handler, henv] at h ⊢
  split_ifs at h ⊢ <;> simp only [TokenId] at * <;> omega

theorem on_op_complete_token_inv (s : State) (packet_id : Nat) (error_code : Int)
    (user_data : Option TokenId) (jvm : Jvm) (henv : jvm.thread_env = true)
    (hinv : TokenInv s (fun id => if user_data = some id then 1 else 0))
    (hcr : (s_on_op_complete s packet_id error_code user_data jvm).crashed = false) :
    TokenInv (s_on_op_complete s packet_id error_code user_data jvm) (fun _ => 0) := by
  intro id
  have h := hinv id
  cases user_data with
  | none => simpa [s_on_op_complete] using h
  | some t =>
    by_cases he : error_code = 0 <;> cases hx : jvm.exception_pending <;>
      cases hc : s.crashed <;> cases ha : s.async_callback t <;>
      simp [s_on_op_complete, s_deliver_ack_failure, s_deliver_ack_success, henv, he, hx, hc,
        ha] at hcr h ⊢ <;>
      (split_ifs at h ⊢ <;> simp only [TokenId] at * <;> omega)

theorem on_ack_token_inv (codes : ErrorCodes) (s : State) (packet_id : Nat)
    (topic : Option String) (qos error_code : Int) (user_data : Option TokenId) (jvm : Jvm)
    (henv : jvm.thread_env = true)
    (hinv : TokenInv s (fun id => if user_data = some id then 1 else 0))
    (hcr : (s_on_ack codes s packet_id topic qos error_code user_data jvm).crashed = false) :
    TokenInv (s_on_ack codes s packet_id topic qos error_code user_data jvm) (fun _ => 0) :=
  on_op_complete_token_inv s packet_id _ user_data jvm henv hinv hcr

theorem on_connection_disconnected_token_inv (s : State) (user_data : TokenId) (jvm : Jvm)
    (henv : jvm.thread_env = true)
    (hinv : TokenInv s (fun id => if user_data = id then 1 else 0))
    (hcr : (s_on_connection_disconnected s user_data jvm).crashed = false) :
    TokenInv (s_on_connection_disconnected s user_data jvm) (fun _ => 0) := by
  intro id
  have h := hinv id
  cases hx : jvm.exception_pending <;> cases hc : s.crashed <;>
    cases hn : new_local_ref s jvm <;>
    simp [s_on_connection_disconnected, s_on_connection_interrupted_internal, henv, hx, hc,
      hn] at hcr h ⊢ <;>
    (split_ifs at h ⊢ <;> simp only [TokenId] at * <;> omega)

theorem on_connection_complete_token_inv (s : State) (error_code : Int) (session_present : Bool)
    (user_data : TokenId) (jvm : Jvm) (disconnect_ok : Bool) (henv : jvm.thread_env = true)
    (hdisc : jvm.exception_pending = true → disconnect_ok = true)
    (hinv : TokenInv s (fun id => if user_data = id then 1 else 0)) :
    TokenInv (s_on_connection_complete s error_code session_present user_data jvm disconnect_ok)
      (fun _ => 0) := by
  intro id
  have h := hinv id
  cases hx : jvm.exception_pending <;> cases hn : new_local_ref s jvm <;>
    simp [hx] at hdisc <;>
    simp [s_on_connection_complete, henv, hx, hn, hdisc, pending_token] at h ⊢ <;>
    (split_ifs at h ⊢ <;> simp only [TokenId] at * <;> omega)

theorem disconnect_token_inv (s : State) (c : Int) (ack : Option JObject) (ok : Bool) (jvm : Jvm)
    (henv : jvm.thread_env = true) (hinv : TokenInv s (fun _ => 0))
    (hcr : (mqttClientConnectionDisconnect s c ack ok jvm).crashed = false) :
    TokenInv (mqttClientConnectionDisconnect s c ack ok jvm) (fun _ => 0) := by
  intro id
  have h := hinv id
  by_cases h0 : c = 0
  · simpa [mqttClientConnectionDisconnect, h0] using h
  · cases ok <;> cases hx : jvm.exception_pending <;> cases hc : s.crashed <;>
      cases hn : new_local_ref s jvm <;>
      simp [mqttClientConnectionDisconnect, s_on_connection_disconnected,
        s_on_connection_interrupted_internal, henv, hx, hc, hn, h0, pending_token] at hcr h ⊢ <;>
      (split_ifs at h ⊢ <;> simp only [TokenId] at * <;> omega)


theorem on_message_token_inv (s : State) (c : Int) (handler : Option JObject) (ok : Bool)
    (hf : s.connection_freed = false) (hinv : TokenInv s (fun _ => 0)) :
    TokenInv (mqttClientConnectionOnMessage s c handler ok) (fun _ => 0) := by
  intro id
  have h := hinv id
  by_cases h0 : c = 0
  · simpa [mqttClientConnectionOnMessage, h0] using h
  · cases handler with
    | none => simpa [mqttClientConnectionOnMessage, h0] using h
    | some obj =>
      cases ok
      · simp [mqttClientConnectionOnMessage, h0] at h ⊢
        split_ifs at h ⊢ <;> simp only [TokenId] at * <;> omega
      · cases hm : s.connection.on_message with
        | none =>
          simp [mqttClientConnectionOnMessage, h0, hm, hf, State.registered_count] at h ⊢
          split_ifs at h ⊢ <;> simp only [TokenId] at * <;> omega
        | some old =>
          have ho := hinv old
          simp [mqttClientConnectionOnMessage, h0, hm, hf, State.registered_count] at h ho ⊢
          split_ifs at h ho ⊢ <;> simp only [TokenId] at * <;> omega

theorem on_connection_terminated_token_inv (s : State) (jvm : Jvm)
    (henv : jvm.thread_env = true) (hf : s.connection_freed = false)
    (hinv : TokenInv s (fun _ => 0)) :
    TokenInv (s_on_connection_terminated s jvm) (fun _ => 0) := by
  intro id
  have h := hinv id
  cases hn : new_local_ref s jvm <;> cases hm : s.connection.on_message <;>
    cases hj : s.connection.java_mqtt_connection <;>
    simp [s_on_connection_terminated, s_mqtt_connection_destroy, henv, hn, hm, hj, hf,
      State.registered_count] at h ⊢ <;>
    (split_ifs at h ⊢ <;> simp only [TokenId] at * <;> omega)


theorem take_token_inv (s : State) (p : Pending) (hp : p ∈ s.pending)
    (hinv : TokenInv s (fun _ => 0)) :
    TokenInv (s.take p) (fun id => if pending_token p = some id then 1 else 0) := by
  intro id
  have h := hinv id
  rw [registered_count_take s p id hp] at h
  simpa [Nat.add_assoc] using h

theorem step_token_inv (codes : ErrorCodes) (s : State) (a : Action)
    (ha : a.attached = true) (hinv : TokenInv s (fun _ => 0))
    (hcr : (step codes s a).crashed = false) :
    TokenInv (step codes s a) (fun _ => 0) := by
  unfold step at hcr ⊢
  by_cases hdead : (s.crashed || s.connection_freed) = true
  · simp only [hdead, if_true]
    exact hinv
  · simp only [hdead, if_false] at hcr ⊢
    simp only [Bool.or_eq_true, not_or, Bool.not_eq_true] at hdead
    obtain ⟨hc, hf⟩ := hdead
    cases a with
    | Destroy c ok =>
      dsimp only at hcr ⊢
      exact destroy_token_inv s c ok hinv hcr
    | Connect c endpoint port so tls cid clean ka ping pto ok =>
      dsimp only at hcr ⊢
      exact connect_token_inv s c endpoint port so tls cid clean ka ping pto ok hinv hcr
    | Disconnect c ack ok jvm =>
      dsimp only at hcr ⊢
      simp only [Action.attached, Bool.and_eq_true, Bool.or_eq_true, Bool.not_eq_true'] at ha
      exact disconnect_token_inv s c ack ok jvm ha hinv hcr
    | Subscribe c topic qos handler ack msg_id =>
      dsimp only at hcr ⊢
      exact subscribe_token_inv s c topic qos handler ack msg_id hinv hcr
    | OnMessage c handler ok =>
      dsimp only at hcr ⊢
      exact on_message_token_inv s c handler ok hf hinv
    | Unsubscribe c topic ack msg_id =>
      dsimp only at hcr ⊢
      exact unsubscribe_token_inv s c topic ack msg_id hinv hcr
    | Publish c topic qos retain payload ack msg_id =>
      dsimp only at hcr ⊢
      exact publish_token_inv s c topic qos retain payload ack msg_id hinv hcr
    | SetWill c topic qos retain payload ok =>
      dsimp only at hcr ⊢
      exact set_will_token_inv s c topic qos retain payload ok hinv hcr
    | SetLogin c user pass ok =>
      dsimp only at hcr ⊢
      exact set_login_token_inv s c user pass ok hinv hcr
    | SetReconnectTimeout c lo hi ok =>
      dsimp only at hcr ⊢
      exact set_reconnect_timeout_token_inv s c lo hi ok hinv hcr
    | UseWebsockets c ok =>
      dsimp only at hcr ⊢
      exact use_websockets_token_inv s codes c ok hinv hcr
    | WebsocketHandshakeComplete throwable user_data apply_error =>
      dsimp only at hcr ⊢
      exact websocket_handshake_complete_token_inv s codes throwable user_data apply_error hinv
        hcr
    | SetHttpProxyOptions c ty host port tls aty user pass ok =>
      dsimp only at hcr ⊢
      exact set_http_proxy_options_token_inv s c ty host port tls aty user pass ok hinv hcr
    | GetOperationStatistics c obj stats e1 e2 e3 e4 =>
      dsimp only at hcr ⊢
      exact get_operation_statistics_token_inv s codes c obj stats e1 e2 e3 e4 hinv hcr
    | on_connection_complete user_data error_code session_present jvm disconnect_ok =>
      dsimp only at hcr ⊢
      simp only [Action.attached, Bool.and_eq_true, Bool.or_eq_true, Bool.not_eq_true'] at ha
      by_cases hp : Pending.on_connection_complete user_data ∈ s.pending
      · simp only [if_pos hp] at hcr ⊢
        refine on_connection_complete_token_inv _ error_code session_present user_data jvm
          disconnect_ok ha.1 ?_ ?_
        · intro hx
          rcases ha.2 with h | h
          · rw [hx] at h
            exact absurd h (by decide)
          · exact h
        · intro id
          simpa [pending_token] using take_token_inv s _ hp hinv id
      · simp only [if_neg hp]
        exact hinv
    | on_connection_interrupted error_code jvm =>
      dsimp only at hcr ⊢
      simp only [Action.attached, Bool.and_eq_true, Bool.or_eq_true, Bool.not_eq_true'] at ha
      exact on_connection_interrupted_token_inv s error_code jvm ha hinv hcr
    | on_connection_success session_present jvm =>
      dsimp only at hcr ⊢
      simp only [Action.attached, Bool.and_eq_true, Bool.or_eq_true, Bool.not_eq_true'] at ha
      exact on_connection_success_token_inv s session_present jvm ha hinv hcr
    | on_connection_failure error_code jvm =>
      dsimp only at hcr ⊢
      simp only [Action.attached, Bool.and_eq_true, Bool.or_eq_true, Bool.not_eq_true'] at ha
      exact on_connection_failure_token_inv s error_code jvm ha hinv hcr
    | on_connection_resumed session_present jvm =>
      dsimp only at hcr ⊢
      simp only [Action.attached, Bool.and_eq_true, Bool.or_eq_true, Bool.not_eq_true'] at ha
      exact on_connection_resumed_token_inv s session_present jvm ha hinv hcr
    | on_connection_disconnected user_data jvm =>
      dsimp only at hcr ⊢
      simp only [Action.attached, Bool.and_eq_true, Bool.or_eq_true, Bool.not_eq_true'] at ha
      by_cases hp : Pending.on_connection_disconnected user_data ∈ s.pending
      · simp only [if_pos hp] at hcr ⊢
        refine on_connection_disconnected_token_inv _ user_data jvm ha ?_ hcr
        intro id
        simpa [pending_token] using take_token_inv s _ hp hinv id
      · simp only [if_neg hp]
        exact hinv
    | on_connection_closed jvm =>
      dsimp only at hcr ⊢
      simp only [Action.attached, Bool.and_eq_true, Bool.or_eq_true, Bool.not_eq_true'] at ha
      exact on_connection_closed_token_inv s jvm ha hinv hcr
    | on_connection_terminated jvm =>
      dsimp only at hcr ⊢
      simp only [Action.attached, Bool.and_eq_true, Bool.or_eq_true, Bool.not_eq_true'] at ha
      by_cases ht : s.termination_pending = true
      · simp only [if_pos ht] at hcr ⊢
        exact on_connection_terminated_token_inv _ jvm ha hf (fun id => hinv id)
      · simp only [if_neg ht]
        exact hinv
    | on_shutdown_disconnect_complete =>
      dsimp only at hcr ⊢
      by_cases hp : Pending.on_shutdown_disconnect_complete ∈ s.pending
      · simp only [if_pos hp] at hcr ⊢
        intro id
        simpa [pending_token, s_on_shutdown_disconnect_complete] using
          take_token_inv s _ hp hinv id
      · simp only [if_neg hp]
        exact hinv
    | on_op_complete user_data packet_id error_code jvm =>
      dsimp only at hcr ⊢
      simp only [Action.attached, Bool.and_eq_true, Bool.or_eq_true, Bool.not_eq_true'] at ha
      by_cases hp : Pending.on_op_complete user_data ∈ s.pending
      · simp only [if_pos hp] at hcr ⊢
        refine on_op_complete_token_inv _ packet_id error_code (some user_data) jvm ha ?_ hcr
        intro id
        simpa [pending_token] using take_token_inv s _ hp hinv id
      · simp only [if_neg hp]
        exact hinv
    | on_ack user_data packet_id topic qos error_code jvm =>
      dsimp only at hcr ⊢
      simp only [Action.attached, Bool.and_eq_true, Bool.or_eq_true, Bool.not_eq_true'] at ha
      by_cases hp : Pending.on_ack user_data ∈ s.pending
      · simp only [if_pos hp] at hcr ⊢
        refine on_ack_token_inv codes _ packet_id topic qos error_code user_data jvm ha ?_ hcr
        intro id
        simpa [pending_token] using take_token_inv s _ hp hinv id
      · simp only [if_neg hp]
        exact hinv
    | cleanup_handler user_data jvm =>
      dsimp only at hcr ⊢
      simp only [Action.attached, Bool.and_eq_true, Bool.or_eq_true, Bool.not_eq_true'] at ha
      by_cases hp : Pending.on_cleanup user_data ∈ s.pending
      · simp only [if_pos hp] at hcr ⊢
        refine cleanup_handler_token_inv _ user_data jvm ha ?_
        intro id
        simpa [pending_token] using take_token_inv s _ hp hinv id
      · simp only [if_neg hp]
        exact hinv
    | on_subscription_delivered user_data topic payload dup qos retain jvm =>
      dsimp only at hcr ⊢
      simp only [Action.attached, Bool.and_eq_true, Bool.or_eq_true, Bool.not_eq_true'] at ha
      by_cases hp : Pending.on_cleanup user_data ∈ s.pending ∨
          s.connection.on_message = some user_data
      · simp only [if_pos hp] at hcr ⊢
        exact on_subscription_delivered_token_inv s topic payload dup qos retain user_data jvm ha
          hinv hcr
      · simp only [if_neg hp]
        exact hinv
    | ws_handshake_transform request complete_ctx jvm alloc_ok java_http_request =>
      dsimp only at hcr ⊢
      simp only [Action.attached, Bool.and_eq_true, Bool.or_eq_true, Bool.not_eq_true'] at ha
      exact ws_handshake_transform_token_inv s codes request complete_ctx jvm alloc_ok
        java_http_request ha hinv hcr

theorem run_crashed (codes : ErrorCodes) (actions : List Action) (s : State)
    (h : s.crashed = true) : run codes s actions = s := by
  induction actions with
  | nil => rfl
  | cons a rest ih =>
    have hstep : step codes s a = s := by
      unfold step
      simp [h]
    simp only [run, List.foldl_cons, hstep] at ih ⊢
    exact ih

theorem run_token_inv (codes : ErrorCodes) (actions : List Action) (s : State)
    (hatt : ∀ a ∈ actions, a.attached = true) (hinv : TokenInv s (fun _ => 0))
    (hcr : (run codes s actions).crashed = false) :
    TokenInv (run codes s actions) (fun _ => 0) := by
  induction actions generalizing s with
  | nil => exact hinv
  | cons a rest ih =>
    have hrun : run codes s (a :: rest) = run codes (step codes s a) rest := rfl
    rw [hrun] at hcr ⊢
    cases hs : (step codes s a).crashed with
    | true =>
      rw [run_crashed codes rest _ hs] at hcr
      rw [hs] at hcr
      exact absurd hcr (by decide)
    | false =>
      exact ih (step codes s a) (fun b hb => hatt b (List.mem_cons_of_mem a hb))
        (step_token_inv codes s a (hatt a (List.mem_cons_self a rest)) hinv hs) hcr

theorem constructed_token_inv (client3 client5_jni : Bool) (peer : Option JObject)
    (alloc_ok client_connection_ok termination_handler_ok : Bool) :
    TokenInv (s_mqtt_connection_new client3 client5_jni peer alloc_ok client_connection_ok
      termination_handler_ok).1 (fun _ => 0) := by
  intro id
  cases client3 <;> cases client5_jni <;> cases alloc_ok <;> cases client_connection_ok <;>
    cases termination_handler_ok <;>
    simp [s_mqtt_connection_new, State.empty, State.alloc_count, State.destroy_count,
      State.registered_count, State.emit, s_mqtt_jni_connection_release, List.count_cons]

theorem install_handlers_token_inv (s : State) (hinv : TokenInv s (fun _ => 0)) :
    TokenInv (install_handlers s) (fun _ => 0) := by
  intro id
  simpa [install_handlers] using hinv id

theorem alloc_callback_async_callback_at (s : State) (cb : Option JObject) (id : TokenId) :
    (s.alloc_callback cb).async_callback id
      = if id = s.callbacks.length then cb else s.async_callback id := by
  simp only [State.async_callback, alloc_callback_callbacks]
  by_cases h : id = s.callbacks.length
  · subst h
    simp
  · rw [if_neg h]
    by_cases h2 : id < s.callbacks.length
    · rw [List.getElem?_append_left h2]
    · have h3 : s.callbacks.length < id := by
        simp only [TokenId] at *
        omega
      have h4 : (s.callbacks ++ [{ async_callback := cb }])[id]? = none := by
        apply List.getElem?_eq_none
        simp
        omega
      have h5 : s.callbacks[id]? = none := by
        apply List.getElem?_eq_none
        omega
      rw [h4, h5]

@[simp] theorem thrown_alloc_callback (s : State) (cb : Option JObject) :
    thrown (s.alloc_callback cb).trace = thrown s.trace := by
  cases cb <;> simp [alloc_callback_trace, thrown, List.filterMap_append]

@[simp] theorem thrown_free_callback (s : State) (t : TokenId) :
    thrown (s.free_callback t).trace = thrown s.trace := by
  rw [free_callback_trace]
  cases s.async_callback t <;> simp [thrown, List.filterMap_append]

@[simp] theorem thrown_append (t1 t2 : List Event) : thrown (t1 ++ t2) = thrown t1 ++ thrown t2 := by
  simp [thrown, List.filterMap_append]

@[simp] theorem thrown_nil : thrown [] = [] := rfl

@[simp] theorem thrown_cons (e : Event) (t : List Event) :
    thrown (e :: t) = (match e with
      | Event.throw_runtime_exception m => [m]
      | _ => []) ++ thrown t := by
  cases e <;> rfl

@[simp] theorem engine_calls_nil : engine_calls [] = [] := rfl

@[simp] theorem engine_calls_cons (e : Event) (t : List Event) :
    engine_calls (e :: t) = (match e with
      | Event.engine c => [c]
      | _ => []) ++ engine_calls t := by
  cases e <;> rfl

@[simp] theorem engine_calls_append (t1 t2 : List Event) :
    engine_calls (t1 ++ t2) = engine_calls t1 ++ engine_calls t2 := by
  simp [engine_calls, List.filterMap_append]

@[simp] theorem engine_calls_alloc_callback (s : State) (cb : Option JObject) :
    engine_calls (s.alloc_callback cb).trace = engine_calls s.trace := by
  cases cb <;> simp [alloc_callback_trace]

@[simp] theorem engine_calls_free_callback (s : State) (t : TokenId) :
    engine_calls (s.free_callback t).trace = engine_calls s.trace := by
  rw [free_callback_trace]
  cases s.async_callback t <;> simp

@[simp] theorem complete_calls_nil : complete_calls [] = [] := rfl

@[simp] theorem complete_calls_cons (e : Event) (t : List Event) :
    complete_calls (e :: t) = (match e with
      | Event.complete_fn request error_code complete_ctx => [(request, error_code, complete_ctx)]
      | _ => []) ++ complete_calls t := by
  cases e <;> rfl

@[simp] theorem complete_calls_append (t1 t2 : List Event) :
    complete_calls (t1 ++ t2) = complete_calls t1 ++ complete_calls t2 := by
  simp [complete_calls, List.filterMap_append]

@[simp] theorem complete_calls_alloc_callback (s : State) (cb : Option JObject) :
    complete_calls (s.alloc_callback cb).trace = complete_calls s.trace := by
  cases cb <;> simp [alloc_callback_trace]

@[simp] theorem complete_calls_free_callback (s : State) (t : TokenId) :
    complete_calls (s.free_callback t).trace = complete_calls s.trace := by
  rw [free_callback_trace]
  cases s.async_callback t <;> simp

@[simp] theorem applied_requests_nil : applied_requests [] = [] := rfl

@[simp] theorem applied_requests_cons (e : Event) (t : List Event) :
    applied_requests (e :: t) = (match e with
      | Event.apply_http_request_changes request => [request]
      | _ => []) ++ applied_requests t := by
  cases e <;> rfl

@[simp] theorem applied_requests_append (t1 t2 : List Event) :
    applied_requests (t1 ++ t2) = applied_requests t1 ++ applied_requests t2 := by
  simp [applied_requests, List.filterMap_append]

@[simp] theorem applied_requests_alloc_callback (s : State) (cb : Option JObject) :
    applied_requests (s.alloc_callback cb).trace = applied_requests s.trace := by
  cases cb <;> simp [alloc_callback_trace]

@[simp] theorem applied_requests_free_callback (s : State) (t : TokenId) :
    applied_requests (s.free_callback t).trace = applied_requests s.trace := by
  rw [free_callback_trace]
  cases s.async_callback t <;> simp

@[simp] theorem peer_calls_nil : peer_calls [] = [] := rfl

@[simp] theorem peer_calls_cons (e : Event) (t : List Event) :
    peer_calls (e :: t) = (match e with
      | Event.peer c => [c]
      | _ => []) ++ peer_calls t := by
  cases e <;> rfl

@[simp] theorem peer_calls_append (t1 t2 : List Event) :
    peer_calls (t1 ++ t2) = peer_calls t1 ++ peer_calls t2 := by
  simp [peer_calls, List.filterMap_append]

@[simp] theorem peer_calls_alloc_callback (s : State) (cb : Option JObject) :
    peer_calls (s.alloc_callback cb).trace = peer_calls s.trace := by
  cases cb <;> simp [alloc_callback_trace]

@[simp] theorem peer_calls_free_callback (s : State) (t : TokenId) :
    peer_calls (s.free_callback t).trace = peer_calls s.trace := by
  rw [free_callback_trace]
  cases s.async_callback t <;> simp

@[simp] theorem ack_deliveries_nil : ack_deliveries [] = [] := rfl

@[simp] theorem ack_deliveries_cons (e : Event) (t : List Event) :
    ack_deliveries (e :: t) = (match e with
      | Event.on_success cb => [Event.on_success cb]
      | Event.on_failure cb error_code => [Event.on_failure cb error_code]
      | _ => []) ++ ack_deliveries t := by
  cases e <;> rfl

@[simp] theorem ack_deliveries_append (t1 t2 : List Event) :
    ack_deliveries (t1 ++ t2) = ack_deliveries t1 ++ ack_deliveries t2 := by
  simp [ack_deliveries, List.filter_append]

@[simp] theorem ack_deliveries_free_callback (s : State) (t : TokenId) :
    ack_deliveries (s.free_callback t).trace = ack_deliveries s.trace := by
  rw [free_callback_trace]
  cases s.async_callback t <;> simp

theorem refused_emit_throw (s : State) (msg : String) :
    s.refused (s.emit (Event.throw_runtime_exception msg)) := by
  simp [State.refused]

theorem refused_raise_emit_throw (s : State) (error_code : Int) (msg : String) :
    s.refused ((s.raise error_code).emit (Event.throw_runtime_exception msg)) := by
  simp [State.refused]

@[simp] theorem released_counts_nil : released_counts [] = [] := rfl

@[simp] theorem released_counts_cons (e : Event) (t : List Event) :
    released_counts (e :: t) = (match e with
      | Event.connection_release old_value => [old_value]
      | _ => []) ++ released_counts t := by
  cases e <;> simp [released_counts, List.filterMap_cons]

@[simp] theorem released_counts_append (t1 t2 : List Event) :
    released_counts (t1 ++ t2) = released_counts t1 ++ released_counts t2 := by
  simp [released_counts, List.filterMap_append]

@[simp] theorem released_counts_free_callback (s : State) (t : TokenId) :
    released_counts (s.free_callback t).trace = released_counts s.trace := by
  unfold State.free_callback
  cases s.async_callback t <;> simp

/-! ## Submissions rejected by the engine -/

/-- C11: on a valid handle, when the engine rejects a subscribe (with or
without an ack callback), an unsubscribe or a publish (packet id 0), the
dispatcher returns 0, throws exactly one exception to the caller, and is rolled
back: every token it created (the handler token, and the ack token at the next
address when an ack was supplied to subscribe) was allocated once and freed
once, no other token was touched, and the handle (reference count and
on-message token included) and the engine registry are as before. -/
theorem rejected_submission_rolls_back (s : State) (jni_connection : Int)
    (jni_topic : Option String) (topic : String) (jni_qos : Int) (jni_retain : Bool)
    (jni_payload : Option (List Nat)) (jni_handler jni_ack : Option JObject) (ack : JObject)
    (hconn : jni_connection ≠ 0) :
    ((mqttClientConnectionSubscribe s jni_connection jni_topic jni_qos jni_handler none 0).2 = 0 ∧
      thrown (mqttClientConnectionSubscribe s jni_connection jni_topic jni_qos jni_handler none
        0).1.trace = thrown s.trace ++
        ["MqttClientConnection.mqtt_subscribe: aws_mqtt_client_connection_subscribe failed"] ∧
      s.rolled_back (mqttClientConnectionSubscribe s jni_connection jni_topic jni_qos jni_handler
        none 0).1 [s.callbacks.length]) ∧
    ((mqttClientConnectionSubscribe s jni_connection jni_topic jni_qos jni_handler (some ack)
        0).2 = 0 ∧
      thrown (mqttClientConnectionSubscribe s jni_connection jni_topic jni_qos jni_handler
        (some ack) 0).1.trace = thrown s.trace ++
        ["MqttClientConnection.mqtt_subscribe: aws_mqtt_client_connection_subscribe failed"] ∧
      s.rolled_back (mqttClientConnectionSubscribe s jni_connection jni_topic jni_qos jni_handler
        (some ack) 0).1 [s.callbacks.length, s.callbacks.length + 1]) ∧
    ((mqttClientConnectionUnsubscribe s jni_connection jni_topic jni_ack 0).2 = 0 ∧
      thrown (mqttClientConnectionUnsubscribe s jni_connection jni_topic jni_ack 0).1.trace
        = thrown s.trace ++
        ["MqttClientConnection.mqtt_unsubscribe: aws_mqtt_client_connection_unsubscribe failed"] ∧
      s.rolled_back (mqttClientConnectionUnsubscribe s jni_connection jni_topic jni_ack 0).1
        [s.callbacks.length]) ∧
    ((mqttClientConnectionPublish s jni_connection (some topic) jni_qos jni_retain jni_payload
        jni_ack 0).2 = 0 ∧
      thrown (mqttClientConnectionPublish s jni_connection (some topic) jni_qos jni_retain
        jni_payload jni_ack 0).1.trace = thrown s.trace ++
        ["MqttClientConnection.mqtt_publish: aws_mqtt_client_connection_publish failed"] ∧
      s.rolled_back (mqttClientConnectionPublish s jni_connection (some topic) jni_qos jni_retain
        jni_payload jni_ack 0).1 [s.callbacks.length]) := by
  refine ⟨⟨?_, ?_, ?_, ?_, ?_⟩, ⟨?_, ?_, ?_, ?_, ?_⟩, ⟨?_, ?_, ?_, ?_, ?_⟩, ⟨?_, ?_, ?_, ?_, ?_⟩⟩
  all_goals
    simp [mqttClientConnectionSubscribe, mqttClientConnectionUnsubscribe,
      mqttClientConnectionPublish, hconn]
  all_goals
    intro id
    simp only [List.count_cons, List.count_nil, beq_iff_eq]
    (try constructor) <;> (split_ifs <;> simp only [TokenId] at * <;> omega)

theorem rejected_submission_rolls_back_witness :
    (1 : Int) ≠ 0 ∧
    fresh_handle.rolled_back
      (mqttClientConnectionSubscribe fresh_handle 1 (some "a/b") 1 (some 10) (some 11) 0).1
      [fresh_handle.callbacks.length, fresh_handle.callbacks.length + 1] ∧
    (mqttClientConnectionPublish fresh_handle 1 (some "topic/a") 1 false (some [1, 2]) (some 11)
      0).2 = 0 :=
  ⟨by decide,
    (rejected_submission_rolls_back fresh_handle 1 (some "a/b") "topic/a" 1 false (some [1, 2])
      (some 10) (some 11) 11 (by decide)).2.1.2.2,
    (rejected_submission_rolls_back fresh_handle 1 (some "a/b") "topic/a" 1 false (some [1, 2])
      (some 10) (some 11) 11 (by decide)).2.2.2.1⟩

/-! ## Packet ids -/

theorem to_jshort_bits (msg_id : Nat) (h : msg_id ≤ 65535) :
    (to_jshort msg_id = 0 ↔ msg_id = 0) ∧ to_jshort msg_id % 65536 = msg_id ∧
    -32768 ≤ to_jshort msg_id ∧ to_jshort msg_id ≤ 32767 := by
  unfold to_jshort
  split_ifs <;> omega

/-- C12: on a valid handle, for a packet id `msg_id` that fits in 16 bits,
subscribe, unsubscribe and publish (with a topic) return 0 exactly when the
engine returned 0, and for `msg_id` in 1..65535 the value returned through the
signed 16-bit result has the same 16 bits as `msg_id` and is not 0. -/
theorem accepted_submission_returns_packet_id (s : State) (jni_connection : Int)
    (jni_topic : Option String) (topic : String) (jni_qos : Int) (jni_retain : Bool)
    (jni_payload : Option (List Nat)) (jni_handler jni_ack : Option JObject) (msg_id : Nat)
    (hconn : jni_connection ≠ 0) (huint16 : msg_id ≤ 65535) :
    (((mqttClientConnectionSubscribe s jni_connection jni_topic jni_qos jni_handler jni_ack
        msg_id).2 = 0 ↔ msg_id = 0) ∧
      ((mqttClientConnectionUnsubscribe s jni_connection jni_topic jni_ack msg_id).2 = 0
        ↔ msg_id = 0) ∧
      ((mqttClientConnectionPublish s jni_connection (some topic) jni_qos jni_retain jni_payload
        jni_ack msg_id).2 = 0 ↔ msg_id = 0)) ∧
    (1 ≤ msg_id →
      ((mqttClientConnectionSubscribe s jni_connection jni_topic jni_qos jni_handler jni_ack
          msg_id).2 % 65536 = msg_id ∧
        (mqttClientConnectionSubscribe s jni_connection jni_topic jni_qos jni_handler jni_ack
          msg_id).2 ≠ 0) ∧
      ((mqttClientConnectionUnsubscribe s jni_connection jni_topic jni_ack msg_id).2 % 65536
          = msg_id ∧
        (mqttClientConnectionUnsubscribe s jni_connection jni_topic jni_ack msg_id).2 ≠ 0) ∧
      ((mqttClientConnectionPublish s jni_connection (some topic) jni_qos jni_retain jni_payload
          jni_ack msg_id).2 % 65536 = msg_id ∧
        (mqttClientConnectionPublish s jni_connection (some topic) jni_qos jni_retain jni_payload
          jni_ack msg_id).2 ≠ 0)) := by
  obtain ⟨h0, hbits, hlo, hhi⟩ := to_jshort_bits msg_id huint16
  have hsub : (mqttClientConnectionSubscribe s jni_connection jni_topic jni_qos jni_handler
      jni_ack msg_id).2 = to_jshort msg_id := by
    by_cases hm : msg_id = 0
    · subst hm
      cases jni_ack <;> simp [mqttClientConnectionSubscribe, hconn, to_jshort]
    · cases jni_ack <;> simp [mqttClientConnectionSubscribe, hconn, hm]
  have hunsub : (mqttClientConnectionUnsubscribe s jni_connection jni_topic jni_ack msg_id).2
      = to_jshort msg_id := by
    by_cases hm : msg_id = 0
    · subst hm
      simp [mqttClientConnectionUnsubscribe, hconn, to_jshort]
    · simp [mqttClientConnectionUnsubscribe, hconn, hm]
  have hpub : (mqttClientConnectionPublish s jni_connection (some topic) jni_qos jni_retain
      jni_payload jni_ack msg_id).2 = to_jshort msg_id := by
    by_cases hm : msg_id = 0
    · subst hm
      simp [mqttClientConnectionPublish, hconn, to_jshort]
    · simp [mqttClientConnectionPublish, hconn, hm]
  rw [hsub, hunsub, hpub]
  refine ⟨⟨h0, h0, h0⟩, fun h1 => ?_⟩
  have hne : to_jshort msg_id ≠ 0 := fun h => by
    have := h0.mp h
    omega
  exact ⟨⟨hbits, hne⟩, ⟨hbits, hne⟩, ⟨hbits, hne⟩⟩

theorem accepted_submission_returns_packet_id_witness :
    (1 : Int) ≠ 0 ∧ 40000 ≤ 65535 ∧
    ((mqttClientConnectionPublish fresh_handle 1 (some "topic/a") 1 false (some [1, 2]) (some 11)
        40000).2 % 65536 = 40000 ∧
      (mqttClientConnectionPublish fresh_handle 1 (some "topic/a") 1 false (some [1, 2]) (some 11)
        40000).2 ≠ 0) :=
  ⟨by decide, by decide,
    ((accepted_submission_returns_packet_id fresh_handle 1 (some "a/b") "topic/a" 1 false
      (some [1, 2]) (some 10) (some 11) 40000 (by decide) (by decide)).2 (by decide)).2.2⟩

/-! ## Replacing the on-message handler -/

/-- C13: on a valid handle with a non-null handler.  If the engine accepts
the handler, the `on_message` field holds the token just created (which pins
the handler), that token was allocated once, and the token previously held by
the field, if any, was freed exactly once and no other; nothing is thrown.
If the engine rejects it, the field is unchanged, the new token was allocated
once and freed once, no other token was freed, and one exception is thrown. -/
theorem on_message_replaces_token (s : State) (jni_connection : Int) (handler : JObject)
    (hconn : jni_connection ≠ 0) :
    ((mqttClientConnectionOnMessage s jni_connection (some handler) true).connection.on_message
        = some s.callbacks.length ∧
      (mqttClientConnectionOnMessage s jni_connection (some handler) true).async_callback
        s.callbacks.length = some handler ∧
      (∀ id, (mqttClientConnectionOnMessage s jni_connection (some handler) true).alloc_count id
        = s.alloc_count id + (if id = s.callbacks.length then 1 else 0)) ∧
      (∀ id, (mqttClientConnectionOnMessage s jni_connection (some handler) true).destroy_count id
        = s.destroy_count id + (if s.connection.on_message = some id then 1 else 0)) ∧
      thrown (mqttClientConnectionOnMessage s jni_connection (some handler) true).trace
        = thrown s.trace) ∧
    ((mqttClientConnectionOnMessage s jni_connection (some handler) false).connection.on_message
        = s.connection.on_message ∧
      (∀ id, (mqttClientConnectionOnMessage s jni_connection (some handler) false).alloc_count id
        = s.alloc_count id + (if id = s.callbacks.length then 1 else 0)) ∧
      (∀ id, (mqttClientConnectionOnMessage s jni_connection (some handler) false).destroy_count
        id = s.destroy_count id + (if id = s.callbacks.length then 1 else 0)) ∧
      thrown (mqttClientConnectionOnMessage s jni_connection (some handler) false).trace
        = thrown s.trace ++
          ["MqttClientConnection.mqttClientConnectionOnMessage: Failed to install on_any_publish_handler"]) := by
  refine ⟨⟨?_, ?_, ?_, ?_, ?_⟩, ⟨?_, ?_, ?_, ?_⟩⟩
  all_goals
    cases hm : s.connection.on_message <;>
      simp [mqttClientConnectionOnMessage, hconn, hm, alloc_callback_async_callback_at]
  intro id
  simp only [eq_comm]

theorem on_message_replaces_token_witness :
    (1 : Int) ≠ 0 ∧
    (mqttClientConnectionOnMessage on_message_handle 1 (some 21) true).connection.on_message
      = some on_message_handle.callbacks.length ∧
    (mqttClientConnectionOnMessage on_message_handle 1 (some 21) false).connection.on_message
      = on_message_handle.connection.on_message :=
  ⟨by decide, (on_message_replaces_token on_message_handle 1 21 (by decide)).1.1,
    (on_message_replaces_token on_message_handle 1 21 (by decide)).2.1⟩

/-! ## Operation completion -/

/-- C14: for a token that holds an ack callback and a runtime that attaches,
`s_on_op_complete` makes exactly one delivery to that callback - `on_success`
when the error code is 0, `on_failure` with that very code otherwise - as the
first thing after attaching, throws nothing, and every release of the token
comes after the delivery: the token is freed once when the managed callback
returned normally, and not at all when the exception assertion stopped the
process. -/
theorem op_complete_delivers_once (s : State) (packet_id : Nat) (error_code : Int)
    (callback : TokenId) (cb : JObject) (jvm : Jvm)
    (hcb : s.async_callback callback = some cb) (henv : jvm.thread_env = true) :
    ack_deliveries (s_on_op_complete s packet_id error_code (some callback) jvm).trace
      = ack_deliveries s.trace
        ++ [if error_code = 0 then Event.on_success cb else Event.on_failure cb error_code] ∧
    thrown (s_on_op_complete s packet_id error_code (some callback) jvm).trace = thrown s.trace ∧
    (∃ after : List Event,
      (s_on_op_complete s packet_id error_code (some callback) jvm).trace
        = s.trace ++ [Event.acquire_thread_env true,
            if error_code = 0 then Event.on_success cb else Event.on_failure cb error_code]
          ++ after ∧
      ack_deliveries after = []) ∧
    (s_on_op_complete s packet_id error_code (some callback) jvm).destroy_count callback
      = s.destroy_count callback
        + (if jvm.exception_pending = false ∧ s.crashed = false then 1 else 0) := by
  by_cases he : error_code = 0 <;> cases hx : jvm.exception_pending <;> cases hc : s.crashed <;>
    simp [s_on_op_complete, s_deliver_ack_failure, s_deliver_ack_success, henv, he, hx, hc,
      hcb, free_callback_trace]

theorem op_complete_delivers_once_witness :
    published_handle.async_callback 0 = some 11 ∧ jvm_up.thread_env = true ∧
    ack_deliveries (s_on_op_complete published_handle 7 0 (some 0) jvm_up).trace
      = ack_deliveries published_handle.trace
        ++ [if (0 : Int) = 0 then Event.on_success 11 else Event.on_failure 11 0] :=
  ⟨by decide, rfl, (op_complete_delivers_once published_handle 7 0 0 11 jvm_up (by decide) rfl).1⟩

/-! ## Calls refused for an invalid argument or handle -/

/-- C15: every call that a dispatcher refuses for a NULL handle (connect,
disconnect, subscribe, unsubscribe, publish, on-message, set-will, set-login,
set-reconnect-timeout, use-websockets, get-operation-statistics) or for an
invalid argument on any handle (publish or set-will without a topic,
on-message without a handler, proxy options without a host, connect with port
0) throws one exception to the caller, calls the engine not at all, creates no
token, leaves the handle and its reference count as they were, and returns the
failure value (0, false or no object) where it returns one. -/
theorem invalid_calls_refused (codes : ErrorCodes) (s : State) (jni_connection : Int)
    (str1 str2 : Option String) (n1 n2 n3 n4 : Int) (so : Option SocketOptions)
    (b1 b2 b3 b4 b5 : Bool) (obj1 obj2 : Option JObject) (bytes : Option (List Nat))
    (msg_id : Nat) (jvm : Jvm) (stats : OperationStatistics) :
    (s.refused (mqttClientConnectionConnect s 0 str1 n1 so b1 str2 b2 n2 n3 n4 b3) ∧
      s.refused (mqttClientConnectionDisconnect s 0 obj1 b1 jvm) ∧
      (s.refused (mqttClientConnectionSubscribe s 0 str1 n1 obj1 obj2 msg_id).1 ∧
        (mqttClientConnectionSubscribe s 0 str1 n1 obj1 obj2 msg_id).2 = 0) ∧
      (s.refused (mqttClientConnectionUnsubscribe s 0 str1 obj1 msg_id).1 ∧
        (mqttClientConnectionUnsubscribe s 0 str1 obj1 msg_id).2 = 0) ∧
      (s.refused (mqttClientConnectionPublish s 0 str1 n1 b1 bytes obj1 msg_id).1 ∧
        (mqttClientConnectionPublish s 0 str1 n1 b1 bytes obj1 msg_id).2 = 0) ∧
      s.refused (mqttClientConnectionOnMessage s 0 obj1 b1) ∧
      (s.refused (mqttClientConnectionSetWill s 0 str1 n1 b1 bytes b2).1 ∧
        (mqttClientConnectionSetWill s 0 str1 n1 b1 bytes b2).2 = false) ∧
      s.refused (mqttClientConnectionSetLogin s 0 str1 str2 b1) ∧
      s.refused (mqttClientConnectionSetReconnectTimeout s 0 n1 n2 b1) ∧
      s.refused (mqttClientConnectionUseWebsockets codes s 0 b1) ∧
      (s.refused (mqttClientConnectionGetOperationStatistics codes s 0 b1 stats b2 b3 b4 b5).1 ∧
        (mqttClientConnectionGetOperationStatistics codes s 0 b1 stats b2 b3 b4 b5).2 = none)) ∧
    ((s.refused (mqttClientConnectionPublish s jni_connection none n1 b1 bytes obj1 msg_id).1 ∧
        (mqttClientConnectionPublish s jni_connection none n1 b1 bytes obj1 msg_id).2 = 0) ∧
      (s.refused (mqttClientConnectionSetWill s jni_connection none n1 b1 bytes b2).1 ∧
        (mqttClientConnectionSetWill s jni_connection none n1 b1 bytes b2).2 = false) ∧
      s.refused (mqttClientConnectionOnMessage s jni_connection none b1) ∧
      s.refused (mqttClientConnectionSetHttpProxyOptions s jni_connection n1 none n2 b1 n3 str1
        str2 b2) ∧
      s.refused (mqttClientConnectionConnect s jni_connection str1 0 so b1 str2 b2 n2 n3 n4 b3)) := by
  have h0 : ∀ msg, s.refused (s.emit (Event.throw_runtime_exception msg)) :=
    refused_emit_throw s
  have h1 : ∀ e msg, s.refused ((s.raise e).emit (Event.throw_runtime_exception msg)) :=
    refused_raise_emit_throw s
  refine ⟨⟨?_, ?_, ⟨?_, ?_⟩, ⟨?_, ?_⟩, ⟨?_, ?_⟩, ?_, ⟨?_, ?_⟩, ?_, ?_, ?_, ⟨?_, ?_⟩⟩,
    ⟨⟨?_, ?_⟩, ⟨?_, ?_⟩, ?_, ?_, ?_⟩⟩
  all_goals
    first
      | exact h0 _
      | exact h1 _ _
      | rfl
      | (by_cases hc : jni_connection = 0 <;>
          simp [mqttClientConnectionPublish, mqttClientConnectionSetWill,
            mqttClientConnectionOnMessage, mqttClientConnectionSetHttpProxyOptions,
            mqttClientConnectionConnect, hc, h0])

/-! ## Completing the websocket handshake -/

/-- C16, counterexample: a completion that supplies a recognized runtime
exception carrying error code 0 does not hand 0 to the completion function:
it hands over `AWS_ERROR_UNKNOWN`. -/
theorem handshake_exception_with_code_zero :
    complete_calls (mqttClientConnectionWebsocketHandshakeComplete sample_codes handshaking_handle
      (some (Throwable.crt_runtime_exception 0)) 0 none).trace
      = complete_calls handshaking_handle.trace ++ [(7, 3, 9)] ∧
    (7, (0 : Int), 9) ∉ complete_calls (mqttClientConnectionWebsocketHandshakeComplete
      sample_codes handshaking_handle (some (Throwable.crt_runtime_exception 0)) 0 none).trace ∧
    sample_codes.AWS_ERROR_UNKNOWN = 3 := by
  refine ⟨rfl, by decide, rfl⟩

/-- C16, amended: when the completion supplies an error indicator, the
completion function receives the code carried by a recognized runtime
exception when that code is not 0, and `AWS_ERROR_UNKNOWN` when the carried
code is 0 or the indicator is of another type, each time with the request and
context of the bridge object; the managed-side modifications are not applied. -/
theorem handshake_error_indicator (codes : ErrorCodes) (s : State) (jni_user_data : WsId)
    (ws_handshake : mqtt_jni_ws_handshake) (apply_error : Option Int)
    (hws : s.ws_handshakes[jni_user_data]? = some ws_handshake) :
    (∀ code, code ≠ 0 →
      complete_calls (mqttClientConnectionWebsocketHandshakeComplete codes s
        (some (Throwable.crt_runtime_exception code)) jni_user_data apply_error).trace
        = complete_calls s.trace
          ++ [(ws_handshake.http_request, code, ws_handshake.complete_ctx)]) ∧
    complete_calls (mqttClientConnectionWebsocketHandshakeComplete codes s
        (some (Throwable.crt_runtime_exception 0)) jni_user_data apply_error).trace
      = complete_calls s.trace
        ++ [(ws_handshake.http_request, codes.AWS_ERROR_UNKNOWN, ws_handshake.complete_ctx)] ∧
    complete_calls (mqttClientConnectionWebsocketHandshakeComplete codes s
        (some Throwable.other) jni_user_data apply_error).trace
      = complete_calls s.trace
        ++ [(ws_handshake.http_request, codes.AWS_ERROR_UNKNOWN, ws_handshake.complete_ctx)] ∧
    (∀ throwable,
      applied_requests (mqttClientConnectionWebsocketHandshakeComplete codes s (some throwable)
        jni_user_data apply_error).trace = applied_requests s.trace) := by
  refine ⟨?_, ?_, ?_, ?_⟩
  · intro code hcode
    simp [mqttClientConnectionWebsocketHandshakeComplete, hws, s_ws_handshake_destroy,
      AWS_ERROR_SUCCESS, hcode]
  · simp [mqttClientConnectionWebsocketHandshakeComplete, hws, s_ws_handshake_destroy,
      AWS_ERROR_SUCCESS]
  · simp [mqttClientConnectionWebsocketHandshakeComplete, hws, s_ws_handshake_destroy,
      AWS_ERROR_SUCCESS]
  · intro throwable
    simp [mqttClientConnectionWebsocketHandshakeComplete, hws, s_ws_handshake_destroy]

theorem handshake_error_indicator_witness :
    handshaking_handle.ws_handshakes[0]? = some { http_request := 7, complete_ctx := 9 } ∧
    complete_calls (mqttClientConnectionWebsocketHandshakeComplete sample_codes
        handshaking_handle (some Throwable.other) 0 none).trace
      = complete_calls handshaking_handle.trace ++ [(7, sample_codes.AWS_ERROR_UNKNOWN, 9)] :=
  ⟨by decide,
    (handshake_error_indicator sample_codes handshaking_handle 0
      { http_request := 7, complete_ctx := 9 } none (by decide)).2.2.1⟩

/-- C17: when the completion supplies no error indicator, the managed-side
modifications are applied to the request of the bridge object exactly once,
and the completion function is then called once, with error code 0 when the
application succeeded and with the application error when it failed, on the
request and completion context held by the bridge object; these are the
request and context that `s_ws_handshake_transform` stored in the bridge object
it created. -/
theorem handshake_completion_applies_changes (codes : ErrorCodes) (s : State)
    (jni_user_data : WsId) (ws_handshake : mqtt_jni_ws_handshake) (failure : Int)
    (hws : s.ws_handshakes[jni_user_data]? = some ws_handshake) :
    ((mqttClientConnectionWebsocketHandshakeComplete codes s none jni_user_data none).trace
        = s.trace ++ [Event.apply_http_request_changes ws_handshake.http_request,
            Event.complete_fn ws_handshake.http_request 0 ws_handshake.complete_ctx,
            Event.connection_release s.connection.ref_count, Event.ws_free jni_user_data] ∧
      applied_requests
          (mqttClientConnectionWebsocketHandshakeComplete codes s none jni_user_data none).trace
        = applied_requests s.trace ++ [ws_handshake.http_request] ∧
      complete_calls
          (mqttClientConnectionWebsocketHandshakeComplete codes s none jni_user_data none).trace
        = complete_calls s.trace
          ++ [(ws_handshake.http_request, 0, ws_handshake.complete_ctx)]) ∧
    ((mqttClientConnectionWebsocketHandshakeComplete codes s none jni_user_data
          (some failure)).trace
        = s.trace ++ [Event.apply_http_request_changes ws_handshake.http_request,
            Event.complete_fn ws_handshake.http_request failure ws_handshake.complete_ctx,
            Event.connection_release s.connection.ref_count, Event.ws_free jni_user_data] ∧
      applied_requests (mqttClientConnectionWebsocketHandshakeComplete codes s none jni_user_data
          (some failure)).trace = applied_requests s.trace ++ [ws_handshake.http_request] ∧
      complete_calls (mqttClientConnectionWebsocketHandshakeComplete codes s none jni_user_data
          (some failure)).trace = complete_calls s.trace
          ++ [(ws_handshake.http_request, failure, ws_handshake.complete_ctx)]) ∧
    (∀ (request complete_ctx : Nat) (jvm : Jvm) (java_http_request : JObject),
      jvm.thread_env = true →
      (s_ws_handshake_transform codes s request complete_ctx jvm true
        (some java_http_request)).ws_handshakes[s.ws_handshakes.length]?
        = some { http_request := request, complete_ctx := complete_ctx }) := by
  refine ⟨?_, ?_, ?_⟩
  · simp [mqttClientConnectionWebsocketHandshakeComplete, hws, s_ws_handshake_destroy,
      AWS_ERROR_SUCCESS]
  · simp [mqttClientConnectionWebsocketHandshakeComplete, hws, s_ws_handshake_destroy,
      AWS_ERROR_SUCCESS]
  · intro request complete_ctx jvm java_http_request henv
    cases hn : new_local_ref s jvm <;> cases hx : jvm.exception_pending <;>
      simp [s_ws_handshake_transform, henv, hn, hx]

theorem handshake_completion_applies_changes_witness :
    handshaking_handle.ws_handshakes[0]? = some { http_request := 7, complete_ctx := 9 } ∧
    applied_requests
        (mqttClientConnectionWebsocketHandshakeComplete sample_codes handshaking_handle none 0
          none).trace = applied_requests handshaking_handle.trace ++ [7] ∧
    complete_calls
        (mqttClientConnectionWebsocketHandshakeComplete sample_codes handshaking_handle none 0
          none).trace = complete_calls handshaking_handle.trace ++ [(7, 0, 9)] :=
  ⟨by decide,
    (handshake_completion_applies_changes sample_codes handshaking_handle 0
      { http_request := 7, complete_ctx := 9 } 3 (by decide)).1.2⟩

/-- C18: when the runtime cannot be attached, `s_ws_handshake_transform`
calls the completion function exactly once, with `AWS_ERROR_INVALID_STATE`
(a non-zero code), the request and the context it was given, and does nothing
else: no bridge object is created, the handle and its reference count are
unchanged and the peer is not called. -/
theorem handshake_without_runtime_fails_at_once (codes : ErrorCodes) (s : State)
    (request : Nat) (complete_ctx : Nat) (jvm : Jvm) (alloc_ok : Bool)
    (java_http_request : Option JObject)
    (hcode : codes.AWS_ERROR_INVALID_STATE ≠ 0) (henv : jvm.thread_env = false) :
    ∃ error_code : Int, error_code ≠ 0 ∧
      complete_calls (s_ws_handshake_transform codes s request complete_ctx jvm alloc_ok
        java_http_request).trace = complete_calls s.trace ++ [(request, error_code, complete_ctx)] ∧
      (s_ws_handshake_transform codes s request complete_ctx jvm alloc_ok
        java_http_request).ws_handshakes = s.ws_handshakes ∧
      (s_ws_handshake_transform codes s request complete_ctx jvm alloc_ok
        java_http_request).connection = s.connection ∧
      peer_calls (s_ws_handshake_transform codes s request complete_ctx jvm alloc_ok
        java_http_request).trace = peer_calls s.trace ∧
      (s_ws_handshake_transform codes s request complete_ctx jvm alloc_ok
        java_http_request).trace = s.trace ++ [Event.acquire_thread_env false,
          Event.complete_fn request error_code complete_ctx] := by
  refine ⟨codes.AWS_ERROR_INVALID_STATE, hcode, ?_⟩
  simp [s_ws_handshake_transform, henv]

theorem handshake_without_runtime_fails_at_once_witness :
    sample_codes.AWS_ERROR_INVALID_STATE ≠ 0 ∧ jvm_down.thread_env = false ∧
    ∃ error_code : Int, error_code ≠ 0 ∧
      complete_calls (s_ws_handshake_transform sample_codes fresh_handle 7 9 jvm_down true
        (some 55)).trace = complete_calls fresh_handle.trace ++ [(7, error_code, 9)] ∧
      (s_ws_handshake_transform sample_codes fresh_handle 7 9 jvm_down true
        (some 55)).ws_handshakes = fresh_handle.ws_handshakes ∧
      (s_ws_handshake_transform sample_codes fresh_handle 7 9 jvm_down true
        (some 55)).connection = fresh_handle.connection ∧
      peer_calls (s_ws_handshake_transform sample_codes fresh_handle 7 9 jvm_down true
        (some 55)).trace = peer_calls fresh_handle.trace ∧
      (s_ws_handshake_transform sample_codes fresh_handle 7 9 jvm_down true
        (some 55)).trace = fresh_handle.trace ++ [Event.acquire_thread_env false,
          Event.complete_fn 7 error_code 9] :=
  ⟨by decide, rfl,
    handshake_without_runtime_fails_at_once sample_codes fresh_handle 7 9 jvm_down true (some 55)
      (by decide) rfl⟩

/-! ## The reference count does not drive the free -/

/-- C19, counterexample: the termination notification frees a fresh handle
whose reference count is 1 and stays 1, with no release in the trace; and the
release that takes the count of a fresh handle from 1 to 0 frees nothing. -/
theorem handle_freed_with_live_reference :
    fresh_handle.connection.ref_count = 1 ∧ fresh_handle.connection_freed = false ∧
    (step sample_codes fresh_handle (Action.on_connection_terminated jvm_up)).connection_freed
      = true ∧
    (step sample_codes fresh_handle (Action.on_connection_terminated jvm_up)).connection.ref_count
      = 1 ∧
    released_counts (step sample_codes fresh_handle (Action.on_connection_terminated jvm_up)).trace
      = [] ∧
    (s_mqtt_jni_connection_release fresh_handle).connection.ref_count = 0 ∧
    (s_mqtt_jni_connection_release fresh_handle).connection_freed = false := by
  decide

/-- C19, amended: a step of the bridge that frees the handle memory is the
termination notification with the runtime attached; it frees the handle once,
whatever the reference count, leaves the count as it was and performs no
release.  `s_mqtt_jni_connection_release` never frees the handle. -/
theorem handle_free_ignores_reference_count (codes : ErrorCodes) (s : State) (a : Action)
    (hfree : (step codes s a).free_count ≠ s.free_count) :
    (∃ jvm, a = Action.on_connection_terminated jvm ∧ jvm.thread_env = true) ∧
    (step codes s a).free_count = s.free_count + 1 ∧
    (step codes s a).connection_freed = true ∧
    (step codes s a).connection.ref_count = s.connection.ref_count ∧
    released_counts (step codes s a).trace = released_counts s.trace ∧
    (s_mqtt_jni_connection_release s).free_count = s.free_count ∧
    (s_mqtt_jni_connection_release s).connection_freed = s.connection_freed := by
  have hterm : ∃ jvm, a = Action.on_connection_terminated jvm := by
    by_contra hno
    exact hfree (step_keeps_handle codes s a (fun jvm h => hno ⟨jvm, h⟩)).1
  obtain ⟨jvm, rfl⟩ := hterm
  cases hn : new_local_ref s jvm <;> cases hm : s.connection.on_message <;>
    cases hj : s.connection.java_mqtt_connection <;>
    cases hc : s.crashed <;> cases hf : s.connection_freed <;>
    cases hp : s.termination_pending <;> cases he : jvm.thread_env <;>
    simp [step, hc, hf, hp, he, hn, hm, hj, s_on_connection_terminated,
      s_mqtt_connection_destroy, s_mqtt_jni_async_callback_destroy] at hfree ⊢

theorem handle_free_ignores_reference_count_witness :
    (step sample_codes fresh_handle (Action.on_connection_terminated jvm_up)).free_count
      ≠ fresh_handle.free_count ∧
    (step sample_codes fresh_handle (Action.on_connection_terminated jvm_up)).connection.ref_count
      = fresh_handle.connection.ref_count ∧
    released_counts (step sample_codes fresh_handle (Action.on_connection_terminated jvm_up)).trace
      = released_counts fresh_handle.trace :=
  ⟨by decide,
    (handle_free_ignores_reference_count sample_codes fresh_handle
      (Action.on_connection_terminated jvm_up) (by decide)).2.2.2.1,
    (handle_free_ignores_reference_count sample_codes fresh_handle
      (Action.on_connection_terminated jvm_up) (by decide)).2.2.2.2.1⟩

/-! ## The reference held by a connect in flight -/

/-- C20: on a valid handle with reference count `n` (below `SIZE_MAX`) and a
non-zero port, an accepted connect leaves the count at `n + 1`, with its token
allocated, not freed, and registered with the engine as the pending
connection-complete callback; when the engine then fires that callback with
the runtime attached and the managed callback returning normally, the token is
freed once and the count is `n` again.  Disconnect, subscribe, unsubscribe
and publish leave the count as it was, whatever their arguments and outcome. -/
theorem connect_holds_one_reference (s : State) (jni_connection : Int)
    (jni_endpoint : Option String) (jni_port : Int) (jni_socket_options : Option SocketOptions)
    (jni_tls_ctx : Bool) (jni_client_id : Option String) (jni_clean_session : Bool)
    (keep_alive_secs : Int) (ping_timeout_ms : Int) (protocol_operation_timeout_ms : Int)
    (error_code : Int) (session_present : Bool) (jvm : Jvm) (disconnect_ok : Bool)
    (jni_topic : Option String) (jni_qos : Int) (jni_retain : Bool)
    (jni_payload : Option (List Nat)) (jni_handler jni_ack : Option JObject) (msg_id : Nat)
    (any_connection : Int) (any_jvm : Jvm)
    (hconn : jni_connection ≠ 0) (hport : jni_port ≠ 0)
    (hjint : -2 ^ 31 ≤ jni_port ∧ jni_port < 2 ^ 31)
    (hcount : s.connection.ref_count < SIZE_MAX)
    (henv : jvm.thread_env = true) (hreturns : jvm.exception_pending = false) :
    ((mqttClientConnectionConnect s jni_connection jni_endpoint jni_port jni_socket_options
        jni_tls_ctx jni_client_id jni_clean_session keep_alive_secs ping_timeout_ms
        protocol_operation_timeout_ms true).connection.ref_count = s.connection.ref_count + 1 ∧
      (mqttClientConnectionConnect s jni_connection jni_endpoint jni_port jni_socket_options
        jni_tls_ctx jni_client_id jni_clean_session keep_alive_secs ping_timeout_ms
        protocol_operation_timeout_ms true).pending
        = s.pending ++ [Pending.on_connection_complete s.callbacks.length] ∧
      (mqttClientConnectionConnect s jni_connection jni_endpoint jni_port jni_socket_options
        jni_tls_ctx jni_client_id jni_clean_session keep_alive_secs ping_timeout_ms
        protocol_operation_timeout_ms true).alloc_count s.callbacks.length
        = s.alloc_count s.callbacks.length + 1 ∧
      (mqttClientConnectionConnect s jni_connection jni_endpoint jni_port jni_socket_options
        jni_tls_ctx jni_client_id jni_clean_session keep_alive_secs ping_timeout_ms
        protocol_operation_timeout_ms true).destroy_count s.callbacks.length
        = s.destroy_count s.callbacks.length) ∧
    ((s_on_connection_complete
        ((mqttClientConnectionConnect s jni_connection jni_endpoint jni_port jni_socket_options
          jni_tls_ctx jni_client_id jni_clean_session keep_alive_secs ping_timeout_ms
          protocol_operation_timeout_ms true).take
            (Pending.on_connection_complete s.callbacks.length))
        error_code session_present s.callbacks.length jvm disconnect_ok).connection.ref_count
        = s.connection.ref_count ∧
      (s_on_connection_complete
        ((mqttClientConnectionConnect s jni_connection jni_endpoint jni_port jni_socket_options
          jni_tls_ctx jni_client_id jni_clean_session keep_alive_secs ping_timeout_ms
          protocol_operation_timeout_ms true).take
            (Pending.on_connection_complete s.callbacks.length))
        error_code session_present s.callbacks.length jvm disconnect_ok).destroy_count
          s.callbacks.length = s.destroy_count s.callbacks.length + 1) ∧
    ((mqttClientConnectionDisconnect s any_connection jni_ack disconnect_ok
        any_jvm).connection.ref_count = s.connection.ref_count ∧
      (mqttClientConnectionSubscribe s any_connection jni_topic jni_qos jni_handler jni_ack
        msg_id).1.connection.ref_count = s.connection.ref_count ∧
      (mqttClientConnectionUnsubscribe s any_connection jni_topic jni_ack
        msg_id).1.connection.ref_count = s.connection.ref_count ∧
      (mqttClientConnectionPublish s any_connection jni_topic jni_qos jni_retain jni_payload
        jni_ack msg_id).1.connection.ref_count = s.connection.ref_count) := by
  have hne : s.connection.ref_count ≠ SIZE_MAX := Nat.ne_of_lt hcount
  have hp : ¬ (jni_port % 2 ^ 32).toNat = 0 := by
    obtain ⟨h1, h2⟩ := hjint
    omega
  have hp' : ¬ jni_port % 4294967296 ≤ 0 := by
    obtain ⟨h1, h2⟩ := hjint
    omega
  refine ⟨?_, ?_, ?_⟩
  · cases jni_tls_ctx <;>
      simp [mqttClientConnectionConnect, s_mqtt_jni_async_callback_new, hconn, hp, hp', hne]
  · cases jni_tls_ctx <;>
      cases hn : new_local_ref s jvm <;>
      simp [mqttClientConnectionConnect, s_mqtt_jni_async_callback_new, hconn, hp, hp', hne,
        s_on_connection_complete, s_mqtt_jni_async_callback_destroy, henv, hreturns, hn]
  · have hrel : ∀ (t : State) (callback : TokenId) (j : Jvm),
        (s_on_connection_disconnected t callback j).connection.ref_count
          = t.connection.ref_count := by
      intro t callback j
      cases he : j.thread_env <;> cases hx : j.exception_pending <;>
        cases hn : new_local_ref t j <;> cases hc : t.crashed <;>
        simp [s_on_connection_disconnected, s_on_connection_interrupted_internal,
          s_mqtt_jni_async_callback_destroy, he, hx, hn, hc]
    by_cases h0 : any_connection = 0 <;> by_cases hm : msg_id = 0 <;>
      cases jni_ack <;> cases jni_topic <;> cases disconnect_ok <;>
      simp [mqttClientConnectionDisconnect, mqttClientConnectionSubscribe,
        mqttClientConnectionUnsubscribe, mqttClientConnectionPublish,
        s_mqtt_jni_async_callback_new, s_mqtt_jni_async_callback_destroy, h0, hm, hrel]

theorem connect_holds_one_reference_witness :
    (1 : Int) ≠ 0 ∧ (8883 : Int) ≠ 0 ∧ (-2 ^ 31 ≤ (8883 : Int) ∧ (8883 : Int) < 2 ^ 31) ∧
    fresh_handle.connection.ref_count < SIZE_MAX ∧ jvm_up.thread_env = true ∧
    jvm_up.exception_pending = false ∧
    ((mqttClientConnectionConnect fresh_handle 1 (some "broker") 8883 none false (some "client")
        true 60 3000 0 true).connection.ref_count = fresh_handle.connection.ref_count + 1 ∧
      (s_on_connection_complete
        ((mqttClientConnectionConnect fresh_handle 1 (some "broker") 8883 none false
          (some "client") true 60 3000 0 true).take
            (Pending.on_connection_complete fresh_handle.callbacks.length))
        0 true fresh_handle.callbacks.length jvm_up false).connection.ref_count
        = fresh_handle.connection.ref_count) :=
  ⟨by decide, by decide, by decide, by decide, rfl, rfl,
    (connect_holds_one_reference fresh_handle 1 (some "broker") 8883 none false (some "client")
      true 60 3000 0 0 true jvm_up false (some "a/b") 1 false (some [1, 2]) (some 10) (some 11) 7
      1 jvm_up (by decide) (by decide) (by decide) (by decide) rfl rfl).1.1,
    (connect_holds_one_reference fresh_handle 1 (some "broker") 8883 none false (some "client")
      true 60 3000 0 0 true jvm_up false (some "a/b") 1 false (some [1, 2]) (some 10) (some 11) 7
      1 jvm_up (by decide) (by decide) (by decide) (by decide) rfl rfl).2.1.1⟩

/-! ## Managed calls, attachments and bridge objects in the trace -/

@[simp] theorem managed_calls_nil : managed_calls [] = [] := rfl

@[simp] theorem managed_calls_cons (e : Event) (t : List Event) :
    managed_calls (e :: t) = (match e with
      | Event.peer c => [Event.peer c]
      | Event.on_success cb => [Event.on_success cb]
      | Event.on_failure cb error_code => [Event.on_failure cb error_code]
      | Event.deliver cb topic payload dup qos retain =>
        [Event.deliver cb topic payload dup qos retain]
      | _ => []) ++ managed_calls t := by
  cases e <;> rfl

@[simp] theorem managed_calls_append (t1 t2 : List Event) :
    managed_calls (t1 ++ t2) = managed_calls t1 ++ managed_calls t2 := by
  simp [managed_calls, List.filter_append]

@[simp] theorem managed_calls_alloc_callback (s : State) (cb : Option JObject) :
    managed_calls (s.alloc_callback cb).trace = managed_calls s.trace := by
  cases cb <;> simp [alloc_callback_trace]

@[simp] theorem managed_calls_free_callback (s : State) (t : TokenId) :
    managed_calls (s.free_callback t).trace = managed_calls s.trace := by
  rw [free_callback_trace]
  cases s.async_callback t <;> simp

@[simp] theorem released_counts_alloc_callback (s : State) (cb : Option JObject) :
    released_counts (s.alloc_callback cb).trace = released_counts s.trace := by
  cases cb <;> simp [alloc_callback_trace]

@[simp] theorem attach_count_emit (s : State) (e : Event) :
    (s.emit e).attach_count = s.attach_count + (if e = Event.acquire_thread_env true then 1 else 0) := by
  simp only [State.attach_count, emit_trace, List.count_append, List.count_cons, List.count_nil]
  by_cases h : e = Event.acquire_thread_env true <;> simp [h]

@[simp] theorem attach_count_register (s : State) (p : Pending) :
    (s.register p).attach_count = s.attach_count := rfl

@[simp] theorem attach_count_take (s : State) (p : Pending) :
    (s.take p).attach_count = s.attach_count := rfl

@[simp] theorem attach_count_fatal (s : State) :
    s.fatal.attach_count = s.attach_count := by
  simp [State.attach_count, List.count_append, List.count_cons]

@[simp] theorem attach_count_raise (s : State) (c : Int) :
    (s.raise c).attach_count = s.attach_count := by
  simp [State.attach_count, List.count_append, List.count_cons]

@[simp] theorem attach_count_segfault (s : State) :
    s.segfault.attach_count = s.attach_count := by
  simp [State.attach_count, List.count_append, List.count_cons]

@[simp] theorem attach_count_set_socket_options (s : State) (o : SocketOptions) :
    (s.set_socket_options o).attach_count = s.attach_count := rfl

@[simp] theorem attach_count_init_tls_options (s : State) :
    s.init_tls_options.attach_count = s.attach_count := rfl

@[simp] theorem attach_count_set_on_message (s : State) (h : TokenId) :
    (s.set_on_message h).attach_count = s.attach_count := rfl

@[simp] theorem attach_count_set_last_error (s : State) (c : Int) :
    (s.set_last_error c).attach_count = s.attach_count := rfl

@[simp] theorem attach_count_alloc_ws_handshake (s : State) (r x : Nat) :
    (s.alloc_ws_handshake r x).attach_count = s.attach_count := by
  simp [State.attach_count, List.count_append, List.count_cons]

@[simp] theorem attach_count_free_connection (s : State) :
    s.free_connection.attach_count = s.attach_count := by
  simp [State.attach_count, List.count_append, List.count_cons]

@[simp] theorem attach_count_fire_termination (s : State) :
    s.fire_termination.attach_count = s.attach_count := rfl

@[simp] theorem attach_count_alloc_callback (s : State) (cb : Option JObject) :
    (s.alloc_callback cb).attach_count = s.attach_count := by
  simp only [State.attach_count, alloc_callback_trace]
  cases cb <;> simp [List.count_append, List.count_cons]

@[simp] theorem attach_count_free_callback (s : State) (t : TokenId) :
    (s.free_callback t).attach_count = s.attach_count := by
  simp only [State.attach_count, free_callback_trace]
  cases s.async_callback t <;> simp [List.count_append, List.count_cons]

@[simp] theorem attach_count_acquire (s : State) :
    (s_mqtt_jni_connection_acquire s).attach_count = s.attach_count := by
  simp [State.attach_count, List.count_append, List.count_cons]

@[simp] theorem attach_count_release (s : State) :
    (s_mqtt_jni_connection_release s).attach_count = s.attach_count := by
  simp [State.attach_count, List.count_append, List.count_cons]

@[simp] theorem detach_count_emit (s : State) (e : Event) :
    (s.emit e).detach_count = s.detach_count + (if e = Event.release_thread_env then 1 else 0) := by
  simp only [State.detach_count, emit_trace, List.count_append, List.count_cons, List.count_nil]
  by_cases h : e = Event.release_thread_env <;> simp [h]

@[simp] theorem detach_count_register (s : State) (p : Pending) :
    (s.register p).detach_count = s.detach_count := rfl

@[simp] theorem detach_count_take (s : State) (p : Pending) :
    (s.take p).detach_count = s.detach_count := rfl

@[simp] theorem detach_count_fatal (s : State) :
    s.fatal.detach_count = s.detach_count := by
  simp [State.detach_count, List.count_append, List.count_cons]

@[simp] theorem detach_count_raise (s : State) (c : Int) :
    (s.raise c).detach_count = s.detach_count := by
  simp [State.detach_count, List.count_append, List.count_cons]

@[simp] theorem detach_count_segfault (s : State) :
    s.segfault.detach_count = s.detach_count := by
  simp [State.detach_count, List.count_append, List.count_cons]

@[simp] theorem detach_count_set_socket_options (s : State) (o : SocketOptions) :
    (s.set_socket_options o).detach_count = s.detach_count := rfl

@[simp] theorem detach_count_init_tls_options (s : State) :
    s.init_tls_options.detach_count = s.detach_count := rfl

@[simp] theorem detach_count_set_on_message (s : State) (h : TokenId) :
    (s.set_on_message h).detach_count = s.detach_count := rfl

@[simp] theorem detach_count_set_last_error (s : State) (c : Int) :
    (s.set_last_error c).detach_count = s.detach_count := rfl

@[simp] theorem detach_count_alloc_ws_handshake (s : State) (r x : Nat) :
    (s.alloc_ws_handshake r x).detach_count = s.detach_count := by
  simp [State.detach_count, List.count_append, List.count_cons]

@[simp] theorem detach_count_free_connection (s : State) :
    s.free_connection.detach_count = s.detach_count := by
  simp [State.detach_count, List.count_append, List.count_cons]

@[simp] theorem detach_count_fire_termination (s : State) :
    s.fire_termination.detach_count = s.detach_count := rfl

@[simp] theorem detach_count_alloc_callback (s : State) (cb : Option JObject) :
    (s.alloc_callback cb).detach_count = s.detach_count := by
  simp only [State.detach_count, alloc_callback_trace]
  cases cb <;> simp [List.count_append, List.count_cons]

@[simp] theorem detach_count_free_callback (s : State) (t : TokenId) :
    (s.free_callback t).detach_count = s.detach_count := by
  simp only [State.detach_count, free_callback_trace]
  cases s.async_callback t <;> simp [List.count_append, List.count_cons]

@[simp] theorem detach_count_acquire (s : State) :
    (s_mqtt_jni_connection_acquire s).detach_count = s.detach_count := by
  simp [State.detach_count, List.count_append, List.count_cons]

@[simp] theorem detach_count_release (s : State) :
    (s_mqtt_jni_connection_release s).detach_count = s.detach_count := by
  simp [State.detach_count, List.count_append, List.count_cons]

@[simp] theorem ws_free_count_emit (s : State) (e : Event) (id : WsId) :
    (s.emit e).ws_free_count id = s.ws_free_count id + (if e = Event.ws_free id then 1 else 0) := by
  simp only [State.ws_free_count, emit_trace, List.count_append, List.count_cons, List.count_nil]
  by_cases h : e = Event.ws_free id <;> simp [h]

@[simp] theorem ws_free_count_register (s : State) (p : Pending) (id : WsId) :
    (s.register p).ws_free_count id = s.ws_free_count id := rfl

@[simp] theorem ws_free_count_take (s : State) (p : Pending) (id : WsId) :
    (s.take p).ws_free_count id = s.ws_free_count id := rfl

@[simp] theorem ws_free_count_fatal (s : State) (id : WsId) :
    s.fatal.ws_free_count id = s.ws_free_count id := by
  simp [State.ws_free_count, List.count_append, List.count_cons]

@[simp] theorem ws_free_count_raise (s : State) (c : Int) (id : WsId) :
    (s.raise c).ws_free_count id = s.ws_free_count id := by
  simp [State.ws_free_count, List.count_append, List.count_cons]

@[simp] theorem ws_free_count_segfault (s : State) (id : WsId) :
    s.segfault.ws_free_count id = s.ws_free_count id := by
  simp [State.ws_free_count, List.count_append, List.count_cons]

@[simp] theorem ws_free_count_set_socket_options (s : State) (o : SocketOptions) (id : WsId) :
    (s.set_socket_options o).ws_free_count id = s.ws_free_count id := rfl

@[simp] theorem ws_free_count_init_tls_options (s : State) (id : WsId) :
    s.init_tls_options.ws_free_count id = s.ws_free_count id := rfl

@[simp] theorem ws_free_count_set_on_message (s : State) (h : TokenId) (id : WsId) :
    (s.set_on_message h).ws_free_count id = s.ws_free_count id := rfl

@[simp] theorem ws_free_count_set_last_error (s : State) (c : Int) (id : WsId) :
    (s.set_last_error c).ws_free_count id = s.ws_free_count id := rfl

@[simp] theorem ws_free_count_alloc_ws_handshake (s : State) (r x : Nat) (id : WsId) :
    (s.alloc_ws_handshake r x).ws_free_count id = s.ws_free_count id := by
  simp [State.ws_free_count, List.count_append, List.count_cons]

@[simp] theorem ws_free_count_free_connection (s : State) (id : WsId) :
    s.free_connection.ws_free_count id = s.ws_free_count id := by
  simp [State.ws_free_count, List.count_append, List.count_cons]

@[simp] theorem ws_free_count_fire_termination (s : State) (id : WsId) :
    s.fire_termination.ws_free_count id = s.ws_free_count id := rfl

@[simp] theorem ws_free_count_alloc_callback (s : State) (cb : Option JObject) (id : WsId) :
    (s.alloc_callback cb).ws_free_count id = s.ws_free_count id := by
  simp only [State.ws_free_count, alloc_callback_trace]
  cases cb <;> simp [List.count_append, List.count_cons]

@[simp] theorem ws_free_count_free_callback (s : State) (t : TokenId) (id : WsId) :
    (s.free_callback t).ws_free_count id = s.ws_free_count id := by
  simp only [State.ws_free_count, free_callback_trace]
  cases s.async_callback t <;> simp [List.count_append, List.count_cons]

@[simp] theorem ws_free_count_acquire (s : State) (id : WsId) :
    (s_mqtt_jni_connection_acquire s).ws_free_count id = s.ws_free_count id := by
  simp [State.ws_free_count, List.count_append, List.count_cons]

@[simp] theorem ws_free_count_release (s : State) (id : WsId) :
    (s_mqtt_jni_connection_release s).ws_free_count id = s.ws_free_count id := by
  simp [State.ws_free_count, List.count_append, List.count_cons]

/-! ## Reference accounting -/

@[simp] theorem connects_pending_emit (s : State) (e : Event) :
    (s.emit e).connects_pending = s.connects_pending := rfl

@[simp] theorem connects_pending_fatal (s : State) :
    s.fatal.connects_pending = s.connects_pending := rfl

@[simp] theorem connects_pending_raise (s : State) (c : Int) :
    (s.raise c).connects_pending = s.connects_pending := rfl

@[simp] theorem connects_pending_segfault (s : State) :
    s.segfault.connects_pending = s.connects_pending := rfl

@[simp] theorem connects_pending_set_socket_options (s : State) (o : SocketOptions) :
    (s.set_socket_options o).connects_pending = s.connects_pending := rfl

@[simp] theorem connects_pending_init_tls_options (s : State) :
    s.init_tls_options.connects_pending = s.connects_pending := rfl

@[simp] theorem connects_pending_set_on_message (s : State) (h : TokenId) :
    (s.set_on_message h).connects_pending = s.connects_pending := rfl

@[simp] theorem connects_pending_set_last_error (s : State) (c : Int) :
    (s.set_last_error c).connects_pending = s.connects_pending := rfl

@[simp] theorem connects_pending_alloc_ws_handshake (s : State) (r x : Nat) :
    (s.alloc_ws_handshake r x).connects_pending = s.connects_pending := rfl

@[simp] theorem connects_pending_free_connection (s : State) :
    s.free_connection.connects_pending = s.connects_pending := rfl

@[simp] theorem connects_pending_fire_termination (s : State) :
    s.fire_termination.connects_pending = s.connects_pending := rfl

@[simp] theorem connects_pending_alloc_callback (s : State) (cb : Option JObject) :
    (s.alloc_callback cb).connects_pending = s.connects_pending := by
  simp [State.connects_pending]

@[simp] theorem connects_pending_free_callback (s : State) (t : TokenId) :
    (s.free_callback t).connects_pending = s.connects_pending := by
  simp [State.connects_pending]

@[simp] theorem connects_pending_acquire (s : State) :
    (s_mqtt_jni_connection_acquire s).connects_pending = s.connects_pending := rfl

@[simp] theorem connects_pending_release (s : State) :
    (s_mqtt_jni_connection_release s).connects_pending = s.connects_pending := rfl

@[simp] theorem connects_pending_register (s : State) (p : Pending) :
    (s.register p).connects_pending
      = s.connects_pending + (if p.is_connection_complete = true then 1 else 0) := by
  simp [State.connects_pending, List.countP_append, List.countP_singleton]

theorem countP_erase_le (q : Pending → Bool) (p : Pending) (l : List Pending) :
    (l.erase p).countP q ≤ l.countP q :=
  (List.erase_sublist p l).countP_le q

theorem countP_erase_mem (q : Pending → Bool) (p : Pending) (l : List Pending) (hp : p ∈ l)
    (hq : q p = true) : (l.erase p).countP q + 1 = l.countP q := by
  induction l with
  | nil => simp at hp
  | cons a rest ih =>
    by_cases ha : a = p
    · subst ha
      simp [List.countP_cons, hq]
    · have hp2 : p ∈ rest := by
        rcases List.mem_cons.mp hp with h | h
        · exact absurd h.symm ha
        · exact h
      have := ih hp2
      rw [List.erase_cons_tail (by simpa using ha)]
      simp only [List.countP_cons]
      omega

@[simp] theorem connects_pending_take_le (s : State) (p : Pending) :
    (s.take p).connects_pending ≤ s.connects_pending :=
  countP_erase_le _ p s.pending

theorem connects_pending_take (s : State) (user_data : TokenId)
    (hp : Pending.on_connection_complete user_data ∈ s.pending) :
    (s.take (Pending.on_connection_complete user_data)).connects_pending + 1
      = s.connects_pending :=
  countP_erase_mem _ _ s.pending hp rfl

theorem live_ws_count_congr (s s' : State) (hws : s'.ws_handshakes = s.ws_handshakes)
    (hfree : ∀ id, s'.ws_free_count id = s.ws_free_count id) :
    s'.live_ws_count = s.live_ws_count := by
  simp [State.live_ws_count, hws, hfree]

theorem ref_inv_frame (s s' : State) (hf : s.ref_framed s') (hinv : RefInv s) : RefInv s' := by
  obtain ⟨hws, hfree, hpc, hrc, hrel⟩ := hf
  obtain ⟨h1, h2, h3⟩ := hinv
  have hl := live_ws_count_congr s s' hws hfree
  refine ⟨?_, ?_, ?_⟩
  · intro id hid
    rw [hfree id]
    exact h1 id (by rw [← hws]; exact hid)
  · omega
  · rw [hrel]
    exact h3

theorem ref_framed_refl (s : State) : s.ref_framed s :=
  ⟨rfl, fun _ => rfl, Nat.le_refl _, rfl, rfl⟩

theorem take_ref_framed (s : State) (p : Pending) : s.ref_framed (s.take p) := by
  simp [State.ref_framed]

theorem fire_termination_ref_framed (s : State) : s.ref_framed s.fire_termination := by
  simp [State.ref_framed]

theorem ref_framed_trans (s s1 s2 : State) (h1 : s.ref_framed s1) (h2 : s1.ref_framed s2) :
    s.ref_framed s2 := by
  obtain ⟨a1, a2, a3, a4, a5⟩ := h1
  obtain ⟨b1, b2, b3, b4, b5⟩ := h2
  exact ⟨b1.trans a1, fun id => (b2 id).trans (a2 id), Nat.le_trans b3 a3, b4.trans a4, b5.trans a5⟩

theorem destroy_ref_framed (s : State) (c : Int) (ok : Bool) :
    s.ref_framed (mqttClientConnectionDestroy s c ok) := by
  simp only [mqttClientConnectionDestroy, s_mqtt_jni_connection_destroy, s_on_shutdown_disconnect_complete, callback_new_attached,
    callback_destroy_attached]
  (repeat' split) <;> simp [State.ref_framed, Pending.is_connection_complete]

theorem disconnect_ref_framed (s : State) (c : Int) (ack : Option JObject) (ok : Bool) (jvm : Jvm) :
    s.ref_framed (mqttClientConnectionDisconnect s c ack ok jvm) := by
  simp only [mqttClientConnectionDisconnect, s_on_connection_disconnected, s_on_connection_interrupted_internal, callback_new_attached,
    callback_destroy_attached]
  (repeat' split) <;> simp [State.ref_framed, Pending.is_connection_complete]

theorem subscribe_ref_framed (s : State) (c : Int) (topic : Option String) (qos : Int) (handler ack : Option JObject) (msg_id : Nat) :
    s.ref_framed ((mqttClientConnectionSubscribe s c topic qos handler ack msg_id).1) := by
  simp only [mqttClientConnectionSubscribe, callback_new_attached,
    callback_destroy_attached]
  (repeat' split) <;> simp [State.ref_framed, Pending.is_connection_complete]

theorem on_message_ref_framed (s : State) (c : Int) (handler : Option JObject) (ok : Bool) :
    s.ref_framed (mqttClientConnectionOnMessage s c handler ok) := by
  simp only [mqttClientConnectionOnMessage, callback_new_attached,
    callback_destroy_attached]
  (repeat' split) <;> simp [State.ref_framed, Pending.is_connection_complete]

theorem unsubscribe_ref_framed (s : State) (c : Int) (topic : Option String) (ack : Option JObject) (msg_id : Nat) :
    s.ref_framed ((mqttClientConnectionUnsubscribe s c topic ack msg_id).1) := by
  simp only [mqttClientConnectionUnsubscribe, callback_new_attached,
    callback_destroy_attached]
  (repeat' split) <;> simp [State.ref_framed, Pending.is_connection_complete]

theorem publish_ref_framed (s : State) (c : Int) (topic : Option String) (qos : Int) (retain : Bool) (payload : Option (List Nat)) (ack : Option JObject) (msg_id : Nat) :
    s.ref_framed ((mqttClientConnectionPublish s c topic qos retain payload ack msg_id).1) := by
  simp only [mqttClientConnectionPublish, callback_new_attached,
    callback_destroy_attached]
  (repeat' split) <;> simp [State.ref_framed, Pending.is_connection_complete]

theorem set_will_ref_framed (s : State) (c : Int) (topic : Option String) (qos : Int) (retain : Bool) (payload : Option (List Nat)) (ok : Bool) :
    s.ref_framed ((mqttClientConnectionSetWill s c topic qos retain payload ok).1) := by
  simp only [mqttClientConnectionSetWill, callback_new_attached,
    callback_destroy_attached]
  (repeat' split) <;> simp [State.ref_framed, Pending.is_connection_complete]

theorem set_login_ref_framed (s : State) (c : Int) (user pass : Option String) (ok : Bool) :
    s.ref_framed (mqttClientConnectionSetLogin s c user pass ok) := by
  simp only [mqttClientConnectionSetLogin, callback_new_attached,
    callback_destroy_attached]
  (repeat' split) <;> simp [State.ref_framed, Pending.is_connection_complete]

theorem set_reconnect_timeout_ref_framed (s : State) (c lo hi : Int) (ok : Bool) :
    s.ref_framed (mqttClientConnectionSetReconnectTimeout s c lo hi ok) := by
  simp only [mqttClientConnectionSetReconnectTimeout, callback_new_attached,
    callback_destroy_attached]
  (repeat' split) <;> simp [State.ref_framed, Pending.is_connection_complete]

theorem use_websockets_ref_framed (s : State) (codes : ErrorCodes) (c : Int) (ok : Bool) :
    s.ref_framed (mqttClientConnectionUseWebsockets codes s c ok) := by
  simp only [mqttClientConnectionUseWebsockets, callback_new_attached,
    callback_destroy_attached]
  (repeat' split) <;> simp [State.ref_framed, Pending.is_connection_complete]

theorem set_http_proxy_options_ref_framed (s : State) (c ty : Int) (host : Option String) (port : Int) (tls : Bool) (aty : Int) (user pass : Option String) (ok : Bool) :
    s.ref_framed (mqttClientConnectionSetHttpProxyOptions s c ty host port tls aty user pass ok) := by
  simp only [mqttClientConnectionSetHttpProxyOptions, callback_new_attached,
    callback_destroy_attached]
  (repeat' split) <;> simp [State.ref_framed, Pending.is_connection_complete]

theorem get_operation_statistics_ref_framed (s : State) (codes : ErrorCodes) (c : Int) (obj : Bool) (stats : OperationStatistics) (e1 e2 e3 e4 : Bool) :
    s.ref_framed ((mqttClientConnectionGetOperationStatistics codes s c obj stats e1 e2 e3 e4).1) := by
  simp only [mqttClientConnectionGetOperationStatistics, callback_new_attached,
    callback_destroy_attached]
  (repeat' split) <;> simp [State.ref_framed, Pending.is_connection_complete]

theorem on_connection_interrupted_ref_framed (s : State) (error_code : Int) (jvm : Jvm) :
    s.ref_framed (s_on_connection_interrupted s error_code jvm) := by
  simp only [s_on_connection_interrupted, s_on_connection_interrupted_internal, callback_new_attached,
    callback_destroy_attached]
  (repeat' split) <;> simp [State.ref_framed, Pending.is_connection_complete]

theorem on_connection_success_ref_framed (s : State) (session_present : Bool) (jvm : Jvm) :
    s.ref_framed (s_on_connection_success s session_present jvm) := by
  simp only [s_on_connection_success, callback_new_attached,
    callback_destroy_attached]
  (repeat' split) <;> simp [State.ref_framed, Pending.is_connection_complete]

theorem on_connection_failure_ref_framed (s : State) (error_code : Int) (jvm : Jvm) :
    s.ref_framed (s_on_connection_failure s error_code jvm) := by
  simp only [s_on_connection_failure, callback_new_attached,
    callback_destroy_attached]
  (repeat' split) <;> simp [State.ref_framed, Pending.is_connection_complete]

theorem on_connection_resumed_ref_framed (s : State) (session_present : Bool) (jvm : Jvm) :
    s.ref_framed (s_on_connection_resumed s session_present jvm) := by
  simp only [s_on_connection_resumed, callback_new_attached,
    callback_destroy_attached]
  (repeat' split) <;> simp [State.ref_framed, Pending.is_connection_complete]

theorem on_connection_disconnected_ref_framed (s : State) (user_data : TokenId) (jvm : Jvm) :
    s.ref_framed (s_on_connection_disconnected s user_data jvm) := by
  simp only [s_on_connection_disconnected, s_on_connection_interrupted_internal, callback_new_attached,
    callback_destroy_attached]
  (repeat' split) <;> simp [State.ref_framed, Pending.is_connection_complete]

theorem on_connection_closed_ref_framed (s : State) (jvm : Jvm) :
    s.ref_framed (s_on_connection_closed s jvm) := by
  simp only [s_on_connection_closed, callback_new_attached,
    callback_destroy_attached]
  (repeat' split) <;> simp [State.ref_framed, Pending.is_connection_complete]

theorem on_connection_terminated_ref_framed (s : State) (jvm : Jvm) :
    s.ref_framed (s_on_connection_terminated s jvm) := by
  simp only [s_on_connection_terminated, s_mqtt_connection_destroy, callback_new_attached,
    callback_destroy_attached]
  (repeat' split) <;> simp [State.ref_framed, Pending.is_connection_complete]

theorem on_shutdown_disconnect_complete_ref_framed (s : State) :
    s.ref_framed (s_on_shutdown_disconnect_complete s) := by
  simp [s_on_shutdown_disconnect_complete, State.ref_framed]

theorem on_op_complete_ref_framed (s : State) (packet_id : Nat) (error_code : Int) (user_data : Option TokenId) (jvm : Jvm) :
    s.ref_framed (s_on_op_complete s packet_id error_code user_data jvm) := by
  simp only [s_on_op_complete, s_deliver_ack_success, s_deliver_ack_failure, callback_new_attached,
    callback_destroy_attached]
  (repeat' split) <;> simp [State.ref_framed, Pending.is_connection_complete]

theorem on_ack_ref_framed (s : State) (codes : ErrorCodes) (packet_id : Nat) (topic : Option String) (qos : Int) (error_code : Int) (user_data : Option TokenId) (jvm : Jvm) :
    s.ref_framed (s_on_ack codes s packet_id topic qos error_code user_data jvm) := by
  simp only [s_on_ack, s_on_op_complete, s_deliver_ack_success, s_deliver_ack_failure, callback_new_attached,
    callback_destroy_attached]
  (repeat' split) <;> simp [State.ref_framed, Pending.is_connection_complete]

theorem cleanup_handler_ref_framed (s : State) (user_data : TokenId) (jvm : Jvm) :
    s.ref_framed (s_cleanup_handler s user_data jvm) := by
  simp only [s_cleanup_handler, callback_new_attached,
    callback_destroy_attached]
  (repeat' split) <;> simp [State.ref_framed, Pending.is_connection_complete]

theorem on_subscription_delivered_ref_framed (s : State) (topic : String) (payload : List Nat) (dup : Bool) (qos : Int) (retain : Bool) (user_data : TokenId) (jvm : Jvm) :
    s.ref_framed (s_on_subscription_delivered s topic payload dup qos retain user_data jvm) := by
  simp only [s_on_subscription_delivered, callback_new_attached,
    callback_destroy_attached]
  (repeat' split) <;> simp [State.ref_framed, Pending.is_connection_complete]

theorem connect_ref_inv (s : State) (c : Int) (endpoint : Option String) (port : Int)
    (so : Option SocketOptions) (tls : Bool) (cid : Option String) (clean : Bool)
    (ka ping pto : Int) (ok : Bool)
    (hinv : RefInv s) (hroom : s.connection.ref_count < SIZE_MAX) :
    RefInv (mqttClientConnectionConnect s c endpoint port so tls cid clean ka ping pto ok) ∧
    (mqttClientConnectionConnect s c endpoint port so tls cid clean ka ping pto ok).connection.ref_count
      ≤ s.connection.ref_count + 1 := by
  obtain ⟨h1, h2, h3⟩ := hinv
  have hne : s.connection.ref_count ≠ SIZE_MAX := Nat.ne_of_lt hroom
  simp only [State.live_ws_count] at h2
  simp only [mqttClientConnectionConnect, callback_new_attached, callback_destroy_attached]
  (repeat' split) <;> refine ⟨⟨?_, ?_, ?_⟩, ?_⟩ <;>
    simp [State.live_ws_count, Pending.is_connection_complete, hne] <;>
    first
      | exact h1
      | exact h3
      | omega
      | (intro old ho
         rcases ho with ho | ho
         · exact h3 old ho
         · omega)

theorem on_connection_complete_ref_inv (s : State) (user_data : TokenId) (error_code : Int)
    (session_present : Bool) (jvm : Jvm) (disconnect_ok : Bool)
    (hp : Pending.on_connection_complete user_data ∈ s.pending) (hinv : RefInv s) :
    RefInv (s_on_connection_complete (s.take (Pending.on_connection_complete user_data))
      error_code session_present user_data jvm disconnect_ok) ∧
    (s_on_connection_complete (s.take (Pending.on_connection_complete user_data))
      error_code session_present user_data jvm disconnect_ok).connection.ref_count
      ≤ s.connection.ref_count + 1 := by
  obtain ⟨h1, h2, h3⟩ := hinv
  have hk := connects_pending_take s user_data hp
  have hne : ¬ s.connection.ref_count = 0 := by omega
  simp only [State.live_ws_count] at h2
  simp only [s_on_connection_complete, callback_new_attached, callback_destroy_attached]
  (repeat' split) <;> refine ⟨⟨?_, ?_, ?_⟩, ?_⟩ <;>
    simp [State.live_ws_count, Pending.is_connection_complete, hne] <;>
    first
      | exact h1
      | exact h3
      | omega
      | (intro old ho
         rcases ho with ho | ho
         · exact h3 old ho
         · omega)

theorem countP_range_flip (n j : Nat) (p q : Nat → Bool) (hj : j < n) (hp : p j = true)
    (hq : q j = false) (h : ∀ i, i ≠ j → q i = p i) :
    (List.range n).countP q + 1 = (List.range n).countP p := by
  induction n with
  | zero => omega
  | succ n ih =>
    rw [List.range_succ, List.countP_append, List.countP_append, List.countP_singleton,
      List.countP_singleton]
    by_cases hjn : j = n
    · subst hjn
      have hc : (List.range j).countP q = (List.range j).countP p := by
        apply List.countP_congr
        intro i hi
        have hlt : i < j := List.mem_range.mp hi
        rw [h i (by omega)]
      simp [hc, hp, hq]
    · have hlt : j < n := by omega
      have := ih hlt
      rw [h n (fun e => hjn e.symm)]
      omega

theorem countP_range_same (n : Nat) (p q : Nat → Bool) (h : ∀ i, i < n → q i = p i) :
    (List.range n).countP q = (List.range n).countP p := by
  apply List.countP_congr
  intro i hi
  rw [h i (List.mem_range.mp hi)]

theorem live_ws_count_alloc (s s' : State)
    (hlen : s'.ws_handshakes.length = s.ws_handshakes.length + 1)
    (hfree : ∀ id, s'.ws_free_count id = s.ws_free_count id)
    (h0 : s.ws_free_count s.ws_handshakes.length = 0) :
    s'.live_ws_count = s.live_ws_count + 1 := by
  simp only [State.live_ws_count, hlen, hfree, List.range_succ, List.countP_append,
    List.countP_singleton]
  simp [h0]

theorem live_ws_count_alloc_free (s s' : State)
    (hlen : s'.ws_handshakes.length = s.ws_handshakes.length + 1)
    (hfree : ∀ id, s'.ws_free_count id
      = s.ws_free_count id + (if s.ws_handshakes.length = id then 1 else 0)) :
    s'.live_ws_count = s.live_ws_count := by
  simp only [State.live_ws_count, hlen, List.range_succ, List.countP_append,
    List.countP_singleton]
  have hc : (List.range s.ws_handshakes.length).countP
        (fun id => decide (s'.ws_free_count id = 0))
      = (List.range s.ws_handshakes.length).countP
        (fun id => decide (s.ws_free_count id = 0)) := by
    apply countP_range_same
    intro i hi
    have hne : ¬ s.ws_handshakes.length = i := by omega
    simp [hfree i, hne]
  rw [hc]
  simp [hfree s.ws_handshakes.length]

theorem live_ws_count_free (s s' : State) (j : WsId)
    (hlen : s'.ws_handshakes.length = s.ws_handshakes.length)
    (hfree : ∀ id, s'.ws_free_count id = s.ws_free_count id + (if j = id then 1 else 0))
    (hlive : s.ws_live j = true) :
    s'.live_ws_count + 1 = s.live_ws_count := by
  simp only [State.ws_live, Bool.and_eq_true, decide_eq_true_eq] at hlive
  obtain ⟨hj, h0⟩ := hlive
  simp only [State.live_ws_count, hlen]
  apply countP_range_flip s.ws_handshakes.length j
  · exact hj
  · simp [h0]
  · simp [hfree j]
  · intro i hi
    have hne : ¬ j = i := fun e => hi e.symm
    simp [hfree i, hne]

theorem websocket_handshake_complete_ref_inv (codes : ErrorCodes) (s : State)
    (throwable : Option Throwable) (user_data : WsId) (apply_error : Option Int)
    (hinv : RefInv s) (hlive : s.ws_live user_data = true) :
    RefInv (mqttClientConnectionWebsocketHandshakeComplete codes s throwable user_data
      apply_error) ∧
    (mqttClientConnectionWebsocketHandshakeComplete codes s throwable user_data
      apply_error).connection.ref_count ≤ s.connection.ref_count + 1 := by
  obtain ⟨h1, h2, h3⟩ := hinv
  have hl := hlive
  simp only [State.ws_live, Bool.and_eq_true, decide_eq_true_eq] at hl
  obtain ⟨hj, h0⟩ := hl
  have hlive1 : 1 ≤ s.live_ws_count := by
    simp only [State.live_ws_count]
    apply List.countP_pos_iff.mpr
    exact ⟨user_data, List.mem_range.mpr hj, by simp [h0]⟩
  have hne : ¬ s.connection.ref_count = 0 := by omega
  have hws : s.ws_handshakes[user_data]? = some (s.ws_handshakes.get ⟨user_data, hj⟩) := by
    simp [List.getElem?_eq_getElem hj]
  have hfacts :
      (mqttClientConnectionWebsocketHandshakeComplete codes s throwable user_data
        apply_error).ws_handshakes = s.ws_handshakes ∧
      (∀ id, (mqttClientConnectionWebsocketHandshakeComplete codes s throwable user_data
        apply_error).ws_free_count id
          = s.ws_free_count id + (if user_data = id then 1 else 0)) ∧
      (mqttClientConnectionWebsocketHandshakeComplete codes s throwable user_data
        apply_error).connects_pending = s.connects_pending ∧
      (mqttClientConnectionWebsocketHandshakeComplete codes s throwable user_data
        apply_error).connection.ref_count = s.connection.ref_count - 1 ∧
      released_counts (mqttClientConnectionWebsocketHandshakeComplete codes s throwable
        user_data apply_error).trace = released_counts s.trace ++ [s.connection.ref_count] := by
    cases throwable <;> cases apply_error <;>
      simp [mqttClientConnectionWebsocketHandshakeComplete, s_ws_handshake_destroy, hws, hne]
  obtain ⟨f1, f2, f3, f4, f5⟩ := hfacts
  have hlen : (mqttClientConnectionWebsocketHandshakeComplete codes s throwable user_data
      apply_error).ws_handshakes.length = s.ws_handshakes.length := by rw [f1]
  have hlv := live_ws_count_free s _ user_data hlen f2 hlive
  refine ⟨⟨?_, ?_, ?_⟩, ?_⟩
  · intro id hid
    rw [hlen] at hid
    have hne2 : ¬ user_data = id := fun e => by
      rw [e] at hj
      exact Nat.not_lt.mpr hid hj
    rw [f2 id, h1 id hid]
    simp [hne2]
  · omega
  · intro old ho
    rw [f5] at ho
    rcases List.mem_append.mp ho with ho | ho
    · exact h3 old ho
    · simp at ho
      omega
  · omega

theorem ws_handshake_transform_ref_inv (codes : ErrorCodes) (s : State) (request : Nat)
    (complete_ctx : Nat) (jvm : Jvm) (alloc_ok : Bool) (java_http_request : Option JObject)
    (hinv : RefInv s) (hroom : s.connection.ref_count < SIZE_MAX) :
    RefInv (s_ws_handshake_transform codes s request complete_ctx jvm alloc_ok
      java_http_request) ∧
    (s_ws_handshake_transform codes s request complete_ctx jvm alloc_ok
      java_http_request).connection.ref_count ≤ s.connection.ref_count + 1 := by
  have hne : s.connection.ref_count ≠ SIZE_MAX := Nat.ne_of_lt hroom
  by_cases hframe : jvm.thread_env = false ∨ alloc_ok = false
  · have hf : s.ref_framed (s_ws_handshake_transform codes s request complete_ctx jvm alloc_ok
        java_http_request) := by
      rcases hframe with h | h
      · simp [s_ws_handshake_transform, State.ref_framed, h]
      · cases he : jvm.thread_env <;>
          simp [s_ws_handshake_transform, s_ws_handshake_destroy, State.ref_framed, h, he]
    exact ⟨ref_inv_frame s _ hf hinv, by rw [hf.2.2.2.1]; omega⟩
  · have he : jvm.thread_env = true := by
      cases h : jvm.thread_env
      · exact absurd (Or.inl h) hframe
      · rfl
    have ha : alloc_ok = true := by
      cases h : alloc_ok
      · exact absurd (Or.inr h) hframe
      · rfl
    subst ha
    obtain ⟨h1, h2, h3⟩ := hinv
    have h0 := h1 s.ws_handshakes.length (Nat.le_refl _)
    cases java_http_request with
    | none =>
      have hfacts :
          (s_ws_handshake_transform codes s request complete_ctx jvm true
            none).ws_handshakes.length = s.ws_handshakes.length + 1 ∧
          (∀ id, (s_ws_handshake_transform codes s request complete_ctx jvm true
            none).ws_free_count id
              = s.ws_free_count id + (if s.ws_handshakes.length = id then 1 else 0)) ∧
          (s_ws_handshake_transform codes s request complete_ctx jvm true
            none).connects_pending = s.connects_pending ∧
          (s_ws_handshake_transform codes s request complete_ctx jvm true
            none).connection.ref_count = s.connection.ref_count ∧
          released_counts (s_ws_handshake_transform codes s request complete_ctx jvm true
            none).trace = released_counts s.trace ++ [s.connection.ref_count + 1] := by
        simp [s_ws_handshake_transform, s_ws_handshake_destroy, he, hne]
      obtain ⟨f1, f2, f3, f4, f5⟩ := hfacts
      have hlv := live_ws_count_alloc_free s _ f1 f2
      refine ⟨⟨?_, ?_, ?_⟩, ?_⟩
      · intro id hid
        rw [f1] at hid
        have hne2 : ¬ s.ws_handshakes.length = id := by omega
        rw [f2 id, h1 id (by omega)]
        simp [hne2]
      · omega
      · intro old ho
        rw [f5] at ho
        rcases List.mem_append.mp ho with ho | ho
        · exact h3 old ho
        · simp at ho
          omega
      · omega
    | some obj =>
      have hfacts :
          (s_ws_handshake_transform codes s request complete_ctx jvm true
            (some obj)).ws_handshakes.length = s.ws_handshakes.length + 1 ∧
          (∀ id, (s_ws_handshake_transform codes s request complete_ctx jvm true
            (some obj)).ws_free_count id = s.ws_free_count id) ∧
          (s_ws_handshake_transform codes s request complete_ctx jvm true
            (some obj)).connects_pending = s.connects_pending ∧
          (s_ws_handshake_transform codes s request complete_ctx jvm true
            (some obj)).connection.ref_count = s.connection.ref_count + 1 ∧
          released_counts (s_ws_handshake_transform codes s request complete_ctx jvm true
            (some obj)).trace = released_counts s.trace := by
        cases hn : new_local_ref s jvm <;> cases hx : jvm.exception_pending <;>
          simp [s_ws_handshake_transform, he, hne, hn, hx]
      obtain ⟨f1, f2, f3, f4, f5⟩ := hfacts
      have hlv := live_ws_count_alloc s _ f1 f2 h0
      refine ⟨⟨?_, ?_, ?_⟩, ?_⟩
      · intro id hid
        rw [f1] at hid
        rw [f2 id, h1 id (by omega)]
      · omega
      · rw [f5]
        exact h3
      · omega

theorem step_ref_inv (codes : ErrorCodes) (s : State) (a : Action) (hinv : RefInv s)
    (hroom : s.connection.ref_count < SIZE_MAX)
    (hlive : ∀ throwable user_data apply_error,
      a = Action.WebsocketHandshakeComplete throwable user_data apply_error →
      s.ws_live user_data = true) :
    RefInv (step codes s a) ∧
    (step codes s a).connection.ref_count ≤ s.connection.ref_count + 1 := by
  have hsame : RefInv s ∧ s.connection.ref_count ≤ s.connection.ref_count + 1 :=
    ⟨hinv, Nat.le_succ _⟩
  have hframe : ∀ s' : State, s.ref_framed s' →
      RefInv s' ∧ s'.connection.ref_count ≤ s.connection.ref_count + 1 := by
    intro s' hf
    refine ⟨ref_inv_frame s s' hf hinv, ?_⟩
    rw [hf.2.2.2.1]
    exact Nat.le_succ _
  unfold step
  split
  · exact hsame
  · cases a with
    | Destroy c disconnect_ok =>
      exact hframe _ (destroy_ref_framed s c disconnect_ok)
    | Connect c endpoint port so tls cid clean ka ping pto ok =>
      exact connect_ref_inv s c endpoint port so tls cid clean ka ping pto ok hinv hroom
    | Disconnect c ack ok jvm =>
      exact hframe _ (disconnect_ref_framed s c ack ok jvm)
    | Subscribe c topic qos handler ack msg_id =>
      exact hframe _ (subscribe_ref_framed s c topic qos handler ack msg_id)
    | OnMessage c handler ok =>
      exact hframe _ (on_message_ref_framed s c handler ok)
    | Unsubscribe c topic ack msg_id =>
      exact hframe _ (unsubscribe_ref_framed s c topic ack msg_id)
    | Publish c topic qos retain payload ack msg_id =>
      exact hframe _ (publish_ref_framed s c topic qos retain payload ack msg_id)
    | SetWill c topic qos retain payload ok =>
      exact hframe _ (set_will_ref_framed s c topic qos retain payload ok)
    | SetLogin c user pass ok =>
      exact hframe _ (set_login_ref_framed s c user pass ok)
    | SetReconnectTimeout c lo hi ok =>
      exact hframe _ (set_reconnect_timeout_ref_framed s c lo hi ok)
    | UseWebsockets c ok =>
      exact hframe _ (use_websockets_ref_framed s codes c ok)
    | WebsocketHandshakeComplete throwable user_data apply_error =>
      exact websocket_handshake_complete_ref_inv codes s throwable user_data apply_error hinv
        (hlive throwable user_data apply_error rfl)
    | SetHttpProxyOptions c ty host port tls aty user pass ok =>
      exact hframe _ (set_http_proxy_options_ref_framed s c ty host port tls aty user pass ok)
    | GetOperationStatistics c obj stats e1 e2 e3 e4 =>
      exact hframe _ (get_operation_statistics_ref_framed s codes c obj stats e1 e2 e3 e4)
    | on_connection_complete user_data error_code session_present jvm disconnect_ok =>
      dsimp only
      split
      · rename_i hp
        exact on_connection_complete_ref_inv s user_data error_code session_present jvm disconnect_ok hp hinv
      · exact hsame
    | on_connection_interrupted error_code jvm =>
      exact hframe _ (on_connection_interrupted_ref_framed s error_code jvm)
    | on_connection_success session_present jvm =>
      exact hframe _ (on_connection_success_ref_framed s session_present jvm)
    | on_connection_failure error_code jvm =>
      exact hframe _ (on_connection_failure_ref_framed s error_code jvm)
    | on_connection_resumed session_present jvm =>
      exact hframe _ (on_connection_resumed_ref_framed s session_present jvm)
    | on_connection_disconnected user_data jvm =>
      dsimp only
      split
      · exact hframe _
          (ref_framed_trans s _ _ (take_ref_framed s _)
          (on_connection_disconnected_ref_framed _ user_data jvm))
      · exact hsame
    | on_connection_closed jvm =>
      exact hframe _ (on_connection_closed_ref_framed s jvm)
    | on_connection_terminated jvm =>
      dsimp only
      split
      · exact hframe _
          (ref_framed_trans s _ _ (fire_termination_ref_framed s)
          (on_connection_terminated_ref_framed _ jvm))
      · exact hsame
    | on_shutdown_disconnect_complete =>
      dsimp only
      split
      · exact hframe _
          (ref_framed_trans s _ _ (take_ref_framed s _)
          (on_shutdown_disconnect_complete_ref_framed _))
      · exact hsame
    | on_op_complete user_data packet_id error_code jvm =>
      dsimp only
      split
      · exact hframe _
          (ref_framed_trans s _ _ (take_ref_framed s _)
          (on_op_complete_ref_framed _ packet_id error_code (some user_data) jvm))
      · exact hsame
    | on_ack user_data packet_id topic qos error_code jvm =>
      dsimp only
      split
      · exact hframe _
          (ref_framed_trans s _ _ (take_ref_framed s _)
          (on_ack_ref_framed _ codes packet_id topic qos error_code user_data jvm))
      · exact hsame
    | cleanup_handler user_data jvm =>
      dsimp only
      split
      · exact hframe _
          (ref_framed_trans s _ _ (take_ref_framed s _)
          (cleanup_handler_ref_framed _ user_data jvm))
      · exact hsame
    | on_subscription_delivered user_data topic payload dup qos retain jvm =>
      dsimp only
      split
      · exact hframe _
          (on_subscription_delivered_ref_framed s topic payload dup qos retain user_data jvm)
      · exact hsame
    | ws_handshake_transform request complete_ctx jvm alloc_ok java_http_request =>
      exact ws_handshake_transform_ref_inv codes s request complete_ctx jvm alloc_ok java_http_request
        hinv hroom

theorem run_ref_inv (codes : ErrorCodes) (actions : List Action) (s : State) (hinv : RefInv s)
    (hroom : s.connection.ref_count + actions.length < SIZE_MAX)
    (hlive : completes_live_bridges codes s actions = true) :
    RefInv (run codes s actions) := by
  induction actions generalizing s with
  | nil => exact hinv
  | cons a rest ih =>
    have hrun : run codes s (a :: rest) = run codes (step codes s a) rest := rfl
    rw [hrun]
    simp only [completes_live_bridges, Bool.and_eq_true] at hlive
    simp only [List.length_cons] at hroom
    obtain ⟨hl1, hl2⟩ := hlive
    have hstep := step_ref_inv codes s a hinv (by omega)
      (by
        intro throwable user_data apply_error ha
        subst ha
        exact hl1)
    exact ih (step codes s a) hstep.1 (by omega) hl2

theorem constructed_ref_inv (client3 client5_jni : Bool) (peer : Option JObject)
    (alloc_ok client_connection_ok termination_handler_ok : Bool)
    (h : (s_mqtt_connection_new client3 client5_jni peer alloc_ok client_connection_ok
      termination_handler_ok).2 = true) :
    RefInv (install_handlers (s_mqtt_connection_new client3 client5_jni peer alloc_ok
      client_connection_ok termination_handler_ok).1) ∧
    (install_handlers (s_mqtt_connection_new client3 client5_jni peer alloc_ok
      client_connection_ok termination_handler_ok).1).connection.ref_count = 1 := by
  cases client3 <;> cases client5_jni <;> cases alloc_ok <;> cases client_connection_ok <;>
    cases termination_handler_ok <;>
    simp [s_mqtt_connection_new, State.empty, State.emit] at h ⊢ <;>
    simp [RefInv, install_handlers, State.emit, State.ws_free_count, State.connects_pending,
      State.live_ws_count, released_counts, List.count_cons]

/-! ## Lifecycle notifications -/

/-- C21, counterexample: the six lifecycle callbacks run on a handle whose
peer is alive while the runtime cannot be attached.  None of them makes a call
on a managed object: each returns after the failed attachment. -/
theorem lifecycle_notifications_without_runtime :
    new_local_ref connecting_handle jvm_detached = some 100 ∧
    managed_calls (s_on_connection_complete connecting_handle 0 true 0 jvm_detached false).trace
      = [] ∧
    managed_calls (s_on_connection_success connecting_handle true jvm_detached).trace = [] ∧
    managed_calls (s_on_connection_failure connecting_handle 5 jvm_detached).trace = [] ∧
    managed_calls (s_on_connection_interrupted connecting_handle 5 jvm_detached).trace = [] ∧
    managed_calls (s_on_connection_resumed connecting_handle true jvm_detached).trace = [] ∧
    managed_calls (s_on_connection_closed connecting_handle jvm_detached).trace = [] ∧
    (s_on_connection_failure connecting_handle 5 jvm_detached).trace
      = connecting_handle.trace ++ [Event.acquire_thread_env false] := by
  decide

/-- C21, amended: with the runtime attached, each of the six lifecycle callbacks
(connection complete, success, failure, interrupted, resumed, closed) makes no
call on any managed object and raises no fatal assertion when the weak
reference to the peer resolves to nothing, and makes exactly one managed call
when the peer is alive: the corresponding peer method, with the error code and
session-present flag it received from the engine. -/
theorem lifecycle_notifications_best_effort (s : State) (error_code : Int)
    (session_present : Bool) (user_data : TokenId) (jvm : Jvm) (disconnect_ok : Bool)
    (henv : jvm.thread_env = true) :
    (new_local_ref s jvm = none →
      (managed_calls (s_on_connection_complete s error_code session_present user_data jvm
          disconnect_ok).trace = managed_calls s.trace ∧
        (s_on_connection_complete s error_code session_present user_data jvm
          disconnect_ok).crashed = s.crashed) ∧
      (managed_calls (s_on_connection_success s session_present jvm).trace
          = managed_calls s.trace ∧
        (s_on_connection_success s session_present jvm).crashed = s.crashed) ∧
      (managed_calls (s_on_connection_failure s error_code jvm).trace = managed_calls s.trace ∧
        (s_on_connection_failure s error_code jvm).crashed = s.crashed) ∧
      (managed_calls (s_on_connection_interrupted s error_code jvm).trace
          = managed_calls s.trace ∧
        (s_on_connection_interrupted s error_code jvm).crashed = s.crashed) ∧
      (managed_calls (s_on_connection_resumed s session_present jvm).trace
          = managed_calls s.trace ∧
        (s_on_connection_resumed s session_present jvm).crashed = s.crashed) ∧
      (managed_calls (s_on_connection_closed s jvm).trace = managed_calls s.trace ∧
        (s_on_connection_closed s jvm).crashed = s.crashed)) ∧
    (new_local_ref s jvm ≠ none →
      managed_calls (s_on_connection_complete s error_code session_present user_data jvm
          disconnect_ok).trace = managed_calls s.trace
          ++ [Event.peer (PeerCall.on_connection_complete error_code session_present)] ∧
      managed_calls (s_on_connection_success s session_present jvm).trace
        = managed_calls s.trace ++ [Event.peer (PeerCall.on_connection_success session_present)] ∧
      managed_calls (s_on_connection_failure s error_code jvm).trace
        = managed_calls s.trace ++ [Event.peer (PeerCall.on_connection_failure error_code)] ∧
      managed_calls (s_on_connection_interrupted s error_code jvm).trace
        = managed_calls s.trace
          ++ [Event.peer (PeerCall.on_connection_interrupted error_code none)] ∧
      managed_calls (s_on_connection_resumed s session_present jvm).trace
        = managed_calls s.trace ++ [Event.peer (PeerCall.on_connection_resumed session_present)] ∧
      managed_calls (s_on_connection_closed s jvm).trace
        = managed_calls s.trace ++ [Event.peer PeerCall.on_connection_closed]) := by
  cases hn : new_local_ref s jvm <;> cases hx : jvm.exception_pending <;>
    cases hc : s.crashed <;> cases disconnect_ok <;>
    simp [s_on_connection_complete, s_on_connection_success, s_on_connection_failure,
      s_on_connection_interrupted, s_on_connection_interrupted_internal,
      s_on_connection_resumed, s_on_connection_closed, henv, hn, hx, hc]

theorem lifecycle_notifications_best_effort_witness :
    jvm_up.thread_env = true ∧
    managed_calls (s_on_connection_failure fresh_handle 5 jvm_up).trace
      = managed_calls fresh_handle.trace ++ [Event.peer (PeerCall.on_connection_failure 5)] :=
  ⟨rfl, ((lifecycle_notifications_best_effort fresh_handle 5 true 0 jvm_up false rfl).2
    (by decide)).2.2.1⟩

/-! ## The reference count of an active handle -/

/-- C22: take a handle returned by construction and any run of dispatcher
calls and engine callbacks (the engine fires a completion only while it is
pending, so at most once) in which every handshake completion call is made on
a live bridge object, short enough for the count not to wrap upwards.  The
count starts at 1 and is at least 1 after the run: it covers the reference of
the peer, one reference per connect in flight and one per live bridge object;
and every release made during the run found a count of at least 2, so no
release took the count to 0 or below. -/
theorem reference_count_stays_positive (codes : ErrorCodes) (s0 : State) (jni_client : Int)
    (peer : Option JObject) (alloc_ok client_connection_ok termination_handler_ok : Bool)
    (actions : List Action)
    (hs0 : mqttClientConnectionNewFrom311Client jni_client peer alloc_ok client_connection_ok
        termination_handler_ok = (s0, true) ∨
      mqttClientConnectionNewFrom5Client jni_client peer alloc_ok client_connection_ok
        termination_handler_ok = (s0, true))
    (hlive : completes_live_bridges codes s0 actions = true)
    (hbound : actions.length + 1 < SIZE_MAX) :
    s0.connection.ref_count = 1 ∧
    1 ≤ (run codes s0 actions).connection.ref_count ∧
    1 + (run codes s0 actions).connects_pending + (run codes s0 actions).live_ws_count
      ≤ (run codes s0 actions).connection.ref_count ∧
    (∀ old_value ∈ released_counts (run codes s0 actions).trace, 2 ≤ old_value) := by
  have h0 : RefInv s0 ∧ s0.connection.ref_count = 1 := by
    rcases hs0 with h | h
    · unfold mqttClientConnectionNewFrom311Client at h
      split at h
      · simp at h
      · split at h
        · simp at h
        · rename_i s1 heq
          have hc := constructed_ref_inv true false peer alloc_ok client_connection_ok
            termination_handler_ok (by rw [heq])
          rw [heq] at hc
          simp only [Prod.mk.injEq, and_true] at h
          rw [← h]
          exact hc
    · unfold mqttClientConnectionNewFrom5Client at h
      split at h
      · simp at h
      · split at h
        · simp at h
        · rename_i s1 heq
          have hc := constructed_ref_inv false true peer alloc_ok client_connection_ok
            termination_handler_ok (by rw [heq])
          rw [heq] at hc
          simp only [Prod.mk.injEq, and_true] at h
          rw [← h]
          exact hc
  obtain ⟨hinv, hone⟩ := h0
  have h := run_ref_inv codes actions s0 hinv (by omega) hlive
  obtain ⟨h1, h2, h3⟩ := h
  exact ⟨hone, by omega, h2, h3⟩

theorem reference_count_stays_positive_witness :
    (mqttClientConnectionNewFrom311Client 1 (some 100) true true true = (fresh_handle, true) ∨
      mqttClientConnectionNewFrom5Client 1 (some 100) true true true = (fresh_handle, true)) ∧
    completes_live_bridges sample_codes fresh_handle handshake_run = true ∧
    handshake_run.length + 1 < SIZE_MAX ∧
    (fresh_handle.connection.ref_count = 1 ∧
      1 ≤ (run sample_codes fresh_handle handshake_run).connection.ref_count ∧
      1 + (run sample_codes fresh_handle handshake_run).connects_pending
          + (run sample_codes fresh_handle handshake_run).live_ws_count
        ≤ (run sample_codes fresh_handle handshake_run).connection.ref_count ∧
      (∀ old_value ∈ released_counts (run sample_codes fresh_handle handshake_run).trace,
        2 ≤ old_value)) :=
  ⟨Or.inl rfl, by decide, by decide,
    reference_count_stays_positive sample_codes fresh_handle 1 (some 100) true true true
      handshake_run (Or.inl rfl) (by decide) (by decide)⟩

/-! ## Scoped runtime attachment -/

/-- C23: every callback the engine invokes scopes its attachment to the
runtime.  On every path that does not end in a fatal assertion the callback
has made as many attachment releases as successful acquisitions when it
returns - the early exit of the connection-complete callback after a throwing
managed callback and both exits of the handshake transform included - and a
callback whose acquisition returned NULL makes no release. -/
theorem callbacks_scope_their_attachment (codes : ErrorCodes) (s : State) (error_code : Int)
    (session_present : Bool) (user_data : TokenId) (ack : Option TokenId) (jvm : Jvm)
    (disconnect_ok : Bool) (packet_id : Nat) (jni_topic : Option String) (topic : String)
    (payload : List Nat) (dup : Bool) (qos : Int) (retain : Bool) (request : Nat)
    (complete_ctx : Nat) (alloc_ok : Bool) (java_http_request : Option JObject) :
    s.scoped_attachment (s_on_connection_complete s error_code session_present user_data jvm
      disconnect_ok) jvm ∧
    s.scoped_attachment (s_on_connection_interrupted s error_code jvm) jvm ∧
    s.scoped_attachment (s_on_connection_success s session_present jvm) jvm ∧
    s.scoped_attachment (s_on_connection_failure s error_code jvm) jvm ∧
    s.scoped_attachment (s_on_connection_resumed s session_present jvm) jvm ∧
    s.scoped_attachment (s_on_connection_disconnected s user_data jvm) jvm ∧
    s.scoped_attachment (s_on_connection_closed s jvm) jvm ∧
    s.scoped_attachment (s_on_connection_terminated s jvm) jvm ∧
    s.scoped_attachment (s_on_op_complete s packet_id error_code ack jvm) jvm ∧
    s.scoped_attachment (s_on_ack codes s packet_id jni_topic qos error_code ack jvm) jvm ∧
    s.scoped_attachment (s_cleanup_handler s user_data jvm) jvm ∧
    s.scoped_attachment (s_on_subscription_delivered s topic payload dup qos retain user_data
      jvm) jvm ∧
    s.scoped_attachment (s_ws_handshake_transform codes s request complete_ctx jvm alloc_ok
      java_http_request) jvm ∧
    s.scoped_attachment (s_on_shutdown_disconnect_complete s) jvm := by
  have hop : ∀ (e : Int), s.scoped_attachment (s_on_op_complete s packet_id e ack jvm) jvm := by
    intro e
    cases ack with
    | none => simp [State.scoped_attachment, s_on_op_complete]
    | some callback =>
      by_cases h0 : e = 0 <;> cases he : jvm.thread_env <;> cases hx : jvm.exception_pending <;>
        cases hcb : s.async_callback callback <;> cases hc : s.crashed <;>
        simp [State.scoped_attachment, s_on_op_complete, s_deliver_ack_success,
          s_deliver_ack_failure, s_mqtt_jni_async_callback_destroy, h0, he, hx, hcb, hc] <;>
        omega
  refine ⟨?_, ?_, ?_, ?_, ?_, ?_, ?_, ?_, hop _, ?_, ?_, ?_, ?_, ?_⟩
  · cases he : jvm.thread_env <;> cases hx : jvm.exception_pending <;>
      cases hn : new_local_ref s jvm <;> cases disconnect_ok <;>
      simp [State.scoped_attachment, s_on_connection_complete,
        s_mqtt_jni_async_callback_destroy, he, hx, hn] <;> omega
  · cases he : jvm.thread_env <;> cases hx : jvm.exception_pending <;>
      cases hn : new_local_ref s jvm <;> cases hc : s.crashed <;>
      simp [State.scoped_attachment, s_on_connection_interrupted,
        s_on_connection_interrupted_internal, he, hx, hn, hc] <;> omega
  · cases he : jvm.thread_env <;> cases hx : jvm.exception_pending <;>
      cases hn : new_local_ref s jvm <;>
      simp [State.scoped_attachment, s_on_connection_success, he, hx, hn] <;> omega
  · cases he : jvm.thread_env <;> cases hx : jvm.exception_pending <;>
      cases hn : new_local_ref s jvm <;>
      simp [State.scoped_attachment, s_on_connection_failure, he, hx, hn] <;> omega
  · cases he : jvm.thread_env <;> cases hx : jvm.exception_pending <;>
      cases hn : new_local_ref s jvm <;>
      simp [State.scoped_attachment, s_on_connection_resumed, he, hx, hn] <;> omega
  · cases he : jvm.thread_env <;> cases hx : jvm.exception_pending <;>
      cases hn : new_local_ref s jvm <;> cases hc : s.crashed <;>
      simp [State.scoped_attachment, s_on_connection_disconnected,
        s_on_connection_interrupted_internal, s_mqtt_jni_async_callback_destroy, he, hx, hn,
        hc] <;> omega
  · cases he : jvm.thread_env <;> cases hx : jvm.exception_pending <;>
      cases hn : new_local_ref s jvm <;>
      simp [State.scoped_attachment, s_on_connection_closed, he, hx, hn] <;> omega
  · cases he : jvm.thread_env <;> cases hn : new_local_ref s jvm <;>
      cases hm : s.connection.on_message <;> cases hj : s.connection.java_mqtt_connection <;>
      simp [State.scoped_attachment, s_on_connection_terminated, s_mqtt_connection_destroy,
        s_mqtt_jni_async_callback_destroy, he, hn, hm, hj] <;> omega
  · exact hop _
  · cases he : jvm.thread_env <;>
      simp [State.scoped_attachment, s_cleanup_handler, s_mqtt_jni_async_callback_destroy,
        he]
    omega
  · cases he : jvm.thread_env <;> cases hx : jvm.exception_pending <;>
      cases hcb : s.async_callback user_data <;>
      simp [State.scoped_attachment, s_on_subscription_delivered, he, hx, hcb]
    omega
  · cases he : jvm.thread_env <;> cases hx : jvm.exception_pending <;>
      cases hn : new_local_ref s jvm <;> cases alloc_ok <;> cases java_http_request <;>
      simp [State.scoped_attachment, s_ws_handshake_transform, s_ws_handshake_destroy, he, hx,
        hn] <;> omega
  · simp [State.scoped_attachment, s_on_shutdown_disconnect_complete]

theorem callbacks_scope_their_attachment_witness :
    (s_on_connection_complete connecting_handle 0 true 0 jvm_throws true).crashed = false ∧
    (s_on_connection_complete connecting_handle 0 true 0 jvm_throws true).attach_count
        + connecting_handle.detach_count
      = connecting_handle.attach_count
        + (s_on_connection_complete connecting_handle 0 true 0 jvm_throws true).detach_count ∧
    (jvm_down.thread_env = false ∧
      (s_ws_handshake_transform sample_codes connecting_handle 7 9 jvm_down true
        (some 55)).detach_count = connecting_handle.detach_count) :=
  ⟨by decide,
    (callbacks_scope_their_attachment sample_codes connecting_handle 0 true 0 (some 0)
      jvm_throws true 7 (some "a/b") "a/b" [1, 2] false 1 false 7 9 true (some 55)).1.1
      (by decide),
    rfl,
    (callbacks_scope_their_attachment sample_codes connecting_handle 0 true 0 (some 0)
      jvm_down true 7 (some "a/b") "a/b" [1, 2] false 1 false 7 9 true (some 55)).2.2.2.2.2.2.2.2.2.2.2.2.1.2
      rfl⟩

/-! ## The reference of a connect whose managed callback throws -/

/-- C24: a connect is accepted on a fresh handle (count 1, then 2), the
managed connection-complete callback throws, the disconnect it triggers
completes and the connection is closed.  The connect token has been freed
once and nothing is pending, but no release was made and the count is still
2, not 1: neither `s_on_connection_disconnected` nor `s_on_connection_closed`
ever changes the count or releases a reference. -/
theorem connect_reference_never_released :
    (fresh_handle.connection.ref_count = 1 ∧
      (run sample_codes fresh_handle throwing_connect_run).connection.ref_count = 2 ∧
      (run sample_codes fresh_handle throwing_connect_run).destroy_count 0 = 1 ∧
      (run sample_codes fresh_handle throwing_connect_run).pending = [] ∧
      (run sample_codes fresh_handle throwing_connect_run).crashed = false ∧
      released_counts (run sample_codes fresh_handle throwing_connect_run).trace = []) ∧
    (∀ (s : State) (user_data : TokenId) (jvm : Jvm),
      (s_on_connection_disconnected s user_data jvm).connection.ref_count
        = s.connection.ref_count ∧
      released_counts (s_on_connection_disconnected s user_data jvm).trace
        = released_counts s.trace) ∧
    (∀ (s : State) (jvm : Jvm),
      (s_on_connection_closed s jvm).connection.ref_count = s.connection.ref_count ∧
      released_counts (s_on_connection_closed s jvm).trace = released_counts s.trace) := by
  refine ⟨by decide, ?_, ?_⟩
  · intro s user_data jvm
    cases he : jvm.thread_env <;> cases hx : jvm.exception_pending <;>
      cases hn : new_local_ref s jvm <;> cases hc : s.crashed <;>
      simp [s_on_connection_disconnected, s_on_connection_interrupted_internal,
        s_mqtt_jni_async_callback_destroy, he, hx, hn, hc]
  · intro s jvm
    cases he : jvm.thread_env <;> cases hx : jvm.exception_pending <;>
      cases hn : new_local_ref s jvm <;>
      simp [s_on_connection_closed, he, hx, hn]

/-! ## Engine errors in the subscribe acknowledgement -/

/-- C25, counterexample: the ack of an accepted subscribe, whose token holds
the caller's callback, is handled by `s_on_ack` with the engine error 7 while
the runtime cannot be attached.  The callback receives nothing, so no failure
carrying 7: the function only records the failed attachment. -/
theorem subscribe_error_without_runtime :
    subscribed_handle.async_callback 1 = some 11 ∧
    Pending.on_ack (some 1) ∈ subscribed_handle.pending ∧
    (s_on_ack sample_codes subscribed_handle 5 (some "a/b") 1 7 (some 1) jvm_down).trace
      = subscribed_handle.trace ++ [Event.acquire_thread_env false] ∧
    ack_deliveries (s_on_ack sample_codes subscribed_handle 5 (some "a/b") 1 7 (some 1)
      jvm_down).trace = [] ∧
    Event.on_failure 11 7 ∉ (s_on_ack sample_codes subscribed_handle 5 (some "a/b") 1 7 (some 1)
      jvm_down).trace := by
  decide

/-- C25, amended: for an ack token that holds a callback, with the runtime attached,
`s_on_ack` called with a non-zero error code delivers exactly one
notification, a failure carrying that very code, whatever the qos value. -/
theorem s_on_ack_forwards_engine_error (codes : ErrorCodes) (s : State) (packet_id : Nat)
    (topic : Option String) (qos : Int) (error_code : Int) (callback : TokenId) (cb : JObject)
    (jvm : Jvm) (hcb : s.async_callback callback = some cb) (henv : jvm.thread_env = true)
    (herr : error_code ≠ 0) :
    ack_deliveries (s_on_ack codes s packet_id topic qos error_code (some callback) jvm).trace
      = ack_deliveries s.trace ++ [Event.on_failure cb error_code] := by
  cases hx : jvm.exception_pending <;> cases hc : s.crashed <;>
    simp [s_on_ack, s_on_op_complete, s_deliver_ack_failure, s_deliver_ack_success, henv, herr,
      hx, hc, hcb, s_mqtt_jni_async_callback_destroy]

theorem s_on_ack_forwards_engine_error_witness :
    subscribed_handle.async_callback 1 = some 11 ∧ jvm_up.thread_env = true ∧ (7 : Int) ≠ 0 ∧
    ack_deliveries (s_on_ack sample_codes subscribed_handle 5 (some "a/b") 128 7 (some 1)
        jvm_up).trace = ack_deliveries subscribed_handle.trace ++ [Event.on_failure 11 7] :=
  ⟨by decide, rfl, by decide,
    s_on_ack_forwards_engine_error sample_codes subscribed_handle 5 (some "a/b") 128 7 1 11
      jvm_up (by decide) rfl (by decide)⟩

/-! ## A handshake error is never reported as success -/

/-- C26: when the handshake completion call supplies a throwable, the
completion function is called once with a non-zero error code (given that
`AWS_ERROR_UNKNOWN` is not 0): the carried code of a recognized runtime
exception when that code is not 0, and `AWS_ERROR_UNKNOWN` for a recognized
exception carrying 0 and for any other throwable. -/
theorem handshake_error_never_success (codes : ErrorCodes) (s : State) (jni_user_data : WsId)
    (ws_handshake : mqtt_jni_ws_handshake) (throwable : Throwable) (apply_error : Option Int)
    (hws : s.ws_handshakes[jni_user_data]? = some ws_handshake)
    (hunknown : codes.AWS_ERROR_UNKNOWN ≠ 0) :
    ∃ error_code : Int, error_code ≠ 0 ∧
      complete_calls (mqttClientConnectionWebsocketHandshakeComplete codes s (some throwable)
          jni_user_data apply_error).trace
        = complete_calls s.trace
          ++ [(ws_handshake.http_request, error_code, ws_handshake.complete_ctx)] ∧
      error_code = (match throwable with
        | Throwable.crt_runtime_exception code =>
          if code = 0 then codes.AWS_ERROR_UNKNOWN else code
        | Throwable.other => codes.AWS_ERROR_UNKNOWN) := by
  cases throwable with
  | crt_runtime_exception code =>
    by_cases h0 : code = 0
    · refine ⟨codes.AWS_ERROR_UNKNOWN, hunknown, ?_, ?_⟩ <;>
        simp [mqttClientConnectionWebsocketHandshakeComplete, hws, s_ws_handshake_destroy,
          AWS_ERROR_SUCCESS, h0]
    · refine ⟨code, h0, ?_, ?_⟩ <;>
        simp [mqttClientConnectionWebsocketHandshakeComplete, hws, s_ws_handshake_destroy,
          AWS_ERROR_SUCCESS, h0]
  | other =>
    refine ⟨codes.AWS_ERROR_UNKNOWN, hunknown, ?_, ?_⟩ <;>
      simp [mqttClientConnectionWebsocketHandshakeComplete, hws, s_ws_handshake_destroy,
        AWS_ERROR_SUCCESS]

theorem handshake_error_never_success_witness :
    handshaking_handle.ws_handshakes[0]? = some { http_request := 7, complete_ctx := 9 } ∧
    sample_codes.AWS_ERROR_UNKNOWN ≠ 0 ∧
    ∃ error_code : Int, error_code ≠ 0 ∧
      complete_calls (mqttClientConnectionWebsocketHandshakeComplete sample_codes
          handshaking_handle (some (Throwable.crt_runtime_exception 0)) 0 none).trace
        = complete_calls handshaking_handle.trace ++ [(7, error_code, 9)] ∧
      error_code = (match Throwable.crt_runtime_exception 0 with
        | Throwable.crt_runtime_exception code =>
          if code = 0 then sample_codes.AWS_ERROR_UNKNOWN else code
        | Throwable.other => sample_codes.AWS_ERROR_UNKNOWN) :=
  ⟨by decide, by decide,
    handshake_error_never_success sample_codes handshaking_handle 0
      { http_request := 7, complete_ctx := 9 } (Throwable.crt_runtime_exception 0) none
      (by decide) (by decide)⟩

/-! ## The keep-alive passed to the engine -/

/-- C27: on a valid handle and a non-zero port, whether or not the engine
then accepts, the connect dispatcher makes exactly one engine call, a connect
whose keep-alive is `keep_alive_secs` reduced modulo 2^16: a value in
0..65535 is passed as it is, and 65536 is passed as 0. -/
theorem connect_keep_alive_wraps (s : State) (jni_connection : Int)
    (jni_endpoint : Option String) (jni_port : Int) (jni_socket_options : Option SocketOptions)
    (jni_tls_ctx : Bool) (jni_client_id : Option String) (jni_clean_session : Bool)
    (keep_alive_secs : Int) (ping_timeout_ms : Int) (protocol_operation_timeout_ms : Int)
    (connect_ok : Bool)
    (hconn : jni_connection ≠ 0) (hport : jni_port ≠ 0)
    (hjint : -2 ^ 31 ≤ jni_port ∧ jni_port < 2 ^ 31) :
    ∃ options : ConnectOptions,
      engine_calls (mqttClientConnectionConnect s jni_connection jni_endpoint jni_port
          jni_socket_options jni_tls_ctx jni_client_id jni_clean_session keep_alive_secs
          ping_timeout_ms protocol_operation_timeout_ms connect_ok).trace
        = engine_calls s.trace ++ [EngineCall.connect options] ∧
      (options.keep_alive_time_secs : Int) = keep_alive_secs % 2 ^ 16 ∧
      (0 ≤ keep_alive_secs → keep_alive_secs ≤ 65535 →
        (options.keep_alive_time_secs : Int) = keep_alive_secs) ∧
      (keep_alive_secs = 65536 → options.keep_alive_time_secs = 0) := by
  have hp : ¬ (jni_port % 2 ^ 32).toNat = 0 := by
    obtain ⟨h1, h2⟩ := hjint
    omega
  have hp' : ¬ jni_port % 4294967296 ≤ 0 := by
    obtain ⟨h1, h2⟩ := hjint
    omega
  refine ⟨{ host_name := jni_endpoint
            port := (jni_port % 2 ^ 32).toNat
            socket_options := (match jni_socket_options with
              | some o => o
              | none => { stream := true, connect_timeout_ms := 3000 })
            tls_options := jni_tls_ctx
            client_id := jni_client_id
            keep_alive_time_secs := (keep_alive_secs % 2 ^ 16).toNat
            ping_timeout_ms := ping_timeout_ms
            protocol_operation_timeout_ms := protocol_operation_timeout_ms
            clean_session := jni_clean_session
            user_data := s.callbacks.length }, ?_, ?_, ?_, ?_⟩
  · cases jni_socket_options <;> cases jni_tls_ctx <;> cases connect_ok <;>
      simp [mqttClientConnectionConnect, s_mqtt_jni_async_callback_new,
        s_mqtt_jni_async_callback_destroy, hconn, hp, hp']
  · show ((keep_alive_secs % 2 ^ 16).toNat : Int) = keep_alive_secs % 2 ^ 16
    omega
  · intro h0 h1
    show ((keep_alive_secs % 2 ^ 16).toNat : Int) = keep_alive_secs
    omega
  · intro h
    show (keep_alive_secs % 2 ^ 16).toNat = 0
    omega

theorem connect_keep_alive_wraps_witness :
    (1 : Int) ≠ 0 ∧ (8883 : Int) ≠ 0 ∧ (-2 ^ 31 ≤ (8883 : Int) ∧ (8883 : Int) < 2 ^ 31) ∧
    ∃ options : ConnectOptions,
      engine_calls (mqttClientConnectionConnect fresh_handle 1 (some "broker") 8883 none false
          (some "client") true 65536 3000 0 true).trace
        = engine_calls fresh_handle.trace ++ [EngineCall.connect options] ∧
      (options.keep_alive_time_secs : Int) = 65536 % 2 ^ 16 ∧
      (0 ≤ (65536 : Int) → (65536 : Int) ≤ 65535 →
        (options.keep_alive_time_secs : Int) = 65536) ∧
      ((65536 : Int) = 65536 → options.keep_alive_time_secs = 0) :=
  ⟨by decide, by decide, by decide,
    connect_keep_alive_wraps fresh_handle 1 (some "broker") 8883 none false (some "client") true
      65536 3000 0 true (by decide) (by decide) (by decide)⟩

end MqttConnection
